import Mathlib

/-! # MinimalTurbulence.cpp: a shallow embedding

The program is a console sample that glues an application to the PhysX / APEX
SDKs.  Its own logic is the bring-up / tear-down sequence, the callback classes
handed to the SDK, and the frame loop of `main`.

Conventions of the embedding:

* a C pointer is an `Option Handle`; `none` is `NULL`;
* a C string is the list of its characters before the terminating NUL;
* `printf` and the calls made on SDK objects are recorded, in program order, as
  a list of `Event`s;
* what an SDK call answers is read from an environment record (one field per
  call), so that every theorem quantifies over all answers of the SDK;
* dereferencing a `NULL` pointer, writing past a buffer or through a pointer
  to no live object, and the CRT invalid-parameter handler are `Fault`s: the function returns `Except.error`;
* a `PxF32` literal is the rational number it denotes (rounding is not
  modelled); floats that are only copied or printed are carried unchanged.
-/

namespace MinimalTurbulence

/-! ## Basic types -/

/-- Address of an object; `NULL` is `none` in `Option Handle`. -/
abbrev Handle := Nat

/-- C string: the characters before the terminating NUL. -/
abbrev CStr := List Char

/-- PhysX 32-bit float; literals are modelled by their exact value. -/
abbrev PxF32 := Rat

/-- PhysX three-component vector. -/
structure PxVec3 where
  x : PxF32
  y : PxF32
  z : PxF32
deriving DecidableEq, Repr

/-- Undefined or aborting behaviour of the C++ program. -/
inductive Fault
  | nullDeref
  | invalidParameter
  | outOfBounds
  | wildPointer
deriving DecidableEq, Repr

/-! ## C runtime string functions used by the program -/

/-- C runtime `strcmp`: zero exactly on equal strings, otherwise the sign of the
first differing character (a shorter string is smaller). -/
def strcmp : CStr → CStr → Int
  | [], [] => 0
  | [], _ :: _ => -1
  | _ :: _, [] => 1
  | a :: as, b :: bs =>
    if a = b then strcmp as bs else if a.toNat < b.toNat then -1 else 1

/-- MSVC runtime `stricmp`: `strcmp` on the lower-cased strings. -/
def stricmp (a b : CStr) : Int :=
  strcmp (a.map Char.toLower) (b.map Char.toLower)

/-- Equality ignoring case, as the documentation words it (used to compare
with `stricmp`). -/
def equalsIgnoreCase (a b : CStr) : Prop :=
  a.map Char.toLower = b.map Char.toLower

instance (a b : CStr) : Decidable (equalsIgnoreCase a b) := by
  unfold equalsIgnoreCase; infer_instance

/-! ## `main` -/

/-- What `main` does that is visible from outside: its own `printf`s and the
`AppContext` methods it calls, in program order. -/
inductive Call
  | printf (fmt : String)
  | initPhysX
  | initAPEX
  | initAssetsAndActors (useTurbulence : Bool)
  | addParticle
  | simulateFrame (dt : PxF32)
  | printParticleData
  | destroyAssetsAndActors
  | destroyAPEX
  | destroyPhysX
deriving DecidableEq, Repr

/-- The `AppContext` members `main` uses, over the state `σ` of the `app`
object and of the SDK behind it.  A call returns its result and the new
state, or ends in a fault (the program does not go on). -/
structure AppMethods (σ : Type) where
  construct : σ
  initPhysX : σ → Except Fault (Bool × σ)
  initAPEX : σ → Except Fault (Bool × σ)
  initAssetsAndActors : Bool → σ → Except Fault (Bool × σ)
  addParticle : σ → Except Fault σ
  simulateFrame : PxF32 → σ → Except Fault σ
  printParticleData : σ → Except Fault σ
  destroyAssetsAndActors : σ → Except Fault σ
  destroyAPEX : σ → Except Fault σ
  destroyPhysX : σ → Except Fault σ

/-- Result of a run of `main`: the exit code, or the fault that ended the
run; the last state reached; the calls made, the faulting one included. -/
structure MainRun (σ : Type) where
  ret : Except Fault Int
  app : σ
  log : List Call

/-- Result of a part of `main`: the fault that ended the run, if any; the last
state reached; the calls made so far. -/
structure Steps (σ : Type) where
  fault : Option Fault
  app : σ
  log : List Call

/-- Lines 973-980 of `main`: `useTurbulence` starts `true` and is cleared when
`argc > 1` and `stricmp(argv[1], "noTurbulence")` is zero.  `argc` is the
length of `argv`. -/
def useTurbulence (argv : List CStr) : Bool :=
  if argv.length > 1 then
    match argv[1]? with
    | some arg => if stricmp arg "noTurbulence".toList = 0 then false else true
    | none => true
  else true

/-- One pass of the body of the frame loop (lines 1004-1006). -/
def frame {σ : Type} (m : AppMethods σ) (s : σ) (log : List Call) : Steps σ :=
  let log1 := log ++ [Call.addParticle]
  match m.addParticle s with
  | Except.error e => ⟨some e, s, log1⟩
  | Except.ok s1 =>
    let log2 := log1 ++ [Call.simulateFrame (1 / 60)]
    match m.simulateFrame (1 / 60) s1 with
    | Except.error e => ⟨some e, s1, log2⟩
    | Except.ok s2 =>
      let log3 := log2 ++ [Call.printParticleData]
      match m.printParticleData s2 with
      | Except.error e => ⟨some e, s2, log3⟩
      | Except.ok s3 => ⟨none, s3, log3⟩

/-- The loop `for (PxU32 i = 0; i < 8; i++)` entered with `i = 8 - n`:
`n` passes remain. -/
def frameLoop {σ : Type} (m : AppMethods σ) : Nat → σ → List Call → Steps σ
  | 0, s, log => ⟨none, s, log⟩
  | n + 1, s, log =>
    match (frame m s log).fault with
    | some e => ⟨some e, (frame m s log).app, (frame m s log).log⟩
    | none => frameLoop m n (frame m s log).app (frame m s log).log

/-- The end of `main` (lines 1009-1013): the three tear-down calls and
`return 0`. -/
def tearDown {σ : Type} (m : AppMethods σ) (s : σ) (log : List Call) : MainRun σ :=
  let log1 := log ++ [Call.destroyAssetsAndActors]
  match m.destroyAssetsAndActors s with
  | Except.error e => ⟨Except.error e, s, log1⟩
  | Except.ok s1 =>
    let log2 := log1 ++ [Call.destroyAPEX]
    match m.destroyAPEX s1 with
    | Except.error e => ⟨Except.error e, s1, log2⟩
    | Except.ok s2 =>
      let log3 := log2 ++ [Call.destroyPhysX]
      match m.destroyPhysX s2 with
      | Except.error e => ⟨Except.error e, s2, log3⟩
      | Except.ok s3 => ⟨Except.ok 0, s3, log3⟩

/-- The function `main` (lines 969-1014). -/
def main {σ : Type} (m : AppMethods σ) (argv : List CStr) : MainRun σ :=
  let log0 := [Call.printf "APEX Particle Sample\n"]
  let useTurb := useTurbulence argv
  let app := m.construct
  let log1 := log0 ++ [Call.initPhysX]
  match m.initPhysX app with
  | Except.error e => ⟨Except.error e, app, log1⟩
  | Except.ok (false, s1) =>
    ⟨Except.ok 1, s1, log1 ++ [Call.printf "PhysX initialization failed, exiting\n"]⟩
  | Except.ok (true, s1) =>
    let log2 := log1 ++ [Call.initAPEX]
    match m.initAPEX s1 with
    | Except.error e => ⟨Except.error e, s1, log2⟩
    | Except.ok (false, s2) =>
      ⟨Except.ok 1, s2, log2 ++ [Call.printf "APEX initialization failed, exiting\n"]⟩
    | Except.ok (true, s2) =>
      let log3 := log2 ++ [Call.initAssetsAndActors useTurb]
      match m.initAssetsAndActors useTurb s2 with
      | Except.error e => ⟨Except.error e, s2, log3⟩
      | Except.ok (false, s3) =>
        ⟨Except.ok 1, s3,
          log3 ++ [Call.printf "Asset and Actor initialization failed, exiting\n"]⟩
      | Except.ok (true, s3) =>
        match (frameLoop m 8 s3 log3).fault with
        | some e => ⟨Except.error e, (frameLoop m 8 s3 log3).app, (frameLoop m 8 s3 log3).log⟩
        | none => tearDown m (frameLoop m 8 s3 log3).app (frameLoop m 8 s3 log3).log

/-- The function `WinMain` (lines 1018-1050): it calls `main` with `argc = 2` and
`argv = {"MinimalTurbulence", cmdLine}`, ignores its result and returns 0.
The console set-up and the wait for ENTER are not modelled. -/
def WinMain {σ : Type} (m : AppMethods σ) (cmdLine : CStr) : MainRun σ :=
  let r := main m ["MinimalTurbulence".toList, cmdLine]
  match r.ret with
  | Except.error e => ⟨Except.error e, r.app, r.log⟩
  | Except.ok _ => ⟨Except.ok 0, r.app, r.log ++ [Call.printf "Press ENTER to exit\n"]⟩

/-- A small instance of `AppMethods`: the state counts the method calls made,
every call returns, and the three initialisation steps answer the given
booleans. -/
def countingApp (okPhysX okAPEX okAssets : Bool) : AppMethods Nat where
  construct := 0
  initPhysX := fun n => Except.ok (okPhysX, n + 1)
  initAPEX := fun n => Except.ok (okAPEX, n + 1)
  initAssetsAndActors := fun _ n => Except.ok (okAssets, n + 1)
  addParticle := fun n => Except.ok (n + 1)
  simulateFrame := fun _ n => Except.ok (n + 1)
  printParticleData := fun n => Except.ok (n + 1)
  destroyAssetsAndActors := fun n => Except.ok (n + 1)
  destroyAPEX := fun n => Except.ok (n + 1)
  destroyPhysX := fun n => Except.ok (n + 1)

/-! ## Events at the SDK boundary and on the console -/

/-- Argument of a `printf` call. -/
inductive PrintfArg
  | int (v : Int)
  | str (s : CStr)
  | float (v : PxF32)
deriving DecidableEq, Repr

/-- Objects made by the factory functions of the SDKs. -/
inductive SdkObject
  | foundation
  | physics
  | cooking
  | cpuDispatcher
  | cudaContextManager
  | physxScene
  | apexActor (asset : Handle)
  | apexSDK
  | apexModule (name : String)
  | apexScene
  | renderVolume
deriving DecidableEq, Repr

/-- One observable step: console output or a call made on the SDK.
Changes of the console colour (`ConsoleTextColor`) are not recorded. -/
inductive Event
  | printf (fmt : String) (args : List PrintfArg)
  | create (what : SdkObject) (result : Option Handle)
  | release (obj : Handle)
  | method (obj : Handle) (name : String)
  | createStream (file : CStr)
  | deserialize (file : CStr)
  | createAsset (params : Handle) (name : CStr) (result : Option Handle)
  | getResource (nameSpace name : CStr) (result : Option Handle)
  | setResource (nameSpace name : CStr) (resource : Handle) (incRefCount : Bool)
  | setParamBool (name : String) (value : Bool)
  | setPose (actor : Handle) (position : PxVec3)
  | setExternalVelocity (actor : Handle) (velocity : PxVec3)
  | resetParticleList (actor : Handle)
  | addParticleList (actor : Handle) (particles : List (PxVec3 × PxVec3))
  | lockRenderResources (obj : Handle)
  | unlockRenderResources (obj : Handle)
  | updateRenderResources (actor : Handle) (rewriteBuffers : Bool) (userRenderData : CStr)
  | simulate (scene : Handle) (dt : PxF32)
  | releaseNamedResource (nameSpace name : CStr)
  | releaseRenderVolume (module volume : Handle)
deriving DecidableEq, Repr

/-! ## `releaseAndClear` -/

/-- The helper `releaseAndClear` (lines 90-98): the new value of the pointer
and the calls made. -/
def releaseAndClear (resource : Option Handle) : Option Handle × List Event :=
  match resource with
  | some h => (none, [Event.release h])
  | none => (resource, [])

/-! ## `AppApexResourceCallback` -/

/-- CRT `strcpy_s(dst, size, src)`: the new content of `dst`; the
invalid-parameter handler runs when `src` and its NUL do not fit. -/
def strcpy_s (size : Nat) (src : CStr) : Except Fault CStr :=
  if src.length + 1 ≤ size then Except.ok src else Except.error Fault.invalidParameter

/-- CRT `sprintf_s(dst, size, fmt, s)` for a format that is a literal followed
by one `%s` (here `"../%s"`): the new content of `dst`. -/
def sprintf_s (size : Nat) (literal : CStr) (s : CStr) : Except Fault CStr :=
  if (literal ++ s).length + 1 ≤ size then Except.ok (literal ++ s)
  else Except.error Fault.invalidParameter

/-- The loop of `searchForPath` (lines 190-199) with `n` passes left and
`outBuffer` holding `buf`; `fileExists p` says that `GetFileAttributes(p)` is
not `INVALID_FILE_ATTRIBUTES`. -/
def searchLoop (fileExists : CStr → Bool) (outBufferSize : Nat) :
    Nat → CStr → Except Fault (Bool × CStr)
  | 0, buf => Except.ok (false, buf)
  | n + 1, buf =>
    if fileExists buf = false then
      match sprintf_s outBufferSize "../".toList buf with
      | Except.error e => Except.error e
      | Except.ok tmp =>
        match strcpy_s outBufferSize tmp with
        | Except.error e => Except.error e
        | Except.ok buf2 => searchLoop fileExists outBufferSize n buf2
    else Except.ok (true, buf)

/-- The method `searchForPath` (lines 186-201): the returned flag and the final
content of `outBuffer`. -/
def searchForPath (fileExists : CStr → Bool) (path : CStr) (outBufferSize : Nat)
    (maxRecursion : Int) : Except Fault (Bool × CStr) :=
  match strcpy_s outBufferSize path with
  | Except.error e => Except.error e
  | Except.ok buf => searchLoop fileExists outBufferSize maxRecursion.toNat buf

/-- The candidate tried in pass `k` of the search: `path` behind `k` copies
of `"../"`. -/
def upDirs : Nat → CStr → CStr
  | 0, path => path
  | k + 1, path => "../".toList ++ upDirs k path

/-- Name-space constants of the APEX headers (not part of this source file);
every theorem takes them as parameters. -/
structure ApexNames where
  APEX_MATERIALS_NAME_SPACE : CStr
  NX_APEX_EMITTER_AUTHORING_TYPE_NAME : CStr
  NX_IOFX_AUTHORING_TYPE_NAME : CStr
  NX_BASIC_IOS_AUTHORING_TYPE_NAME : CStr
  NX_TURBULENCE_FS_AUTHORING_TYPE_NAME : CStr

/-- The Windows constant `MAX_PATH`. -/
def MAX_PATH : Nat := 260

/-- What the resource callback reads from outside: header constants, the
build macro `MEDIA_APEX`, the file system, and the answers of the APEX SDK. -/
structure ResourceEnv where
  names : ApexNames
  MEDIA_APEX : CStr
  fileExists : CStr → Bool
  streamIsOpen : CStr → Bool
  deserialize : CStr → List Handle
  createAsset : Handle → CStr → Option Handle

/-- Data members of `AppApexResourceCallback` (lines 297-299); `material` is
the address of the member of that name. -/
structure AppApexResourceCallback where
  mApexSDK : Option Handle
  mPathToMedia : CStr
  material : Handle
deriving DecidableEq, Repr

/-- The constructor of `AppApexResourceCallback` (lines 172-176), for an object
whose `material` member lives at `material`. -/
def AppApexResourceCallback.new (material : Handle) : AppApexResourceCallback :=
  { mApexSDK := none, mPathToMedia := [], material := material }

/-- The method `setApexSDK` (lines 178-181). -/
def AppApexResourceCallback.setApexSDK (self : AppApexResourceCallback)
    (apexSDK : Option Handle) : AppApexResourceCallback :=
  { self with mApexSDK := apexSDK }

/-- The constant `ASSET_PATH_UNDER_MEDIA` (line 132). -/
def ASSET_PATH_UNDER_MEDIA (env : ResourceEnv) : CStr :=
  "/".toList ++ env.MEDIA_APEX

/-- The file name built at lines 235-240. -/
def assetFileName (env : ResourceEnv) (pathToMedia name : CStr) : CStr :=
  pathToMedia ++ ASSET_PATH_UNDER_MEDIA env ++ "/MinimalTurbulence/".toList ++ name ++
    ".apx".toList

/-- The method `requestResource` (lines 204-275): the returned pointer, the
callback object afterwards, and the events. -/
def requestResource (env : ResourceEnv) (self : AppApexResourceCallback)
    (nameSpace name : CStr) :
    Except Fault (Option Handle × AppApexResourceCallback × List Event) :=
  match self.mApexSDK with
  | none => Except.ok (none, self, [])
  | some _ =>
    let out := [Event.printf "requestResource called for <%s> %s\n"
      [PrintfArg.str nameSpace, PrintfArg.str name]]
    if strcmp nameSpace env.names.APEX_MATERIALS_NAME_SPACE = 0 then
      Except.ok (some self.material, self, out)
    else if strcmp nameSpace env.names.NX_APEX_EMITTER_AUTHORING_TYPE_NAME = 0 ∨
        strcmp nameSpace env.names.NX_IOFX_AUTHORING_TYPE_NAME = 0 ∨
        strcmp nameSpace env.names.NX_BASIC_IOS_AUTHORING_TYPE_NAME = 0 ∨
        strcmp nameSpace env.names.NX_TURBULENCE_FS_AUTHORING_TYPE_NAME = 0 then
      let found : Except Fault (Bool × CStr) :=
        match self.mPathToMedia with
        | [] => searchForPath env.fileExists "media".toList MAX_PATH 20
        | c :: cs => Except.ok (true, c :: cs)
      match found with
      | Except.error e => Except.error e
      | Except.ok (false, buf) =>
        Except.ok (none, { self with mPathToMedia := buf },
          out ++ [Event.printf "Error: requestResources cannot find the media folder\n" []])
      | Except.ok (true, buf) =>
        let self2 := { self with mPathToMedia := buf }
        let filename := assetFileName env buf name
        let out2 := out ++ [Event.createStream filename]
        if env.streamIsOpen filename = false then
          Except.ok (none, self2, out2 ++
            [Event.printf "Error: requestResources failed to open %s\n" [PrintfArg.str filename]])
        else
          match env.deserialize filename with
          | [params] =>
            let asset := env.createAsset params name
            let out3 := out2 ++ [Event.deserialize filename, Event.createAsset params name asset]
            match asset with
            | none =>
              Except.ok (none, self2, out3 ++
                [Event.printf "Error: requestResources failed to create asset from %s\n"
                  [PrintfArg.str filename]])
            | some a => Except.ok (some a, self2, out3)
          | data =>
            Except.ok (none, self2, out2 ++ [Event.deserialize filename,
              Event.printf "Error: requestResources found %i objects in %s\n"
                [PrintfArg.int data.length, PrintfArg.str filename]])
    else
      Except.ok (none, self, out ++ [Event.printf "requestResource: <%s> %s\n"
        [PrintfArg.str nameSpace, PrintfArg.str name]])

/-- The method `releaseResource` (lines 277-295): the events. -/
def releaseResource (names : ApexNames) (self : AppApexResourceCallback)
    (nameSpace name : CStr) (resource : Handle) : List Event :=
  match self.mApexSDK with
  | none => []
  | some _ =>
    let out := [Event.printf "releaseResources called for <%s> %s\n"
      [PrintfArg.str nameSpace, PrintfArg.str name]]
    if strcmp nameSpace names.NX_APEX_EMITTER_AUTHORING_TYPE_NAME = 0 ∨
        strcmp nameSpace names.NX_IOFX_AUTHORING_TYPE_NAME = 0 ∨
        strcmp nameSpace names.NX_BASIC_IOS_AUTHORING_TYPE_NAME = 0 ∨
        strcmp nameSpace names.NX_TURBULENCE_FS_AUTHORING_TYPE_NAME = 0 then
      out ++ [Event.release resource]
    else out

/-- How many times `release` is called on `obj` in a run. -/
def releaseCount (obj : Handle) (events : List Event) : Nat :=
  events.count (Event.release obj)

/-- The objects released in a run, in order. -/
def releasedObjects : List Event → List Handle
  | [] => []
  | Event.release h :: rest => h :: releasedObjects rest
  | _ :: rest => releasedObjects rest

/-! ## `AppSpriteBuffer` -/

/-- The record `AppSpriteBuffer::SpriteData` (lines 346-350). -/
structure SpriteData where
  position : PxVec3
  lifeRemaining : PxF32
deriving DecidableEq, Repr

/-- The constant `AppSpriteBuffer::MAX_SPRITE_COUNT` (line 352). -/
abbrev MAX_SPRITE_COUNT : Nat := 20

/-- The value of `sizeof(SpriteData)`: four 32-bit floats. -/
abbrev sizeofSpriteData : Nat := 16

/-- Number of values of a `PxU32`. -/
abbrev U32 : Nat := 2 ^ 32

/-- The Windows target the program is built for; it fixes the width of
`size_t`. -/
inductive Target
  | x86
  | x64
deriving DecidableEq, Repr

/-- Width of `size_t` in bits. -/
def Target.sizeBits : Target → Nat
  | Target.x86 => 32
  | Target.x64 => 64

/-- A 32-bit pattern read as a signed `int`, as `printf("%i")` and
`printf("%d")` do. -/
def asInt32 (u : Nat) : Int :=
  if u < 2 ^ 31 then (u : Int) else (u : Int) - 2 ^ 32

/-- Data members of `AppSpriteBuffer` (lines 353-354). -/
structure AppSpriteBuffer where
  mSpriteData : Fin MAX_SPRITE_COUNT → SpriteData
  mContextData : Option CStr

/-- The constructor `AppSpriteBuffer()` (lines 306-307); it leaves `mSpriteData`
uninitialised, `uninit` is what the memory holds. -/
def AppSpriteBuffer.new (uninit : Fin MAX_SPRITE_COUNT → SpriteData) : AppSpriteBuffer :=
  { mSpriteData := uninit, mContextData := none }

/-- The call `memcpy(&mSpriteData[firstSprite], data, bytes)` (line 337), where
`bytes` is a multiple of the record size: record `i` of `data` goes to slot
`firstSprite + i`; a copy that runs past the array is a fault. -/
def memcpySprites (dst : Fin MAX_SPRITE_COUNT → SpriteData) (firstSprite : Nat)
    (data : Nat → SpriteData) (bytes : Nat) :
    Except Fault (Fin MAX_SPRITE_COUNT → SpriteData) :=
  let n := bytes / sizeofSpriteData
  if firstSprite + n ≤ MAX_SPRITE_COUNT then
    Except.ok (fun i =>
      if firstSprite ≤ i.val ∧ i.val < firstSprite + n then data (i.val - firstSprite)
      else dst i)
  else Except.error Fault.outOfBounds

/-- The line printed for one position (line 342). -/
def positionLine (pos : PxVec3) : Event :=
  Event.printf " (%.1f, %.1f, %.1f)\n"
    [PrintfArg.float pos.x, PrintfArg.float pos.y, PrintfArg.float pos.z]

/-- The loop of lines 339-343 with `n` passes left and loop variable `i`; it
reads `spriteBuffer[i]`, that is `mSpriteData[firstSprite + i]`. -/
def printPositions (arr : Fin MAX_SPRITE_COUNT → SpriteData) (firstSprite : Nat) :
    Nat → Nat → Except Fault (List Event)
  | 0, _ => Except.ok []
  | n + 1, i =>
    if h : firstSprite + i < MAX_SPRITE_COUNT then
      match printPositions arr firstSprite n (i + 1) with
      | Except.error e => Except.error e
      | Except.ok rest => Except.ok (positionLine (arr ⟨firstSprite + i, h⟩).position :: rest)
    else Except.error Fault.outOfBounds

/-- What `writeBuffer` prints before it looks at the range (lines 312-321). -/
def writeBufferHeader (self : AppSpriteBuffer) (firstSprite numSprites : Nat) : List Event :=
  [Event.printf "writeBuffer called for %i sprites with "
    [PrintfArg.int (asInt32 ((numSprites + U32 - firstSprite) % U32))]] ++
  (match self.mContextData with
   | some c => [Event.printf "this context: (%s)\n" [PrintfArg.str c]]
   | none => [Event.printf "no context\n" []])

/-- The method `AppSpriteBuffer::writeBuffer` (lines 309-344); `firstSprite`
and `numSprites` are `PxU32` values, `data c` is record `c` of the memory at
`data`. -/
def writeBuffer (t : Target) (self : AppSpriteBuffer) (data : Nat → SpriteData)
    (firstSprite numSprites : Nat) : Except Fault (AppSpriteBuffer × List Event) :=
  let out := writeBufferHeader self firstSprite numSprites
  if firstSprite ≥ MAX_SPRITE_COUNT then
    Except.ok (self, out ++
      [Event.printf "Warning, writeBuffer called with firstSprite = %d"
        [PrintfArg.int (asInt32 firstSprite)]])
  else
    let tooMany : Bool := decide ((firstSprite + numSprites) % U32 > MAX_SPRITE_COUNT)
    let out1 := if tooMany then out ++
        [Event.printf "Warning, writeBuffer called with %d sprites\n"
          [PrintfArg.int (asInt32 numSprites)]]
      else out
    let numSprites1 := if tooMany then (MAX_SPRITE_COUNT + U32 - firstSprite) % U32 else numSprites
    match memcpySprites self.mSpriteData firstSprite data
        ((numSprites1 * sizeofSpriteData) % 2 ^ t.sizeBits) with
    | Except.error e => Except.error e
    | Except.ok arr =>
      match printPositions arr firstSprite numSprites1 0 with
      | Except.error e => Except.error e
      | Except.ok lines =>
        Except.ok ({ self with mSpriteData := arr },
          out1 ++ [Event.printf "Position Data: \n" []] ++ lines)

/-! ## `AppRenderResource` and `AppRenderResourceManager`: data -/

/-- Data member of `AppRenderResource` (line 420). -/
structure AppRenderResource where
  mSpriteBuffer : Option Handle
deriving DecidableEq, Repr

/-- Data members of `AppRenderResourceManager` (lines 555-556); an element of
a `std::list` is kept with its address. -/
structure AppRenderResourceManager where
  mRenderResourceList : List (Handle × AppRenderResource)
  mSpriteBufferList : List (Handle × AppSpriteBuffer)

/-! ## `AppContext` -/

/-- Data members of `AppContext` (lines 939-964) that carry state. -/
structure AppContext where
  mApexResourceCallback : AppApexResourceCallback
  mApexRenderResourceManager : AppRenderResourceManager
  mFoundationSDK : Option Handle
  mPhysxSDK : Option Handle
  mPhysxCooking : Option Handle
  mPhysxScene : Option Handle
  mThreadPool : Option Handle
  mCudaContext : Option Handle
  mApexSDK : Option Handle
  mApexScene : Option Handle
  mParticlesModule : Option Handle
  mTurbulenceFSModule : Option Handle
  mIofxModule : Option Handle
  mLegacyModule : Option Handle
  mRenderVolume : Option Handle
  mEmitterAsset : Option Handle
  mEmitterActor : Option Handle
  mTurbulenceAsset : Option Handle
  mTurbulenceActor : Option Handle

/-- The constructor of `AppContext` (lines 575-593), for an object whose
resource callback keeps its `material` member at `material`. -/
def AppContext.new (material : Handle) : AppContext :=
  { mApexResourceCallback := AppApexResourceCallback.new material
    mApexRenderResourceManager := { mRenderResourceList := [], mSpriteBufferList := [] }
    mFoundationSDK := none
    mPhysxSDK := none
    mPhysxCooking := none
    mPhysxScene := none
    mThreadPool := none
    mCudaContext := none
    mApexSDK := none
    mApexScene := none
    mParticlesModule := none
    mTurbulenceFSModule := none
    mIofxModule := none
    mLegacyModule := none
    mRenderVolume := none
    mEmitterAsset := none
    mEmitterActor := none
    mTurbulenceAsset := none
    mTurbulenceActor := none }

/-- Answers of the PhysX SDK to the calls of `initPhysX`. -/
structure PhysXEnv where
  PxCreateFoundation : Option Handle
  PxCreatePhysics : Option Handle
  PxCreateCooking : Option Handle
  PxDefaultCpuDispatcherCreate : Option Handle
  PxCreateCudaContextManager : Option Handle
  contextIsValid : Bool
  getGpuDispatcher : Option Handle
  sceneDescIsValid : Option Handle → Option Handle → Bool
  createScene : Option Handle

/-- The method `AppContext::initPhysX` (lines 595-654). -/
def initPhysX (env : PhysXEnv) (self : AppContext) :
    Except Fault (Bool × AppContext × List Event) :=
  let self1 := { self with mFoundationSDK := env.PxCreateFoundation }
  let t1 := [Event.create SdkObject.foundation env.PxCreateFoundation]
  match self1.mFoundationSDK with
  | none => Except.ok (false, self1, t1 ++ [Event.printf "Error initializing the foundation\n" []])
  | some _ =>
    let self2 := { self1 with mPhysxSDK := env.PxCreatePhysics }
    let t2 := t1 ++ [Event.create SdkObject.physics env.PxCreatePhysics]
    match self2.mPhysxSDK with
    | none => Except.ok (false, self2, t2 ++ [Event.printf "Error initializing PhysXSDK\n" []])
    | some _ =>
      let self3 := { self2 with mPhysxCooking := env.PxCreateCooking }
      let t3 := t2 ++ [Event.create SdkObject.cooking env.PxCreateCooking]
      match self3.mPhysxCooking with
      | none =>
        Except.ok (false, self3, t3 ++ [Event.printf "Error initializing PhysXSDK Cooking\n" []])
      | some _ =>
        let self4 := { self3 with mThreadPool := env.PxDefaultCpuDispatcherCreate }
        let t4 := t3 ++ [Event.create SdkObject.cpuDispatcher env.PxDefaultCpuDispatcherCreate]
        let self5 := { self4 with mCudaContext := env.PxCreateCudaContextManager }
        let t5 := t4 ++ [Event.create SdkObject.cudaContextManager env.PxCreateCudaContextManager]
        match self5.mCudaContext with
        | none =>
          -- line 627 is skipped; line 638 calls `mCudaContext->getGpuDispatcher()`
          Except.error Fault.nullDeref
        | some cuda =>
          if env.contextIsValid = false then
            Except.ok (false, { self5 with mCudaContext := none },
              t5 ++ [Event.method cuda "contextIsValid", Event.release cuda,
                Event.printf "Error creating CUDA Context Manager\n" []])
          else
            let t6 := t5 ++ [Event.method cuda "contextIsValid",
              Event.method cuda "getGpuDispatcher"]
            if env.sceneDescIsValid self5.mThreadPool env.getGpuDispatcher = false then
              Except.ok (false, self5,
                t6 ++ [Event.printf "Error, invalid PhysX scene descriptor\n" []])
            else
              let self6 := { self5 with mPhysxScene := env.createScene }
              let t7 := t6 ++ [Event.create SdkObject.physxScene env.createScene]
              match self6.mPhysxScene with
              | none =>
                Except.ok (false, self6, t7 ++ [Event.printf "Error initializing PhysX scene\n" []])
              | some _ => Except.ok (true, self6, t7)

/-- The method `AppContext::destroyPhysX` (lines 656-664). -/
def destroyPhysX (self : AppContext) : AppContext × List Event :=
  let r1 := releaseAndClear self.mPhysxScene
  let self1 := { self with mPhysxScene := r1.1 }
  let r2 := releaseAndClear self1.mCudaContext
  let self2 := { self1 with mCudaContext := r2.1 }
  let r3 := releaseAndClear self2.mThreadPool
  let self3 := { self2 with mThreadPool := r3.1 }
  let r4 := releaseAndClear self3.mPhysxCooking
  let self4 := { self3 with mPhysxCooking := r4.1 }
  let r5 := releaseAndClear self4.mPhysxSDK
  let self5 := { self4 with mPhysxSDK := r5.1 }
  let r6 := releaseAndClear self5.mFoundationSDK
  let self6 := { self5 with mFoundationSDK := r6.1 }
  (self6, r1.2 ++ r2.2 ++ r3.2 ++ r4.2 ++ r5.2 ++ r6.2)

/-- The objects a run of `initPhysX` created (non-`NULL` results of the factory
calls), in the order of creation. -/
def createdObjects : List Event → List Handle
  | [] => []
  | Event.create _ (some h) :: rest => h :: createdObjects rest
  | _ :: rest => createdObjects rest

/-- Answers of the APEX SDK to the calls of `initAssetsAndActors`, and the
name-space constants of its headers. -/
structure AssetEnv where
  names : ApexNames
  getResource : CStr → CStr → Option Handle
  createApexActor : Handle → Option Handle
  getGridSize : Handle → PxVec3

/-- The local constant `emitterAssetName` (line 769). -/
def emitterAssetName : CStr := "explicitEmitterAsset".toList

/-- The local constant `turbulenceAssetName` (line 807). -/
def turbulenceAssetName : CStr := "turbulenceFSAsset".toList

/-- The method `AppContext::initAssetsAndActors` (lines 755-843). -/
def initAssetsAndActors (env : AssetEnv) (self : AppContext) (useTurbulence : Bool) :
    Except Fault (Bool × AppContext × List Event) :=
  match self.mApexScene with
  | none => Except.ok (false, self, [])
  | some _ =>
    match self.mApexSDK with
    | none => Except.error Fault.nullDeref
    | some sdk =>
      let t0 := [Event.method sdk "getNamedResourceProvider"]
      let emitterNS := env.names.NX_APEX_EMITTER_AUTHORING_TYPE_NAME
      let self1 := { self with mEmitterAsset := env.getResource emitterNS emitterAssetName }
      let t1 := t0 ++ [Event.getResource emitterNS emitterAssetName self1.mEmitterAsset]
      match self1.mEmitterAsset with
      | none =>
        Except.ok (false, self1, t1 ++ [Event.printf "Failed to create the APEX Emitter Asset\n" []])
      | some emitterAsset =>
        let t2 := t1 ++ [Event.setResource emitterNS emitterAssetName emitterAsset true,
          Event.method emitterAsset "getDefaultActorDesc",
          Event.setParamBool "emitAssetParticles" false]
        let self2 := { self1 with mEmitterActor := env.createApexActor emitterAsset }
        let t3 := t2 ++ [Event.create (SdkObject.apexActor emitterAsset) self2.mEmitterActor]
        match self2.mEmitterActor with
        | none =>
          Except.ok (false, self2,
            t3 ++ [Event.printf "Failed to create the APEX Emitter Actor\n" []])
        | some emitterActor =>
          let t4 := t3 ++ [Event.method emitterActor "startEmit"]
          if useTurbulence then
            let turbulenceNS := env.names.NX_TURBULENCE_FS_AUTHORING_TYPE_NAME
            let self3 := { self2 with
              mTurbulenceAsset := env.getResource turbulenceNS turbulenceAssetName }
            let t5 := t4 ++
              [Event.getResource turbulenceNS turbulenceAssetName self3.mTurbulenceAsset]
            match self3.mTurbulenceAsset with
            | none =>
              Except.ok (false, self3,
                t5 ++ [Event.printf "Failed to create the Turbulence Asset\n" []])
            | some turbulenceAsset =>
              let t6 := t5 ++ [Event.setResource turbulenceNS turbulenceAssetName turbulenceAsset true,
                Event.method turbulenceAsset "getDefaultActorDesc"]
              let self4 := { self3 with mTurbulenceActor := env.createApexActor turbulenceAsset }
              let t7 := t6 ++
                [Event.create (SdkObject.apexActor turbulenceAsset) self4.mTurbulenceActor]
              match self4.mTurbulenceActor with
              | none =>
                Except.ok (false, self4,
                  t7 ++ [Event.printf "Failed to create the Turbulence Actor\n" []])
              | some actor =>
                let gridSize := env.getGridSize actor
                Except.ok (true, self4, t7 ++ [Event.method actor "setEnabled",
                  Event.method actor "getGridSize",
                  Event.setPose actor ⟨0, gridSize.y * (1 / 2) + 1, 0⟩,
                  Event.setExternalVelocity actor ⟨60, 0, 0⟩])
          else Except.ok (true, self2, t4)

/-- Modelled from the spec: the SDK class `NxEmitterExplicitGeom`, declared in
the APEX headers and not in this source file.  It holds the list of particles
(position, velocity) that the emitter actor spawns "at application-specified
positions/velocities". -/
structure NxEmitterExplicitGeom where
  particles : List (PxVec3 × PxVec3)
deriving DecidableEq, Repr

/-- Modelled from the spec: the SDK call `resetParticleList`, which empties
the particle list of the geometry. -/
def NxEmitterExplicitGeom.resetParticleList (_geom : NxEmitterExplicitGeom) :
    NxEmitterExplicitGeom :=
  { particles := [] }

/-- Modelled from the spec: the SDK call `addParticleList(count, positions,
velocities)`, which appends the given particles to the list of the geometry. -/
def NxEmitterExplicitGeom.addParticleList (geom : NxEmitterExplicitGeom)
    (added : List (PxVec3 × PxVec3)) : NxEmitterExplicitGeom :=
  { particles := geom.particles ++ added }

/-- Modelled from the spec: the SDK class `NxApexEmitterActor`, reduced to what
`isExplicitGeom()` answers: its explicit geometry, or `NULL`. -/
structure NxApexEmitterActor where
  isExplicitGeom : Option NxEmitterExplicitGeom
deriving DecidableEq, Repr

/-- The method `AppContext::addParticle` (lines 870-888); `heap` gives the
emitter actor object stored at each address. -/
def addParticle (self : AppContext) (heap : Handle → NxApexEmitterActor) :
    (Handle → NxApexEmitterActor) × List Event :=
  match self.mEmitterActor with
  | none => (heap, [Event.printf "Emitter actor is not initialized\n" []])
  | some actor =>
    match (heap actor).isExplicitGeom with
    | some geom =>
      let pos : PxVec3 := ⟨0, 0, 0⟩
      let vel : PxVec3 := ⟨0, 60, 0⟩
      let geom1 := geom.resetParticleList
      let geom2 := geom1.addParticleList [(pos, vel)]
      (fun h => if h = actor then { isExplicitGeom := some geom2 } else heap h,
        [Event.method actor "isExplicitGeom", Event.resetParticleList actor,
          Event.addParticleList actor [(pos, vel)]])
    | none => (heap, [Event.method actor "isExplicitGeom"])

/-! ## `AppSpriteBuffer::writeBuffer`: the range handed to `memcpy` -/

/-- The value of `numSprites` when line 337 is reached, that is after the
clamp of lines 330-334 (the sum and the difference are `PxU32` operations). -/
def numSpritesAtCopy (firstSprite numSprites : Nat) : Nat :=
  if (firstSprite + numSprites) % U32 > MAX_SPRITE_COUNT then
    (MAX_SPRITE_COUNT + U32 - firstSprite) % U32
  else numSprites

/-- The third argument of `memcpy` at line 337,
`numSprites*sizeof(SpriteData)`, computed in `size_t`. -/
def memcpyByteCount (t : Target) (firstSprite numSprites : Nat) : Nat :=
  (numSpritesAtCopy firstSprite numSprites * sizeofSpriteData) % 2 ^ t.sizeBits

/-- The number of records the `memcpy` of line 337 copies. -/
def recordsCopied (t : Target) (firstSprite numSprites : Nat) : Nat :=
  memcpyByteCount t firstSprite numSprites / sizeofSpriteData

/-! ## `AppRenderResource` and `AppRenderResourceManager`: methods -/

/-- The fields of the SDK structure `NxUserRenderResourceDesc` that
`createResource` reads (lines 512-516). -/
structure NxUserRenderResourceDesc where
  spriteBuffer : Option Handle
  userRenderData : Option CStr
deriving DecidableEq, Repr

/-- The constructor of `AppRenderResource` (lines 361-363). -/
def AppRenderResource.new : AppRenderResource :=
  { mSpriteBuffer := none }

/-- The method `AppRenderResource::getSpriteBuffer` (lines 414-417). -/
def AppRenderResource.getSpriteBuffer (self : AppRenderResource) : Option Handle :=
  self.mSpriteBuffer

/-- The predicate class `AppMatchesRenderResource` (lines 464-489), built from
the pointer to be removed and applied to the list element stored at
`valueAddress`: both `operator()` compare the address of the element with
the stored pointer. -/
def AppMatchesRenderResource (toBeRemoved : Handle) (valueAddress : Handle) : Bool :=
  valueAddress == toBeRemoved

/-- The constructor of `AppRenderResourceManager`: both lists start empty. -/
def AppRenderResourceManager.new : AppRenderResourceManager :=
  { mRenderResourceList := [], mSpriteBufferList := [] }

/-- The object of class `AppSpriteBuffer` stored at `address`, if the list of
the manager holds one there. -/
def AppRenderResourceManager.spriteBufferAt (self : AppRenderResourceManager)
    (address : Handle) : Option AppSpriteBuffer :=
  (self.mSpriteBufferList.find? (fun e => e.1 == address)).map (fun e => e.2)

/-- The object of class `AppRenderResource` stored at `address`, if the list
of the manager holds one there. -/
def AppRenderResourceManager.renderResourceAt (self : AppRenderResourceManager)
    (address : Handle) : Option AppRenderResource :=
  (self.mRenderResourceList.find? (fun e => e.1 == address)).map (fun e => e.2)

/-- The addresses of the sprite buffers in `mSpriteBufferList`, in list
order. -/
def AppRenderResourceManager.spriteBufferAddresses (self : AppRenderResourceManager) :
    List Handle :=
  self.mSpriteBufferList.map (fun e => e.1)

/-- The addresses of the render resources in `mRenderResourceList`, in list
order. -/
def AppRenderResourceManager.renderResourceAddresses (self : AppRenderResourceManager) :
    List Handle :=
  self.mRenderResourceList.map (fun e => e.1)

/-- The method `createSpriteBuffer` (lines 492-498): the returned pointer, the
manager afterwards and the events.  `address` is where the allocator of
`std::list` puts the new element, `uninit` what its sprite array holds. -/
def createSpriteBuffer (self : AppRenderResourceManager) (address : Handle)
    (uninit : Fin MAX_SPRITE_COUNT → SpriteData) :
    Handle × AppRenderResourceManager × List Event :=
  (address,
    { self with
      mSpriteBufferList := self.mSpriteBufferList ++ [(address, AppSpriteBuffer.new uninit)] },
    [Event.printf "NxUserRenderResourceManager::createSpriteBuffer called\n" []])

/-- The method `releaseSpriteBuffer` (lines 500-505); `buffer` is the address
of the argument.  `remove_if` drops the elements the predicate accepts. -/
def releaseSpriteBuffer (self : AppRenderResourceManager) (buffer : Handle) :
    AppRenderResourceManager × List Event :=
  ({ self with
      mSpriteBufferList :=
        self.mSpriteBufferList.filter (fun e => !(AppMatchesRenderResource buffer e.1)) },
    [Event.printf "NxUserRenderResourceManager::releaseSpriteBuffer called\n" []])

/-- The method `createResource` (lines 507-519): the returned pointer, the
manager afterwards and the events.  `address` is where the allocator of
`std::list` puts the new element.  Line 516 writes through
`desc.spriteBuffer` as a pointer to `AppSpriteBuffer`: a fault when it is
`NULL` or points to no sprite buffer of the manager. -/
def createResource (self : AppRenderResourceManager) (address : Handle)
    (desc : NxUserRenderResourceDesc) :
    Except Fault (Handle × AppRenderResourceManager × List Event) :=
  let out := [Event.printf "NxUserRenderResourceManager::createResource called\n" []]
  let pushed := self.mRenderResourceList ++ [(address, AppRenderResource.new)]
  let resources := pushed.dropLast ++
    (match pushed.getLast? with
     | some back => [(back.1, { back.2 with mSpriteBuffer := desc.spriteBuffer })]
     | none => [])
  match desc.spriteBuffer with
  | none => Except.error Fault.nullDeref
  | some spriteBuffer =>
    match self.spriteBufferAt spriteBuffer with
    | none => Except.error Fault.wildPointer
    | some _ =>
      Except.ok (address,
        { mRenderResourceList := resources
          mSpriteBufferList := self.mSpriteBufferList.map (fun e =>
            if e.1 = spriteBuffer then (e.1, { e.2 with mContextData := desc.userRenderData })
            else e) },
        out)

/-- The method `AppRenderResourceManager::releaseResource` (lines 521-526);
`resource` is the address of the argument. -/
def AppRenderResourceManager.releaseResource (self : AppRenderResourceManager)
    (resource : Handle) : AppRenderResourceManager × List Event :=
  ({ self with
      mRenderResourceList :=
        self.mRenderResourceList.filter (fun e => !(AppMatchesRenderResource resource e.1)) },
    [Event.printf "NxUserRenderResourceManager::releaseResource called\n" []])

/-- One call of the SDK on the render resource manager. -/
inductive ManagerCall
  | createSpriteBuffer (address : Handle) (uninit : Fin MAX_SPRITE_COUNT → SpriteData)
  | releaseSpriteBuffer (buffer : Handle)
  | createResource (address : Handle) (desc : NxUserRenderResourceDesc)
  | releaseResource (resource : Handle)

/-- The manager after one call. -/
def callManager (self : AppRenderResourceManager) :
    ManagerCall → Except Fault AppRenderResourceManager
  | ManagerCall.createSpriteBuffer address uninit =>
    Except.ok (createSpriteBuffer self address uninit).2.1
  | ManagerCall.releaseSpriteBuffer buffer => Except.ok (releaseSpriteBuffer self buffer).1
  | ManagerCall.createResource address desc =>
    match createResource self address desc with
    | Except.error e => Except.error e
    | Except.ok r => Except.ok r.2.1
  | ManagerCall.releaseResource resource => Except.ok (self.releaseResource resource).1

/-- The manager after a sequence of calls. -/
def runManager (self : AppRenderResourceManager) :
    List ManagerCall → Except Fault AppRenderResourceManager
  | [] => Except.ok self
  | c :: rest =>
    match callManager self c with
    | Except.error e => Except.error e
    | Except.ok next => runManager next rest

/-- The allocator hands out, for a new list element, an address at which the
list holds no element. -/
def allocatorFresh (self : AppRenderResourceManager) : ManagerCall → Bool
  | ManagerCall.createSpriteBuffer address _ => !(self.spriteBufferAddresses.contains address)
  | ManagerCall.createResource address _ => !(self.renderResourceAddresses.contains address)
  | _ => true

/-- The allocator hands out a fresh address at every creation of a run. -/
def allocatorFreshRun (self : AppRenderResourceManager) : List ManagerCall → Bool
  | [] => true
  | c :: rest =>
    allocatorFresh self c &&
      (match callManager self c with
       | Except.error _ => true
       | Except.ok next => allocatorFreshRun next rest)

/-- Every `createResource` of a run names a sprite buffer that the manager
holds at that moment. -/
def descriptorsLive (self : AppRenderResourceManager) : List ManagerCall → Bool
  | [] => true
  | c :: rest =>
    (match c with
     | ManagerCall.createResource _ desc =>
       (match desc.spriteBuffer with
        | some b => self.spriteBufferAddresses.contains b
        | none => false)
     | _ => true) &&
      (match callManager self c with
       | Except.error _ => true
       | Except.ok next => descriptorsLive next rest)

/-- The call creates a sprite buffer at `a`. -/
def createsSpriteBuffer (a : Handle) : ManagerCall → Bool
  | ManagerCall.createSpriteBuffer address _ => a == address
  | _ => false

/-- The call releases the sprite buffer at `a`. -/
def releasesSpriteBuffer (a : Handle) : ManagerCall → Bool
  | ManagerCall.releaseSpriteBuffer buffer => a == buffer
  | _ => false

/-- The call creates a render resource at `a`. -/
def createsResource (a : Handle) : ManagerCall → Bool
  | ManagerCall.createResource address _ => a == address
  | _ => false

/-- The call releases the render resource at `a`. -/
def releasesResource (a : Handle) : ManagerCall → Bool
  | ManagerCall.releaseResource resource => a == resource
  | _ => false

/-- In the words of the specification: the object at `a` was created in the
sequence of calls and not yet released, that is some call creates it and no
later call releases it. -/
def createdNotReleased (creates releases : Handle → ManagerCall → Bool) (a : Handle) :
    List ManagerCall → Bool
  | [] => false
  | c :: rest =>
    (creates a c && !(rest.any (releases a))) || createdNotReleased creates releases a rest

/-- The call passes the sprite buffer at `b` to `createResource`. -/
def passesToCreateResource (b : Handle) : ManagerCall → Bool
  | ManagerCall.createResource _ desc => desc.spriteBuffer == some b
  | _ => false

/-! ## `AppContext::printParticleData` -/

/-- Answers of the APEX SDK to the calls of `printParticleData`: the IOFX
actors of a render volume, whether the bounds of an actor are empty, and the
object count of an actor. -/
structure RenderEnv where
  getIofxActorList : Handle → List Handle
  boundsIsEmpty : Handle → Bool
  getObjectCount : Handle → Nat

/-- The static `emitterParticleContext` (line 905). -/
def emitterParticleContext : CStr := "EmitterParticleDataContext".toList

/-- The body of the loop of lines 899-912 for one actor: the events, and the
new value of the `PxU32` counter `drawnParticles`.  What the SDK does inside
`updateRenderResources` (calls back into the render resource manager) is not
part of the events. -/
def printActor (env : RenderEnv) (actor : Handle) (drawnParticles : Nat) : List Event × Nat :=
  if env.boundsIsEmpty actor = false then
    ([Event.lockRenderResources actor, Event.method actor "getBounds",
      Event.updateRenderResources actor false emitterParticleContext,
      Event.method actor "getObjectCount",
      Event.unlockRenderResources actor],
      (drawnParticles + env.getObjectCount actor) % U32)
  else
    ([Event.lockRenderResources actor, Event.method actor "getBounds",
      Event.unlockRenderResources actor], drawnParticles)

/-- The loop of lines 899-912 over the actors still to visit. -/
def printActorLoop (env : RenderEnv) : List Handle → Nat → List Event × Nat
  | [], drawnParticles => ([], drawnParticles)
  | actor :: rest, drawnParticles =>
    let r1 := printActor env actor drawnParticles
    let r2 := printActorLoop env rest r1.2
    (r1.1 ++ r2.1, r2.2)

/-- The method `AppContext::printParticleData` (lines 892-914): the events. -/
def printParticleData (env : RenderEnv) (self : AppContext) : Except Fault (List Event) :=
  match self.mRenderVolume with
  | none => Except.error Fault.nullDeref
  | some volume =>
    Except.ok ([Event.lockRenderResources volume, Event.method volume "getIofxActorList"] ++
      (printActorLoop env (env.getIofxActorList volume) 0).1 ++
      [Event.unlockRenderResources volume])

/-- Lock discipline of a sequence of events, `held` being the objects locked
so far, innermost first: an unlock releases the innermost lock, an
`updateRenderResources` is made on the innermost locked object, and nothing
stays locked at the end. -/
def lockDiscipline : List Handle → List Event → Bool
  | held, [] => held.isEmpty
  | held, Event.lockRenderResources obj :: rest => lockDiscipline (obj :: held) rest
  | [], Event.unlockRenderResources _ :: _ => false
  | top :: below, Event.unlockRenderResources obj :: rest =>
    top == obj && lockDiscipline below rest
  | held, Event.updateRenderResources actor _ _ :: rest =>
    held.head? == some actor && lockDiscipline held rest
  | held, _ :: rest => lockDiscipline held rest

/-- The events of one actor as the claim words them: lock, look at the
bounds, update (and count) only when the bounds are not empty, unlock. -/
def actorSection (env : RenderEnv) (actor : Handle) : List Event :=
  [Event.lockRenderResources actor, Event.method actor "getBounds"] ++
  (if env.boundsIsEmpty actor = false then
    [Event.updateRenderResources actor false emitterParticleContext,
      Event.method actor "getObjectCount"]
   else []) ++
  [Event.unlockRenderResources actor]

/-! ## `AppContext`: the APEX bring-up, the frame step and the tear-down -/

/-- Answers of the APEX SDK to the calls of `initAPEX`. -/
structure ApexEnv where
  NxCreateApexSDK : Option Handle
  errorCode : Int
  createModule : String → Option Handle
  getModule : Handle → String → Option Handle
  sceneDescIsValid : Option Handle → Bool
  createScene : Option Handle
  createRenderVolume : Option Handle

/-- The method `AppContext::initAPEX` (lines 666-734).  Every pointer it
dereferences is tested before; the result of `createRenderVolume` (line 732)
is stored without a test. -/
def initAPEX (env : ApexEnv) (self : AppContext) : Bool × AppContext × List Event :=
  let self1 := { self with mApexSDK := env.NxCreateApexSDK }
  let t1 := [Event.create SdkObject.apexSDK env.NxCreateApexSDK]
  match self1.mApexSDK with
  | none =>
    (false, self1, t1 ++ [Event.printf "Error creating APEX SDK: %i\n"
      [PrintfArg.int env.errorCode]])
  | some sdk =>
    let self2 := { self1 with
      mApexResourceCallback := self1.mApexResourceCallback.setApexSDK (some sdk) }
    let self3 := { self2 with mParticlesModule := env.createModule "Particles" }
    let t3 := t1 ++ [Event.create (SdkObject.apexModule "Particles") self3.mParticlesModule]
    let self4 := { self3 with
      mIofxModule :=
        match self3.mParticlesModule with
        | some particles => env.getModule particles "IOFX"
        | none => self3.mIofxModule }
    let t4 := t3 ++
      (match self3.mParticlesModule with
       | some particles => [Event.create (SdkObject.apexModule "IOFX")
          (env.getModule particles "IOFX")]
       | none => [])
    let self5 := { self4 with mTurbulenceFSModule := env.createModule "TurbulenceFS" }
    let self6 := { self5 with mLegacyModule := env.createModule "Legacy" }
    let t6 := t4 ++ [Event.create (SdkObject.apexModule "TurbulenceFS") self6.mTurbulenceFSModule,
      Event.create (SdkObject.apexModule "Legacy") self6.mLegacyModule]
    match self6.mParticlesModule, self6.mIofxModule with
    | some _, some _ =>
      if env.sceneDescIsValid self6.mPhysxScene = false then
        (false, self6, t6 ++ [Event.printf "Invalid APEX Scene Desc\n" []])
      else
        let self7 := { self6 with mApexScene := env.createScene }
        let t7 := t6 ++ [Event.create SdkObject.apexScene self7.mApexScene]
        match self7.mApexScene with
        | none => (false, self7, t7 ++ [Event.printf "Error creating APEX Scene\n" []])
        | some scene =>
          let self8 := { self7 with mRenderVolume := env.createRenderVolume }
          (true, self8, t7 ++ [Event.method scene "allocViewMatrix",
            Event.method scene "allocProjMatrix", Event.method scene "setLODResourceBudget",
            Event.create SdkObject.renderVolume self8.mRenderVolume])
    | _, _ => (false, self6, t6 ++ [Event.printf "Error loading particle modules\n" []])

/-- Answers of the APEX SDK to the calls of `simulateFrame`: what a simulation
step makes of the emitter actors, and the error state `fetchResults` stores. -/
structure SceneEnv where
  simulate : (Handle → NxApexEmitterActor) → (Handle → NxApexEmitterActor)
  errorState : Nat

/-- The method `AppContext::simulateFrame` (lines 917-936). -/
def simulateFrame (env : SceneEnv) (self : AppContext) (dt : PxF32)
    (heap : Handle → NxApexEmitterActor) : (Handle → NxApexEmitterActor) × List Event :=
  match self.mApexScene with
  | none => (heap, [Event.printf "Error, no APEX Scene created\n" []])
  | some scene =>
    (env.simulate heap,
      [Event.simulate scene dt, Event.method scene "fetchResults"] ++
      (if env.errorState ≠ 0 then
        [Event.printf "Error simulating APEX: %i\n" [PrintfArg.int (asInt32 env.errorState)]]
       else []) ++
      [Event.method scene "prepareRenderResourceContexts"])

/-- Answers of the APEX SDK to the calls of `destroyAssetsAndActors`: the type
name and the name of an asset. -/
structure AssetNameEnv where
  getObjTypeName : Handle → CStr
  getName : Handle → CStr

/-- The method `AppContext::destroyAssetsAndActors` (lines 845-867).  Lines 852
and 862 call `mApexSDK->getNamedResourceProvider()` without a test. -/
def destroyAssetsAndActors (env : AssetNameEnv) (self : AppContext) :
    Except Fault (AppContext × List Event) :=
  let r1 := releaseAndClear self.mEmitterActor
  let self1 := { self with mEmitterActor := r1.1 }
  let step2 : Except Fault (AppContext × List Event) :=
    match self1.mEmitterAsset with
    | none => Except.ok (self1, r1.2)
    | some asset =>
      match self1.mApexSDK with
      | none => Except.error Fault.nullDeref
      | some sdk =>
        Except.ok ({ self1 with mEmitterAsset := none },
          r1.2 ++ [Event.method sdk "getNamedResourceProvider",
            Event.releaseNamedResource (env.getObjTypeName asset) (env.getName asset)])
  match step2 with
  | Except.error e => Except.error e
  | Except.ok (self2, t2) =>
    let r3 := releaseAndClear self2.mTurbulenceActor
    let self3 := { self2 with mTurbulenceActor := r3.1 }
    match self3.mTurbulenceAsset with
    | none => Except.ok (self3, t2 ++ r3.2)
    | some asset =>
      match self3.mApexSDK with
      | none => Except.error Fault.nullDeref
      | some sdk =>
        Except.ok ({ self3 with mTurbulenceAsset := none },
          t2 ++ r3.2 ++ [Event.method sdk "getNamedResourceProvider",
            Event.releaseNamedResource (env.getObjTypeName asset) (env.getName asset)])

/-- The method `AppContext::destroyAPEX` (lines 736-752).  Line 738 tests
`mRenderVolume`; line 740 calls `mIofxModule->releaseRenderVolume` without a
test of `mIofxModule`. -/
def destroyAPEX (self : AppContext) : Except Fault (AppContext × List Event) :=
  let step1 : Except Fault (AppContext × List Event) :=
    match self.mRenderVolume with
    | none => Except.ok (self, [])
    | some volume =>
      match self.mIofxModule with
      | none => Except.error Fault.nullDeref
      | some iofx =>
        Except.ok ({ self with mRenderVolume := none }, [Event.releaseRenderVolume iofx volume])
  match step1 with
  | Except.error e => Except.error e
  | Except.ok (self1, t1) =>
    let r2 := releaseAndClear self1.mApexScene
    let self2 := { self1 with mApexScene := r2.1 }
    let r3 := releaseAndClear self2.mParticlesModule
    let self3 := { self2 with mParticlesModule := r3.1 }
    let self4 := { self3 with mIofxModule := none }
    let r5 := releaseAndClear self4.mTurbulenceFSModule
    let self5 := { self4 with mTurbulenceFSModule := r5.1 }
    let r6 := releaseAndClear self5.mLegacyModule
    let self6 := { self5 with mLegacyModule := r6.1 }
    let self7 := { self6 with
      mApexResourceCallback := self6.mApexResourceCallback.setApexSDK none }
    let r8 := releaseAndClear self7.mApexSDK
    let self8 := { self7 with mApexSDK := r8.1 }
    Except.ok (self8, t1 ++ r2.2 ++ r3.2 ++ r5.2 ++ r6.2 ++ r8.2)

/-! ## The program as a whole -/

/-- Everything the SDKs answer in one run of the program. -/
structure SdkAnswers where
  physx : PhysXEnv
  apex : ApexEnv
  assets : AssetEnv
  scene : SceneEnv
  render : RenderEnv
  assetNames : AssetNameEnv

/-- The state of a run: the `app` object of `main`, the emitter actors of the
SDK, and the events so far. -/
structure Program where
  app : AppContext
  heap : Handle → NxApexEmitterActor
  events : List Event

/-- The methods of `AppContext` as `main` calls them, for the answers `env` of
the SDKs; `material` is the address of the dummy material inside `app`, and
`heap` the emitter actors of the SDK at the start. -/
def AppContext.methods (env : SdkAnswers) (material : Handle)
    (heap : Handle → NxApexEmitterActor) : AppMethods Program where
  construct := { app := AppContext.new material, heap := heap, events := [] }
  initPhysX := fun p =>
    match initPhysX env.physx p.app with
    | Except.error e => Except.error e
    | Except.ok r => Except.ok (r.1, { p with app := r.2.1, events := p.events ++ r.2.2 })
  initAPEX := fun p =>
    Except.ok ((initAPEX env.apex p.app).1,
      { p with app := (initAPEX env.apex p.app).2.1,
               events := p.events ++ (initAPEX env.apex p.app).2.2 })
  initAssetsAndActors := fun useTurb p =>
    match initAssetsAndActors env.assets p.app useTurb with
    | Except.error e => Except.error e
    | Except.ok r => Except.ok (r.1, { p with app := r.2.1, events := p.events ++ r.2.2 })
  addParticle := fun p =>
    Except.ok { p with heap := (addParticle p.app p.heap).1,
                       events := p.events ++ (addParticle p.app p.heap).2 }
  simulateFrame := fun dt p =>
    Except.ok { p with heap := (simulateFrame env.scene p.app dt p.heap).1,
                       events := p.events ++ (simulateFrame env.scene p.app dt p.heap).2 }
  printParticleData := fun p =>
    match printParticleData env.render p.app with
    | Except.error e => Except.error e
    | Except.ok t => Except.ok { p with events := p.events ++ t }
  destroyAssetsAndActors := fun p =>
    match destroyAssetsAndActors env.assetNames p.app with
    | Except.error e => Except.error e
    | Except.ok r => Except.ok { p with app := r.1, events := p.events ++ r.2 }
  destroyAPEX := fun p =>
    match destroyAPEX p.app with
    | Except.error e => Except.error e
    | Except.ok r => Except.ok { p with app := r.1, events := p.events ++ r.2 }
  destroyPhysX := fun p =>
    Except.ok { p with app := (destroyPhysX p.app).1,
                       events := p.events ++ (destroyPhysX p.app).2 }

/-! ## Sample inputs -/

/-- Sample values of the header constants. -/
def sampleNames : ApexNames :=
  { APEX_MATERIALS_NAME_SPACE := "ApexMaterials".toList
    NX_APEX_EMITTER_AUTHORING_TYPE_NAME := "ApexEmitterAsset".toList
    NX_IOFX_AUTHORING_TYPE_NAME := "IOFX".toList
    NX_BASIC_IOS_AUTHORING_TYPE_NAME := "BasicIosAsset".toList
    NX_TURBULENCE_FS_AUTHORING_TYPE_NAME := "TurbulenceFSAsset".toList }

/-- Sample surroundings of the resource callback: the media folder is two
levels up, every stream opens and holds one object, every asset is created. -/
def sampleResourceEnv : ResourceEnv :=
  { names := sampleNames
    MEDIA_APEX := "APEX".toList
    fileExists := fun p => decide (p = "../../media".toList)
    streamIsOpen := fun _ => true
    deserialize := fun _ => [7]
    createAsset := fun params _ => some (params + 1) }

/-- Sample resource callback: constructed with `material` at address 1, then
given the SDK at address 5. -/
def sampleCallback : AppApexResourceCallback :=
  (AppApexResourceCallback.new 1).setApexSDK (some 5)

/-- The position a console line shows, when the line is one written by the
`printf` of line 342. -/
def positionOf : Event → Option PxVec3
  | Event.printf fmt [PrintfArg.float x, PrintfArg.float y, PrintfArg.float z] =>
    if fmt = " (%.1f, %.1f, %.1f)\n" then some ⟨x, y, z⟩ else none
  | _ => none

/-- The positions printed in a run, in order. -/
def printedPositions (out : List Event) : List PxVec3 :=
  out.filterMap positionOf

/-- Sample sprite records: record `c` sits at height `c`. -/
def sampleData (c : Nat) : SpriteData :=
  { position := ⟨0, c, 0⟩, lifeRemaining := 1 }

/-- Sample sprite buffer, as constructed over zeroed memory. -/
def sampleSpriteBuffer : AppSpriteBuffer :=
  AppSpriteBuffer.new (fun _ => { position := ⟨0, 0, 0⟩, lifeRemaining := 0 })

/-- Sample answers of the PhysX SDK: every object is created, at the addresses
11 to 17. -/
def samplePhysXEnv : PhysXEnv :=
  { PxCreateFoundation := some 11
    PxCreatePhysics := some 12
    PxCreateCooking := some 13
    PxDefaultCpuDispatcherCreate := some 14
    PxCreateCudaContextManager := some 15
    contextIsValid := true
    getGpuDispatcher := some 16
    sceneDescIsValid := fun _ _ => true
    createScene := some 17 }

/-- Sample answers of the APEX SDK to `initAssetsAndActors`: every asset and
every actor is created. -/
def sampleAssetEnv : AssetEnv :=
  { names := sampleNames
    getResource := fun nameSpace _ =>
      if nameSpace = sampleNames.NX_APEX_EMITTER_AUTHORING_TYPE_NAME then some 31 else some 32
    createApexActor := fun asset => some (asset + 10)
    getGridSize := fun _ => ⟨2, 2, 2⟩ }

/-- Sample context after `initAPEX`: SDK at address 21, scene at address 22. -/
def sampleContext : AppContext :=
  { AppContext.new 1 with mApexSDK := some 21, mApexScene := some 22 }

/-- Sample context whose emitter actor is the object at address 41. -/
def sampleEmitterContext : AppContext :=
  { sampleContext with mEmitterAsset := some 31, mEmitterActor := some 41 }

/-- Sample SDK heap: every emitter actor has an explicit geometry that already
holds two particles. -/
def sampleHeap : Handle → NxApexEmitterActor :=
  fun _ => { isExplicitGeom := some { particles := [(⟨1, 1, 1⟩, ⟨2, 2, 2⟩), (⟨3, 3, 3⟩, ⟨4, 4, 4⟩)] } }

/-- Sample file system without any media folder; every stream opens, holds one
object, and every asset is created. -/
def noMediaEnv : ResourceEnv :=
  { sampleResourceEnv with fileExists := fun _ => false }

/-- Sample answers of the PhysX SDK on a platform without CUDA: the context
manager is `NULL`, everything else is created. -/
def noCudaEnv : PhysXEnv :=
  { samplePhysXEnv with PxCreateCudaContextManager := none, getGpuDispatcher := none }

/-- Sample manager: one sprite buffer, created at address 50. -/
def sampleManager : AppRenderResourceManager :=
  (createSpriteBuffer AppRenderResourceManager.new 50
    (fun _ => { position := ⟨0, 0, 0⟩, lifeRemaining := 0 })).2.1

/-- Sample run of the manager: two sprite buffers and a render resource are
created, then the first sprite buffer is released. -/
def sampleCalls : List ManagerCall :=
  [ManagerCall.createSpriteBuffer 50 (fun _ => { position := ⟨0, 0, 0⟩, lifeRemaining := 0 }),
   ManagerCall.createSpriteBuffer 51 (fun _ => { position := ⟨0, 0, 0⟩, lifeRemaining := 0 }),
   ManagerCall.createResource 60
     { spriteBuffer := some 51, userRenderData := some emitterParticleContext },
   ManagerCall.releaseSpriteBuffer 50]

/-- Sample answers of the APEX SDK to `printParticleData`: the volume holds the
actors 71 and 72, and the bounds of actor 72 are empty. -/
def sampleRenderEnv : RenderEnv :=
  { getIofxActorList := fun _ => [71, 72]
    boundsIsEmpty := fun actor => decide (actor = 72)
    getObjectCount := fun _ => 3 }

/-- Sample context with a render volume at address 23. -/
def sampleRenderContext : AppContext :=
  { sampleContext with mRenderVolume := some 23 }

/-- Sample answers of the APEX SDK to `initAPEX`: everything is created, the
render volume at address 23. -/
def sampleApexEnv : ApexEnv :=
  { NxCreateApexSDK := some 21
    errorCode := 0
    createModule := fun name => if name = "Particles" then some 24 else some 25
    getModule := fun _ _ => some 26
    sceneDescIsValid := fun _ => true
    createScene := some 22
    createRenderVolume := some 23 }

/-- Sample answers of the SDKs in which every object is created. -/
def sampleAnswers : SdkAnswers :=
  { physx := samplePhysXEnv
    apex := sampleApexEnv
    assets := sampleAssetEnv
    scene := { simulate := fun heap => heap, errorState := 0 }
    render := sampleRenderEnv
    assetNames := { getObjTypeName := fun _ => sampleNames.NX_APEX_EMITTER_AUTHORING_TYPE_NAME,
                    getName := fun _ => emitterAssetName } }

/-- Sample answers of the SDKs in which every object is created except the
render volume: `createRenderVolume` returns `NULL`. -/
def noVolumeAnswers : SdkAnswers :=
  { sampleAnswers with apex := { sampleApexEnv with createRenderVolume := none } }

/-- Sample answers of the SDKs on a platform without CUDA. -/
def noCudaAnswers : SdkAnswers :=
  { sampleAnswers with physx := noCudaEnv }

/-- The calls of a run of `main` in which the three initialisation steps
return true and no call faults, for the flag `useTurb`. -/
def fullLog (useTurb : Bool) : List Call :=
  [Call.printf "APEX Particle Sample\n", Call.initPhysX, Call.initAPEX,
    Call.initAssetsAndActors useTurb] ++
  (List.replicate 8
    [Call.addParticle, Call.simulateFrame (1 / 60), Call.printParticleData]).flatten ++
  [Call.destroyAssetsAndActors, Call.destroyAPEX, Call.destroyPhysX]

/-! ## Lemmas on the C runtime model -/

theorem strcmp_eq_zero_iff (a b : CStr) : strcmp a b = 0 ↔ a = b := by
  induction a generalizing b with
  | nil => cases b <;> simp [strcmp]
  | cons x xs ih =>
    cases b with
    | nil => simp [strcmp]
    | cons y ys =>
      simp only [strcmp]
      by_cases h : x = y
      · simp [h, ih]
      · simp only [h, if_false, List.cons.injEq, false_and, iff_false]
        split <;> simp

theorem stricmp_eq_zero_iff (a b : CStr) : stricmp a b = 0 ↔ equalsIgnoreCase a b := by
  simp [stricmp, equalsIgnoreCase, strcmp_eq_zero_iff]

theorem frame_shape {σ : Type} (m : AppMethods σ) (s : σ) (log : List Call) :
    ∃ extra, (frame m s log).log = log ++ extra ∧
      (∀ c ∈ extra, c = Call.addParticle ∨ c = Call.simulateFrame (1 / 60) ∨
        c = Call.printParticleData) ∧
      ((frame m s log).fault = none →
        extra = [Call.addParticle, Call.simulateFrame (1 / 60), Call.printParticleData]) := by
  cases h1 : m.addParticle s with
  | error e =>
    refine ⟨[Call.addParticle], ?_, ?_, ?_⟩
    · simp only [frame, h1]
    · intro c hc; simp only [List.mem_singleton] at hc; exact Or.inl hc
    · intro h; simp only [frame, h1] at h; cases h
  | ok s1 =>
    cases h2 : m.simulateFrame (1 / 60) s1 with
    | error e =>
      refine ⟨[Call.addParticle, Call.simulateFrame (1 / 60)], ?_, ?_, ?_⟩
      · simp only [frame, h1, h2, List.append_assoc, List.singleton_append, List.cons_append, List.nil_append]
      · intro c hc
        simp only [List.mem_cons, List.mem_singleton, List.not_mem_nil, or_false] at hc
        rcases hc with hc | hc
        · exact Or.inl hc
        · exact Or.inr (Or.inl hc)
      · intro h; simp only [frame, h1, h2] at h; cases h
    | ok s2 =>
      have hmem : ∀ c ∈ [Call.addParticle, Call.simulateFrame (1 / 60), Call.printParticleData],
          c = Call.addParticle ∨ c = Call.simulateFrame (1 / 60) ∨
            c = Call.printParticleData := by
        intro c hc
        simp only [List.mem_cons, List.mem_singleton, List.not_mem_nil, or_false] at hc
        exact hc
      cases h3 : m.printParticleData s2 with
      | error e =>
        refine ⟨[Call.addParticle, Call.simulateFrame (1 / 60), Call.printParticleData],
          ?_, hmem, fun _ => rfl⟩
        simp only [frame, h1, h2, h3, List.append_assoc, List.singleton_append, List.cons_append, List.nil_append]
      | ok s3 =>
        refine ⟨[Call.addParticle, Call.simulateFrame (1 / 60), Call.printParticleData],
          ?_, hmem, fun _ => rfl⟩
        simp only [frame, h1, h2, h3, List.append_assoc, List.singleton_append, List.cons_append, List.nil_append]

theorem frameLoop_shape {σ : Type} (m : AppMethods σ) :
    ∀ (n : Nat) (s : σ) (log : List Call),
      ∃ extra, (frameLoop m n s log).log = log ++ extra ∧
        (∀ c ∈ extra, c = Call.addParticle ∨ c = Call.simulateFrame (1 / 60) ∨
          c = Call.printParticleData) ∧
        ((frameLoop m n s log).fault = none →
          extra = (List.replicate n
            [Call.addParticle, Call.simulateFrame (1 / 60), Call.printParticleData]).flatten) := by
  intro n
  induction n with
  | zero => intro s log; exact ⟨[], by simp [frameLoop], by simp, by simp⟩
  | succ n ih =>
    intro s log
    obtain ⟨e1, h1, h2, h3⟩ := frame_shape m s log
    cases hf : (frame m s log).fault with
    | some e =>
      refine ⟨e1, by simp only [frameLoop, hf]; exact h1, h2, ?_⟩
      simp [frameLoop, hf]
    | none =>
      obtain ⟨e2, g1, g2, g3⟩ := ih (frame m s log).app (frame m s log).log
      refine ⟨e1 ++ e2, ?_, ?_, ?_⟩
      · simp only [frameLoop, hf]
        rw [g1, h1, List.append_assoc]
      · intro c hc
        rcases List.mem_append.mp hc with hc | hc
        · exact h2 c hc
        · exact g2 c hc
      · intro hnone
        simp only [frameLoop, hf] at hnone
        rw [h3 hf, g3 hnone, List.replicate_succ, List.flatten_cons]

theorem tearDown_shape {σ : Type} (m : AppMethods σ) (s : σ) (log : List Call) :
    ∃ extra, (tearDown m s log).log = log ++ extra ∧
      (∀ c ∈ extra, c = Call.destroyAssetsAndActors ∨ c = Call.destroyAPEX ∨
        c = Call.destroyPhysX) ∧
      (∀ k, (tearDown m s log).ret = Except.ok k →
        k = 0 ∧ extra = [Call.destroyAssetsAndActors, Call.destroyAPEX, Call.destroyPhysX]) := by
  cases h1 : m.destroyAssetsAndActors s with
  | error e =>
    refine ⟨[Call.destroyAssetsAndActors], ?_, ?_, ?_⟩
    · simp only [tearDown, h1]
    · intro c hc; simp only [List.mem_singleton] at hc; exact Or.inl hc
    · intro k h; simp only [tearDown, h1] at h; cases h
  | ok s1 =>
    cases h2 : m.destroyAPEX s1 with
    | error e =>
      refine ⟨[Call.destroyAssetsAndActors, Call.destroyAPEX], ?_, ?_, ?_⟩
      · simp only [tearDown, h1, h2, List.append_assoc, List.singleton_append, List.cons_append, List.nil_append]
      · intro c hc
        simp only [List.mem_cons, List.mem_singleton, List.not_mem_nil, or_false] at hc
        rcases hc with hc | hc
        · exact Or.inl hc
        · exact Or.inr (Or.inl hc)
      · intro k h; simp only [tearDown, h1, h2] at h; cases h
    | ok s2 =>
      have hmem : ∀ c ∈ [Call.destroyAssetsAndActors, Call.destroyAPEX, Call.destroyPhysX],
          c = Call.destroyAssetsAndActors ∨ c = Call.destroyAPEX ∨ c = Call.destroyPhysX := by
        intro c hc
        simp only [List.mem_cons, List.mem_singleton, List.not_mem_nil, or_false] at hc
        exact hc
      cases h3 : m.destroyPhysX s2 with
      | error e =>
        refine ⟨[Call.destroyAssetsAndActors, Call.destroyAPEX, Call.destroyPhysX],
          ?_, hmem, ?_⟩
        · simp only [tearDown, h1, h2, h3, List.append_assoc, List.singleton_append, List.cons_append, List.nil_append]
        · intro k h; simp only [tearDown, h1, h2, h3] at h; cases h
      | ok s3 =>
        refine ⟨[Call.destroyAssetsAndActors, Call.destroyAPEX, Call.destroyPhysX],
          ?_, hmem, ?_⟩
        · simp only [tearDown, h1, h2, h3, List.append_assoc, List.singleton_append, List.cons_append, List.nil_append]
        · intro k h
          simp only [tearDown, h1, h2, h3, Except.ok.injEq] at h
          exact ⟨h.symm, rfl⟩

/-- The calls and the result of `main` once the three initialisation steps
have returned true. -/
theorem main_after_init {σ : Type} (m : AppMethods σ) (argv : List CStr) (s1 s2 s3 : σ)
    (h1 : m.initPhysX m.construct = Except.ok (true, s1))
    (h2 : m.initAPEX s1 = Except.ok (true, s2))
    (h3 : m.initAssetsAndActors (useTurbulence argv) s2 = Except.ok (true, s3)) :
    main m argv =
      match (frameLoop m 8 s3 [Call.printf "APEX Particle Sample\n", Call.initPhysX,
          Call.initAPEX, Call.initAssetsAndActors (useTurbulence argv)]).fault with
      | some e =>
        ⟨Except.error e,
          (frameLoop m 8 s3 [Call.printf "APEX Particle Sample\n", Call.initPhysX,
            Call.initAPEX, Call.initAssetsAndActors (useTurbulence argv)]).app,
          (frameLoop m 8 s3 [Call.printf "APEX Particle Sample\n", Call.initPhysX,
            Call.initAPEX, Call.initAssetsAndActors (useTurbulence argv)]).log⟩
      | none =>
        tearDown m
          (frameLoop m 8 s3 [Call.printf "APEX Particle Sample\n", Call.initPhysX,
            Call.initAPEX, Call.initAssetsAndActors (useTurbulence argv)]).app
          (frameLoop m 8 s3 [Call.printf "APEX Particle Sample\n", Call.initPhysX,
            Call.initAPEX, Call.initAssetsAndActors (useTurbulence argv)]).log := by
  simp only [main, h1, h2, h3, List.cons_append, List.nil_append]

/-- The calls and the result of `main` after three initialisation steps that
return true: the frame calls, then the tear-down calls; when `main` returns,
it returns 0 after eight full frames and the three tear-down calls. -/
theorem main_log_after_init {σ : Type} (m : AppMethods σ) (argv : List CStr) (s1 s2 s3 : σ)
    (h1 : m.initPhysX m.construct = Except.ok (true, s1))
    (h2 : m.initAPEX s1 = Except.ok (true, s2))
    (h3 : m.initAssetsAndActors (useTurbulence argv) s2 = Except.ok (true, s3)) :
    ∃ frames down,
      (main m argv).log =
        [Call.printf "APEX Particle Sample\n", Call.initPhysX, Call.initAPEX,
          Call.initAssetsAndActors (useTurbulence argv)] ++ frames ++ down ∧
      (∀ c ∈ frames, c = Call.addParticle ∨ c = Call.simulateFrame (1 / 60) ∨
        c = Call.printParticleData) ∧
      (∀ c ∈ down, c = Call.destroyAssetsAndActors ∨ c = Call.destroyAPEX ∨
        c = Call.destroyPhysX) ∧
      (∀ k, (main m argv).ret = Except.ok k →
        k = 0 ∧
        frames = (List.replicate 8
          [Call.addParticle, Call.simulateFrame (1 / 60), Call.printParticleData]).flatten ∧
        down = [Call.destroyAssetsAndActors, Call.destroyAPEX, Call.destroyPhysX]) := by
  rw [main_after_init m argv s1 s2 s3 h1 h2 h3]
  obtain ⟨frames, f1, f2, f3⟩ := frameLoop_shape m 8 s3
    [Call.printf "APEX Particle Sample\n", Call.initPhysX, Call.initAPEX,
      Call.initAssetsAndActors (useTurbulence argv)]
  cases hf : (frameLoop m 8 s3 [Call.printf "APEX Particle Sample\n", Call.initPhysX,
      Call.initAPEX, Call.initAssetsAndActors (useTurbulence argv)]).fault with
  | some e =>
    refine ⟨frames, [], ?_, f2, ?_, ?_⟩
    · simp only [List.append_nil]; exact f1
    · intro c hc; cases hc
    · intro k hk; cases hk
  | none =>
    obtain ⟨down, d1, d2, d3⟩ := tearDown_shape m
      (frameLoop m 8 s3 [Call.printf "APEX Particle Sample\n", Call.initPhysX,
        Call.initAPEX, Call.initAssetsAndActors (useTurbulence argv)]).app
      (frameLoop m 8 s3 [Call.printf "APEX Particle Sample\n", Call.initPhysX,
        Call.initAPEX, Call.initAssetsAndActors (useTurbulence argv)]).log
    refine ⟨frames, down, ?_, f2, d2, ?_⟩
    · show (tearDown m _ _).log = _
      rw [d1, f1]
    · intro k hk
      exact ⟨(d3 k hk).1, f3 hf, (d3 k hk).2⟩

/-- The seven ways a run of `main` can go, by the results of the three
initialisation steps. -/
theorem main_cases {σ : Type} (m : AppMethods σ) (argv : List CStr) :
    (∃ e, m.initPhysX m.construct = Except.error e ∧
      (main m argv).ret = Except.error e ∧
      (main m argv).log = [Call.printf "APEX Particle Sample\n", Call.initPhysX]) ∨
    (∃ s1, m.initPhysX m.construct = Except.ok (false, s1) ∧
      (main m argv).ret = Except.ok 1 ∧
      (main m argv).log = [Call.printf "APEX Particle Sample\n", Call.initPhysX,
        Call.printf "PhysX initialization failed, exiting\n"]) ∨
    (∃ s1 e, m.initPhysX m.construct = Except.ok (true, s1) ∧
      m.initAPEX s1 = Except.error e ∧
      (main m argv).ret = Except.error e ∧
      (main m argv).log = [Call.printf "APEX Particle Sample\n", Call.initPhysX,
        Call.initAPEX]) ∨
    (∃ s1 s2, m.initPhysX m.construct = Except.ok (true, s1) ∧
      m.initAPEX s1 = Except.ok (false, s2) ∧
      (main m argv).ret = Except.ok 1 ∧
      (main m argv).log = [Call.printf "APEX Particle Sample\n", Call.initPhysX,
        Call.initAPEX, Call.printf "APEX initialization failed, exiting\n"]) ∨
    (∃ s1 s2 e, m.initPhysX m.construct = Except.ok (true, s1) ∧
      m.initAPEX s1 = Except.ok (true, s2) ∧
      m.initAssetsAndActors (useTurbulence argv) s2 = Except.error e ∧
      (main m argv).ret = Except.error e ∧
      (main m argv).log = [Call.printf "APEX Particle Sample\n", Call.initPhysX,
        Call.initAPEX, Call.initAssetsAndActors (useTurbulence argv)]) ∨
    (∃ s1 s2 s3, m.initPhysX m.construct = Except.ok (true, s1) ∧
      m.initAPEX s1 = Except.ok (true, s2) ∧
      m.initAssetsAndActors (useTurbulence argv) s2 = Except.ok (false, s3) ∧
      (main m argv).ret = Except.ok 1 ∧
      (main m argv).log = [Call.printf "APEX Particle Sample\n", Call.initPhysX,
        Call.initAPEX, Call.initAssetsAndActors (useTurbulence argv),
        Call.printf "Asset and Actor initialization failed, exiting\n"]) ∨
    (∃ s1 s2 s3, m.initPhysX m.construct = Except.ok (true, s1) ∧
      m.initAPEX s1 = Except.ok (true, s2) ∧
      m.initAssetsAndActors (useTurbulence argv) s2 = Except.ok (true, s3)) := by
  rcases h1 : m.initPhysX m.construct with e | ⟨_ | _, s1⟩
  · exact Or.inl ⟨e, rfl, by simp only [main, h1], by simp only [main, h1]; rfl⟩
  · exact Or.inr (Or.inl ⟨s1, rfl, by simp only [main, h1], by simp only [main, h1]; rfl⟩)
  · rcases h2 : m.initAPEX s1 with e | ⟨_ | _, s2⟩
    · exact Or.inr (Or.inr (Or.inl ⟨s1, e, rfl, h2, by simp only [main, h1, h2],
        by simp only [main, h1, h2]; rfl⟩))
    · exact Or.inr (Or.inr (Or.inr (Or.inl ⟨s1, s2, rfl, h2, by simp only [main, h1, h2],
        by simp only [main, h1, h2]; rfl⟩)))
    · rcases h3 : m.initAssetsAndActors (useTurbulence argv) s2 with e | ⟨_ | _, s3⟩
      · exact Or.inr (Or.inr (Or.inr (Or.inr (Or.inl ⟨s1, s2, e, rfl, h2, h3,
          by simp only [main, h1, h2, h3], by simp only [main, h1, h2, h3]; rfl⟩))))
      · exact Or.inr (Or.inr (Or.inr (Or.inr (Or.inr (Or.inl ⟨s1, s2, s3, rfl, h2, h3,
          by simp only [main, h1, h2, h3], by simp only [main, h1, h2, h3]; rfl⟩)))))
      · exact Or.inr (Or.inr (Or.inr (Or.inr (Or.inr (Or.inr ⟨s1, s2, s3, rfl, h2, h3⟩)))))

/-- Every call of `initAssetsAndActors` that `main` makes passes the flag
computed from the arguments. -/
theorem main_flag {σ : Type} (m : AppMethods σ) (argv : List CStr) (u : Bool)
    (hu : Call.initAssetsAndActors u ∈ (main m argv).log) : u = useTurbulence argv := by
  rcases main_cases m argv with ⟨e, _, _, hl⟩ | ⟨s1, _, _, hl⟩ | ⟨s1, e, _, _, _, hl⟩ |
    ⟨s1, s2, _, _, _, hl⟩ | ⟨s1, s2, e, _, _, _, _, hl⟩ | ⟨s1, s2, s3, _, _, _, _, hl⟩ |
    ⟨s1, s2, s3, h1, h2, h3⟩
  · rw [hl] at hu; simp at hu
  · rw [hl] at hu; simp at hu
  · rw [hl] at hu; simp at hu
  · rw [hl] at hu; simp at hu
  · rw [hl] at hu; simpa using hu
  · rw [hl] at hu; simpa using hu
  · obtain ⟨frames, down, hl, hf, hd, _⟩ := main_log_after_init m argv s1 s2 s3 h1 h2 h3
    rw [hl] at hu
    rcases List.mem_append.mp hu with hu | hu
    · rcases List.mem_append.mp hu with hu | hu
      · simpa using hu
      · rcases hf _ hu with h | h | h <;> cases h
    · rcases hd _ hu with h | h | h <;> cases h

/-- The call of `initAssetsAndActors` is made once `initPhysX` and `initAPEX`
have returned true. -/
theorem main_calls_initAssets {σ : Type} (m : AppMethods σ) (argv : List CStr) (s1 s2 : σ)
    (h1 : m.initPhysX m.construct = Except.ok (true, s1))
    (h2 : m.initAPEX s1 = Except.ok (true, s2)) :
    Call.initAssetsAndActors (useTurbulence argv) ∈ (main m argv).log := by
  rcases h3 : m.initAssetsAndActors (useTurbulence argv) s2 with e | ⟨_ | _, s3⟩
  · simp [main, h1, h2, h3]
  · simp [main, h1, h2, h3]
  · obtain ⟨frames, down, hl, _⟩ := main_log_after_init m argv s1 s2 s3 h1 h2 h3
    rw [hl]
    simp

/-- The log of `WinMain` has the calls of `main` and at most one `printf`
more. -/
theorem WinMain_flag {σ : Type} (m : AppMethods σ) (cmdLine : CStr) (u : Bool)
    (hu : Call.initAssetsAndActors u ∈ (WinMain m cmdLine).log) :
    Call.initAssetsAndActors u ∈ (main m ["MinimalTurbulence".toList, cmdLine]).log := by
  unfold WinMain at hu
  cases hr : (main m ["MinimalTurbulence".toList, cmdLine]).ret with
  | error e => simp only [hr] at hu; exact hu
  | ok k =>
    simp only [hr] at hu
    rcases List.mem_append.mp hu with hu | hu
    · exact hu
    · simp at hu

/-- When `initAPEX` returns true, the SDK and the IOFX module are there, and
`mRenderVolume` is whatever `createRenderVolume` answered. -/
theorem initAPEX_true (env : ApexEnv) (self : AppContext)
    (h : (initAPEX env self).1 = true) :
    (initAPEX env self).2.1.mRenderVolume = env.createRenderVolume ∧
    (initAPEX env self).2.1.mApexSDK ≠ none ∧
    (initAPEX env self).2.1.mIofxModule ≠ none := by
  unfold initAPEX at h ⊢
  cases hsdk : env.NxCreateApexSDK with
  | none => simp [hsdk] at h
  | some sdk =>
    cases hpart : env.createModule "Particles" with
    | none => simp [hsdk, hpart] at h
    | some particles =>
      cases hiofx : env.getModule particles "IOFX" with
      | none => simp [hsdk, hpart, hiofx] at h
      | some iofx =>
        cases hvalid : env.sceneDescIsValid self.mPhysxScene with
        | false => simp [hsdk, hpart, hiofx, hvalid] at h
        | true =>
          cases hscene : env.createScene with
          | none => simp [hsdk, hpart, hiofx, hvalid, hscene] at h
          | some scene => simp [hsdk, hpart, hiofx, hvalid, hscene]

/-- The method `initAssetsAndActors` leaves `mRenderVolume`, `mApexSDK` and
`mIofxModule` as they were. -/
theorem initAssetsAndActors_keeps (env : AssetEnv) (self self2 : AppContext) (u ok : Bool)
    (out : List Event)
    (h : initAssetsAndActors env self u = Except.ok (ok, self2, out)) :
    self2.mRenderVolume = self.mRenderVolume ∧ self2.mApexSDK = self.mApexSDK ∧
    self2.mIofxModule = self.mIofxModule := by
  unfold initAssetsAndActors at h
  cases hsc : self.mApexScene with
  | none =>
    simp only [hsc, Except.ok.injEq, Prod.mk.injEq] at h
    obtain ⟨-, rfl, -⟩ := h
    exact ⟨rfl, rfl, rfl⟩
  | some scene =>
    cases hsd : self.mApexSDK with
    | none => simp [hsc, hsd] at h
    | some sdk =>
      cases hasset : env.getResource env.names.NX_APEX_EMITTER_AUTHORING_TYPE_NAME
          emitterAssetName with
      | none =>
        simp only [hsc, hsd, hasset, Except.ok.injEq, Prod.mk.injEq] at h
        obtain ⟨-, rfl, -⟩ := h
        exact ⟨rfl, rfl, rfl⟩
      | some asset =>
        cases hactor : env.createApexActor asset with
        | none =>
          simp only [hsc, hsd, hasset, hactor, Except.ok.injEq, Prod.mk.injEq] at h
          obtain ⟨-, rfl, -⟩ := h
          exact ⟨rfl, rfl, rfl⟩
        | some actor =>
          cases u with
          | false =>
            simp only [hsc, hsd, hasset, hactor, Except.ok.injEq, Prod.mk.injEq,
              Bool.false_eq_true, if_false] at h
            obtain ⟨-, rfl, -⟩ := h
            exact ⟨rfl, rfl, rfl⟩
          | true =>
            cases htasset : env.getResource env.names.NX_TURBULENCE_FS_AUTHORING_TYPE_NAME
                turbulenceAssetName with
            | none =>
              simp only [hsc, hsd, hasset, hactor, htasset, Except.ok.injEq, Prod.mk.injEq,
                if_true] at h
              obtain ⟨-, rfl, -⟩ := h
              exact ⟨rfl, rfl, rfl⟩
            | some tasset =>
              cases htactor : env.createApexActor tasset with
              | none =>
                simp only [hsc, hsd, hasset, hactor, htasset, htactor, Except.ok.injEq,
                  Prod.mk.injEq, if_true] at h
                obtain ⟨-, rfl, -⟩ := h
                exact ⟨rfl, rfl, rfl⟩
              | some tactor =>
                simp only [hsc, hsd, hasset, hactor, htasset, htactor, Except.ok.injEq,
                  Prod.mk.injEq, if_true] at h
                obtain ⟨-, rfl, -⟩ := h
                exact ⟨rfl, rfl, rfl⟩

/-- With the SDK there, `destroyAssetsAndActors` returns, and it leaves
`mRenderVolume` and `mIofxModule` as they were. -/
theorem destroyAssetsAndActors_returns (env : AssetNameEnv) (self : AppContext) (sdk : Handle)
    (hsdk : self.mApexSDK = some sdk) :
    ∃ self2 out, destroyAssetsAndActors env self = Except.ok (self2, out) ∧
      self2.mRenderVolume = self.mRenderVolume ∧ self2.mIofxModule = self.mIofxModule := by
  unfold destroyAssetsAndActors
  cases hea : self.mEmitterAsset <;> cases hta : self.mTurbulenceAsset <;>
    simp [hsdk, hea, hta]

/-- With the IOFX module there, `destroyAPEX` returns. -/
theorem destroyAPEX_returns (self : AppContext) (iofx : Handle)
    (hiofx : self.mIofxModule = some iofx) :
    ∃ self2 out, destroyAPEX self = Except.ok (self2, out) := by
  unfold destroyAPEX
  cases hv : self.mRenderVolume <;> simp [hiofx, hv]

/-- One pass of the frame loop of the program with a render volume: the three
calls return and `app` is as before. -/
theorem methods_frame_ok (env : SdkAnswers) (material : Handle)
    (heap : Handle → NxApexEmitterActor) (p : Program) (log : List Call) (volume : Handle)
    (hv : p.app.mRenderVolume = some volume) :
    (frame (AppContext.methods env material heap) p log).fault = none ∧
    (frame (AppContext.methods env material heap) p log).app.app = p.app ∧
    (frame (AppContext.methods env material heap) p log).log =
      log ++ [Call.addParticle, Call.simulateFrame (1 / 60), Call.printParticleData] := by
  simp only [frame, AppContext.methods, printParticleData, hv, List.append_assoc,
    List.singleton_append, List.cons_append, List.nil_append, and_self]

/-- One pass of the frame loop of the program without a render volume:
`printParticleData` dereferences `NULL`. -/
theorem methods_frame_fault (env : SdkAnswers) (material : Handle)
    (heap : Handle → NxApexEmitterActor) (p : Program) (log : List Call)
    (hv : p.app.mRenderVolume = none) :
    (frame (AppContext.methods env material heap) p log).fault = some Fault.nullDeref ∧
    (frame (AppContext.methods env material heap) p log).log =
      log ++ [Call.addParticle, Call.simulateFrame (1 / 60), Call.printParticleData] := by
  simp only [frame, AppContext.methods, printParticleData, hv, List.append_assoc,
    List.singleton_append, List.cons_append, List.nil_append, and_self]

/-- The frame loop of the program with a render volume: all passes are made. -/
theorem methods_frameLoop_ok (env : SdkAnswers) (material : Handle)
    (heap : Handle → NxApexEmitterActor) (volume : Handle) :
    ∀ (n : Nat) (p : Program) (log : List Call), p.app.mRenderVolume = some volume →
      (frameLoop (AppContext.methods env material heap) n p log).fault = none ∧
      (frameLoop (AppContext.methods env material heap) n p log).app.app = p.app ∧
      (frameLoop (AppContext.methods env material heap) n p log).log =
        log ++ (List.replicate n
          [Call.addParticle, Call.simulateFrame (1 / 60), Call.printParticleData]).flatten := by
  intro n
  induction n with
  | zero => intro p log _; simp [frameLoop]
  | succ n ih =>
    intro p log hv
    obtain ⟨f1, f2, f3⟩ := methods_frame_ok env material heap p log volume hv
    obtain ⟨g1, g2, g3⟩ := ih (frame (AppContext.methods env material heap) p log).app
      (frame (AppContext.methods env material heap) p log).log (by rw [f2]; exact hv)
    simp only [frameLoop, f1]
    refine ⟨g1, by rw [g2, f2], ?_⟩
    rw [g3, f3, List.replicate_succ, List.flatten_cons, List.append_assoc]

/-- The end of `main` in the program when the SDK and the IOFX module are
there: the three tear-down calls return and `main` returns 0. -/
theorem methods_tearDown (env : SdkAnswers) (material : Handle)
    (heap : Handle → NxApexEmitterActor) (p : Program) (log : List Call) (sdk iofx : Handle)
    (hsdk : p.app.mApexSDK = some sdk) (hiofx : p.app.mIofxModule = some iofx) :
    (tearDown (AppContext.methods env material heap) p log).ret = Except.ok 0 ∧
    (tearDown (AppContext.methods env material heap) p log).log =
      log ++ [Call.destroyAssetsAndActors, Call.destroyAPEX, Call.destroyPhysX] := by
  obtain ⟨a1, t1, h1, -, hi1⟩ := destroyAssetsAndActors_returns env.assetNames p.app sdk hsdk
  obtain ⟨a2, t2, h2⟩ := destroyAPEX_returns a1 iofx (by rw [hi1]; exact hiofx)
  simp only [tearDown, AppContext.methods, h1, h2, List.append_assoc,
    List.singleton_append, List.cons_append, List.nil_append, and_self]

/-- What the three initialisation steps of the program leave behind when they
return true. -/
theorem methods_after_init (env : SdkAnswers) (material : Handle)
    (heap : Handle → NxApexEmitterActor) (u : Bool) (s1 s2 s3 : Program)
    (h2 : (AppContext.methods env material heap).initAPEX s1 = Except.ok (true, s2))
    (h3 : (AppContext.methods env material heap).initAssetsAndActors u s2 =
      Except.ok (true, s3)) :
    s3.app.mRenderVolume = env.apex.createRenderVolume ∧
    s3.app.mApexSDK ≠ none ∧ s3.app.mIofxModule ≠ none := by
  simp only [AppContext.methods, Except.ok.injEq, Prod.mk.injEq] at h2
  obtain ⟨hb, hs2⟩ := h2
  obtain ⟨k1, k2, k3⟩ := initAPEX_true env.apex s1.app hb
  have hs2app : s2.app = (initAPEX env.apex s1.app).2.1 := by rw [← hs2]
  simp only [AppContext.methods] at h3
  cases hr : initAssetsAndActors env.assets s2.app u with
  | error e => simp [hr] at h3
  | ok r =>
    obtain ⟨b, a3, t3⟩ := r
    simp only [hr, Except.ok.injEq, Prod.mk.injEq] at h3
    obtain ⟨-, hs3⟩ := h3
    obtain ⟨q1, q2, q3⟩ := initAssetsAndActors_keeps env.assets s2.app a3 u b t3 hr
    have hs3app : s3.app = a3 := by rw [← hs3]
    rw [hs3app, q1, q2, q3, hs2app]
    exact ⟨k1, k2, k3⟩

/-- The run of `main` in the program after three initialisation steps that
return true. -/
theorem methods_main (env : SdkAnswers) (material : Handle)
    (heap : Handle → NxApexEmitterActor) (argv : List CStr) (s1 s2 s3 : Program)
    (h1 : (AppContext.methods env material heap).initPhysX
      (AppContext.methods env material heap).construct = Except.ok (true, s1))
    (h2 : (AppContext.methods env material heap).initAPEX s1 = Except.ok (true, s2))
    (h3 : (AppContext.methods env material heap).initAssetsAndActors (useTurbulence argv) s2 =
      Except.ok (true, s3)) :
    (env.apex.createRenderVolume = none →
      (main (AppContext.methods env material heap) argv).ret = Except.error Fault.nullDeref ∧
      (main (AppContext.methods env material heap) argv).log =
        [Call.printf "APEX Particle Sample\n", Call.initPhysX, Call.initAPEX,
          Call.initAssetsAndActors (useTurbulence argv), Call.addParticle,
          Call.simulateFrame (1 / 60), Call.printParticleData]) ∧
    (env.apex.createRenderVolume ≠ none →
      (main (AppContext.methods env material heap) argv).ret = Except.ok 0 ∧
      (main (AppContext.methods env material heap) argv).log = fullLog (useTurbulence argv)) := by
  obtain ⟨k1, k2, k3⟩ := methods_after_init env material heap (useTurbulence argv) s1 s2 s3 h2 h3
  rw [main_after_init (AppContext.methods env material heap) argv s1 s2 s3 h1 h2 h3]
  constructor
  · intro hnone
    obtain ⟨f1, f2⟩ := methods_frame_fault env material heap s3
      [Call.printf "APEX Particle Sample\n", Call.initPhysX, Call.initAPEX,
        Call.initAssetsAndActors (useTurbulence argv)] (by rw [k1]; exact hnone)
    simp only [frameLoop, f1, f2, List.cons_append, List.nil_append, and_self]
  · intro hsome
    obtain ⟨volume, hvol⟩ := Option.ne_none_iff_exists'.mp hsome
    obtain ⟨sdk, hsdk⟩ := Option.ne_none_iff_exists'.mp k2
    obtain ⟨iofx, hiofx⟩ := Option.ne_none_iff_exists'.mp k3
    obtain ⟨g1, g2, g3⟩ := methods_frameLoop_ok env material heap volume 8 s3
      [Call.printf "APEX Particle Sample\n", Call.initPhysX, Call.initAPEX,
        Call.initAssetsAndActors (useTurbulence argv)] (by rw [k1]; exact hvol)
    obtain ⟨d1, d2⟩ := methods_tearDown env material heap
      (frameLoop (AppContext.methods env material heap) 8 s3
        [Call.printf "APEX Particle Sample\n", Call.initPhysX, Call.initAPEX,
          Call.initAssetsAndActors (useTurbulence argv)]).app
      (frameLoop (AppContext.methods env material heap) 8 s3
        [Call.printf "APEX Particle Sample\n", Call.initPhysX, Call.initAPEX,
          Call.initAssetsAndActors (useTurbulence argv)]).log sdk iofx
      (by rw [g2]; exact hsdk) (by rw [g2]; exact hiofx)
    simp only [g1]
    refine ⟨d1, ?_⟩
    rw [d2, g3]
    rfl

theorem useTurbulence_eq_false_iff (argv : List CStr) :
    useTurbulence argv = false ↔
      argv.length > 1 ∧ ∃ arg, argv[1]? = some arg ∧ equalsIgnoreCase arg "noTurbulence".toList := by
  unfold useTurbulence
  by_cases hlen : argv.length > 1
  · rw [if_pos hlen]
    cases harg : argv[1]? with
    | none => simp
    | some arg =>
      by_cases hcmp : stricmp arg "noTurbulence".toList = 0
      · have heq := (stricmp_eq_zero_iff _ _).mp hcmp
        simp only [if_pos hcmp, true_iff]
        exact ⟨hlen, arg, rfl, heq⟩
      · simp only [if_neg hcmp, Bool.true_eq_false, false_iff]
        rintro ⟨_, arg2, h2, heq⟩
        cases h2
        exact hcmp ((stricmp_eq_zero_iff _ _).mpr heq)
  · rw [if_neg hlen]
    simp only [Bool.true_eq_false, false_iff]
    exact fun h => hlen h.1

theorem upDirs_length (k : Nat) (path : CStr) : (upDirs k path).length = 3 * k + path.length := by
  induction k with
  | zero => simp [upDirs]
  | succ k ih => simp [upDirs, ih]; omega

theorem searchLoop_found (fileExists : CStr → Bool) (size : Nat) (path : CStr) (k : Nat)
    (hk : fileExists (upDirs k path) = true)
    (hroom : (upDirs k path).length + 1 ≤ size) :
    ∀ n j, j ≤ k → k < j + n → (∀ i, j ≤ i → i < k → fileExists (upDirs i path) = false) →
      searchLoop fileExists size n (upDirs j path) = Except.ok (true, upDirs k path) := by
  intro n
  induction n with
  | zero => intro j h1 h2; omega
  | succ n ih =>
    intro j h1 h2 hleast
    rcases Nat.eq_or_lt_of_le h1 with hjk | hjk
    · subst hjk
      simp [searchLoop, hk]
    · have hj : fileExists (upDirs j path) = false := hleast j (le_refl j) hjk
      have hlen : (upDirs (j + 1) path).length + 1 ≤ size := by
        rw [upDirs_length] at hroom ⊢; omega
      have hnext := ih (j + 1) hjk (by omega) (fun i hi1 hi2 => hleast i (by omega) hi2)
      have hlen2 : ("../".toList ++ upDirs j path).length + 1 ≤ size := hlen
      simp only [searchLoop, hj, if_true, sprintf_s, strcpy_s, if_pos hlen2]
      exact hnext

theorem searchLoop_true_inv (fileExists : CStr → Bool) (size : Nat) (path : CStr) (out : CStr) :
    ∀ n j, searchLoop fileExists size n (upDirs j path) = Except.ok (true, out) →
      ∃ k, j ≤ k ∧ k < j + n ∧ fileExists (upDirs k path) = true ∧
        (∀ i, j ≤ i → i < k → fileExists (upDirs i path) = false) ∧ out = upDirs k path := by
  intro n
  induction n with
  | zero => intro j h; simp [searchLoop] at h
  | succ n ih =>
    intro j h
    cases hj : fileExists (upDirs j path) with
    | true =>
      simp [searchLoop, hj] at h
      exact ⟨j, le_refl j, by omega, hj, fun i hi1 hi2 => by omega, h.symm⟩
    | false =>
      by_cases hlen : ("../".toList ++ upDirs j path).length + 1 ≤ size
      · simp only [searchLoop, hj, if_true, sprintf_s, strcpy_s, if_pos hlen] at h
        obtain ⟨k, hk1, hk2, hk3, hk4, hk5⟩ := ih (j + 1) h
        refine ⟨k, by omega, by omega, hk3, ?_, hk5⟩
        intro i hi1 hi2
        rcases Nat.eq_or_lt_of_le hi1 with hji | hji
        · subst hji; exact hj
        · exact hk4 i hji hi2
      · simp only [searchLoop, hj, if_true, sprintf_s, if_neg hlen] at h
        cases h

theorem searchLoop_total (fileExists : CStr → Bool) (size : Nat) (path : CStr) :
    ∀ n j, (upDirs (j + n) path).length + 1 ≤ size →
      ∃ found out, searchLoop fileExists size n (upDirs j path) = Except.ok (found, out) := by
  intro n
  induction n with
  | zero => intro j _; exact ⟨false, _, rfl⟩
  | succ n ih =>
    intro j hroom
    cases hj : fileExists (upDirs j path) with
    | true => exact ⟨true, upDirs j path, by simp [searchLoop, hj]⟩
    | false =>
      have hlen : ("../".toList ++ upDirs j path).length + 1 ≤ size := by
        have : (upDirs (j + 1) path).length + 1 ≤ size := by
          rw [upDirs_length] at hroom ⊢; omega
        exact this
      obtain ⟨found, out, h⟩ := ih (j + 1) (by rw [show j + 1 + n = j + (n + 1) by omega]; exact hroom)
      refine ⟨found, out, ?_⟩
      simp only [searchLoop, hj, if_true, sprintf_s, strcpy_s, if_pos hlen]
      exact h

/-- The search returns true with `out` in the buffer exactly when `out` is the
first existing candidate among `path`, `../path`, ... (fewer than
`maxRecursion` copies of `../`), provided the buffer has room for it. -/
theorem searchForPath_true_iff (fileExists : CStr → Bool) (path : CStr) (size : Nat)
    (maxRecursion : Int) (out : CStr)
    (hroom : ∀ k : Nat, (k : Int) < maxRecursion → path.length + 3 * k + 1 ≤ size)
    (hpath : path.length + 1 ≤ size) :
    searchForPath fileExists path size maxRecursion = Except.ok (true, out) ↔
      ∃ k : Nat, (k : Int) < maxRecursion ∧ fileExists (upDirs k path) = true ∧
        (∀ i, i < k → fileExists (upDirs i path) = false) ∧ out = upDirs k path := by
  simp only [searchForPath, strcpy_s, if_pos hpath]
  constructor
  · intro h
    obtain ⟨k, _, hk2, hk3, hk4, hk5⟩ := searchLoop_true_inv fileExists size path out _ 0 h
    refine ⟨k, ?_, hk3, fun i hi => hk4 i (Nat.zero_le i) hi, hk5⟩
    rw [Nat.zero_add] at hk2
    exact Int.lt_toNat.mp hk2
  · rintro ⟨k, hk1, hk2, hk3, hk4⟩
    subst hk4
    have hlen : (upDirs k path).length + 1 ≤ size := by
      rw [upDirs_length]; have := hroom k hk1; omega
    exact searchLoop_found fileExists size path k hk2 hlen _ 0 (Nat.zero_le k)
      (by rw [Nat.zero_add]; exact Int.lt_toNat.mpr hk1) (fun i _ hi => hk3 i hi)

theorem searchForPath_returns (fileExists : CStr → Bool) (path : CStr) (size : Nat)
    (maxRecursion : Int) (hroom : path.length + 3 * maxRecursion.toNat + 1 ≤ size) :
    ∃ found out, searchForPath fileExists path size maxRecursion = Except.ok (found, out) := by
  have hpath : path.length + 1 ≤ size := by omega
  simp only [searchForPath, strcpy_s, if_pos hpath]
  apply searchLoop_total fileExists size path _ 0
  rw [upDirs_length]; omega

theorem exists_least_candidate (p : Nat → Bool) (n : Nat) (h : ∃ k, k < n ∧ p k = true) :
    ∃ k, k < n ∧ p k = true ∧ ∀ i, i < k → p i = false := by
  classical
  have hex : ∃ k, p k = true ∧ k < n := by
    obtain ⟨k, h1, h2⟩ := h; exact ⟨k, h2, h1⟩
  refine ⟨Nat.find hex, (Nat.find_spec hex).2, (Nat.find_spec hex).1, ?_⟩
  intro i hi
  have := Nat.find_min hex hi
  cases hp : p i with
  | false => rfl
  | true =>
    exfalso; apply this
    exact ⟨hp, lt_trans hi (Nat.find_spec hex).2⟩

theorem media_room (k : Nat) (hk : (k : Int) < 20) :
    "media".toList.length + 3 * k + 1 ≤ MAX_PATH := by
  have : k < 20 := by exact_mod_cast hk
  simp [MAX_PATH]; omega

theorem requestResource_asset_branch (env : ResourceEnv) (self : AppApexResourceCallback)
    (nameSpace name : CStr) (sdk : Handle) (hsdk : self.mApexSDK = some sdk)
    (hmat : nameSpace ≠ env.names.APEX_MATERIALS_NAME_SPACE)
    (hasset : nameSpace = env.names.NX_APEX_EMITTER_AUTHORING_TYPE_NAME ∨
      nameSpace = env.names.NX_IOFX_AUTHORING_TYPE_NAME ∨
      nameSpace = env.names.NX_BASIC_IOS_AUTHORING_TYPE_NAME ∨
      nameSpace = env.names.NX_TURBULENCE_FS_AUTHORING_TYPE_NAME)
    (hcache : self.mPathToMedia = []) (r : Handle) :
    (∃ self2 out, requestResource env self nameSpace name = Except.ok (some r, self2, out)) ↔
      ∃ media, searchForPath env.fileExists "media".toList MAX_PATH 20 = Except.ok (true, media) ∧
        env.streamIsOpen (assetFileName env media name) = true ∧
        ∃ params, env.deserialize (assetFileName env media name) = [params] ∧
          env.createAsset params name = some r := by
  obtain ⟨found, media, hs⟩ :=
    searchForPath_returns env.fileExists "media".toList MAX_PATH 20 (by decide)
  simp only [requestResource, hsdk, strcmp_eq_zero_iff, hmat, hasset, hcache, if_true, if_false, hs]
  cases found with
  | false => simp
  | true =>
    cases hopen : env.streamIsOpen (assetFileName env media name) with
    | false => simp [hopen]
    | true =>
      simp only [hopen, Bool.true_eq_false, if_false]
      cases hdata : env.deserialize (assetFileName env media name) with
      | nil => simp [hopen, hdata]
      | cons p ps =>
        cases ps with
        | cons q qs => simp [hopen, hdata]
        | nil =>
          cases hcreate : env.createAsset p name with
          | none => simp [hopen, hdata, hcreate]
          | some a => simp [hopen, hdata, hcreate]

theorem positionOf_positionLine (p : PxVec3) : positionOf (positionLine p) = some p := by
  simp [positionOf, positionLine]

theorem printedPositions_append (a b : List Event) :
    printedPositions (a ++ b) = printedPositions a ++ printedPositions b := by
  simp [printedPositions]

theorem printedPositions_lines (ps : List PxVec3) :
    printedPositions (ps.map positionLine) = ps := by
  induction ps with
  | nil => rfl
  | cons p ps ih =>
    simp only [printedPositions] at ih
    simp [printedPositions, List.filterMap_cons, positionOf_positionLine, ih]

theorem printedPositions_header (self : AppSpriteBuffer) (firstSprite numSprites : Nat) :
    printedPositions (writeBufferHeader self firstSprite numSprites) = [] := by
  cases h : self.mContextData <;> simp [printedPositions, writeBufferHeader, h, positionOf]

theorem printPositions_ok (arr : Fin MAX_SPRITE_COUNT → SpriteData) (firstSprite : Nat)
    (f : Nat → PxVec3) :
    ∀ n i, firstSprite + i + n ≤ MAX_SPRITE_COUNT →
      (∀ j (h : firstSprite + j < MAX_SPRITE_COUNT), i ≤ j → j < i + n →
        (arr ⟨firstSprite + j, h⟩).position = f j) →
      printPositions arr firstSprite n i =
        Except.ok ((List.range' i n).map (fun j => positionLine (f j))) := by
  intro n
  induction n with
  | zero => intro i _ _; simp [printPositions]
  | succ n ih =>
    intro i hle harr
    have hlt : firstSprite + i < MAX_SPRITE_COUNT := by omega
    have hrest := ih (i + 1) (by omega) (fun j h h1 h2 => harr j h (by omega) (by omega))
    simp only [printPositions, dif_pos hlt, hrest, List.range'_succ, List.map_cons]
    rw [harr i hlt (le_refl i) (by omega)]

theorem memcpy_bytes (t : Target) (n : Nat) (hn : n ≤ MAX_SPRITE_COUNT) :
    (n * sizeofSpriteData) % 2 ^ t.sizeBits / sizeofSpriteData = n := by
  have hn2 : n ≤ 20 := hn
  have h1 : n * sizeofSpriteData < 2 ^ t.sizeBits := by
    cases t <;> simp [Target.sizeBits, sizeofSpriteData] <;> omega
  rw [Nat.mod_eq_of_lt h1]
  simp [sizeofSpriteData]

theorem writeBuffer_below_max (t : Target) (self : AppSpriteBuffer) (data : Nat → SpriteData)
    (firstSprite numSprites : Nat) (hfirst : firstSprite < MAX_SPRITE_COUNT)
    (hsum : firstSprite + numSprites ≤ MAX_SPRITE_COUNT) :
    writeBuffer t self data firstSprite numSprites =
      Except.ok
        ({ self with mSpriteData := fun i =>
            if firstSprite ≤ i.val ∧ i.val < firstSprite + numSprites
            then data (i.val - firstSprite) else self.mSpriteData i },
          writeBufferHeader self firstSprite numSprites ++
            [Event.printf "Position Data: \n" []] ++
            (List.range numSprites).map (fun c => positionLine (data c).position)) := by
  have hfirst2 : firstSprite < 20 := hfirst
  have hsum2 : firstSprite + numSprites ≤ 20 := hsum
  have hnot : ¬ firstSprite ≥ MAX_SPRITE_COUNT := by simp only [MAX_SPRITE_COUNT]; omega
  have hmod : (firstSprite + numSprites) % U32 = firstSprite + numSprites :=
    Nat.mod_eq_of_lt (by simp only [U32]; omega)
  have hclamp : ¬ (firstSprite + numSprites) % U32 > MAX_SPRITE_COUNT := by
    rw [hmod]; simp only [MAX_SPRITE_COUNT]; omega
  have hbytes := memcpy_bytes t numSprites (by simp only [MAX_SPRITE_COUNT]; omega)
  have hprint := printPositions_ok
    (fun i => if firstSprite ≤ i.val ∧ i.val < firstSprite + numSprites
      then data (i.val - firstSprite) else self.mSpriteData i)
    firstSprite (fun c => (data c).position) numSprites 0
    (by simp only [MAX_SPRITE_COUNT]; omega)
    (by
      intro j h _ hj
      have h2 : firstSprite ≤ firstSprite + j ∧ firstSprite + j < firstSprite + numSprites := by
        omega
      simp only [h2, and_self, if_true, Nat.add_sub_cancel_left])
  simp only [writeBuffer, if_neg hnot, hclamp, decide_False, Bool.false_eq_true, if_false,
    memcpySprites, hbytes, if_pos hsum, hprint, List.range_eq_range']

theorem writeBuffer_memcpy (t : Target) (self : AppSpriteBuffer) (data : Nat → SpriteData)
    (firstSprite numSprites : Nat) (hfirst : firstSprite < MAX_SPRITE_COUNT) :
    writeBuffer t self data firstSprite numSprites =
      match memcpySprites self.mSpriteData firstSprite data
          (memcpyByteCount t firstSprite numSprites) with
      | Except.error e => Except.error e
      | Except.ok arr =>
        match printPositions arr firstSprite (numSpritesAtCopy firstSprite numSprites) 0 with
        | Except.error e => Except.error e
        | Except.ok lines =>
          Except.ok ({ self with mSpriteData := arr },
            (if (firstSprite + numSprites) % U32 > MAX_SPRITE_COUNT then
              writeBufferHeader self firstSprite numSprites ++
                [Event.printf "Warning, writeBuffer called with %d sprites\n"
                  [PrintfArg.int (asInt32 numSprites)]]
             else writeBufferHeader self firstSprite numSprites) ++
            [Event.printf "Position Data: \n" []] ++ lines) := by
  have hnot : ¬ firstSprite ≥ MAX_SPRITE_COUNT := Nat.not_le.mpr hfirst
  by_cases hwrap : (firstSprite + numSprites) % U32 > MAX_SPRITE_COUNT
  · simp only [writeBuffer, if_neg hnot, hwrap, decide_True, if_true, memcpyByteCount,
      numSpritesAtCopy]
  · simp only [writeBuffer, if_neg hnot, hwrap, decide_False, Bool.false_eq_true, if_false,
      memcpyByteCount, numSpritesAtCopy]

theorem recordsCopied_no_wrap (t : Target) (firstSprite numSprites : Nat)
    (hfirst : firstSprite < MAX_SPRITE_COUNT) (hsum : firstSprite + numSprites < U32) :
    firstSprite + recordsCopied t firstSprite numSprites ≤ MAX_SPRITE_COUNT := by
  have hfirst2 : firstSprite < 20 := hfirst
  have hsum2 : firstSprite + numSprites < 4294967296 := hsum
  have hmod : (firstSprite + numSprites) % U32 = firstSprite + numSprites :=
    Nat.mod_eq_of_lt hsum
  unfold recordsCopied memcpyByteCount numSpritesAtCopy
  rw [hmod]
  by_cases hbig : firstSprite + numSprites > MAX_SPRITE_COUNT
  · rw [if_pos hbig]
    have hclamp : (MAX_SPRITE_COUNT + U32 - firstSprite) % U32 = 20 - firstSprite := by
      have h1 : MAX_SPRITE_COUNT + U32 - firstSprite = (20 - firstSprite) + U32 := by
        simp only [MAX_SPRITE_COUNT, U32]; omega
      rw [h1, Nat.add_mod_right]
      exact Nat.mod_eq_of_lt (by simp only [U32]; omega)
    rw [hclamp, memcpy_bytes t (20 - firstSprite) (by simp only [MAX_SPRITE_COUNT]; omega)]
    simp only [MAX_SPRITE_COUNT]; omega
  · rw [if_neg hbig]
    have hbig2 : firstSprite + numSprites ≤ 20 := Nat.not_lt.mp hbig
    rw [memcpy_bytes t numSprites (by simp only [MAX_SPRITE_COUNT]; omega)]
    exact hbig2

theorem searchLoop_not_found (fileExists : CStr → Bool) (size : Nat) (path : CStr) :
    ∀ n j, (upDirs (j + n) path).length + 1 ≤ size →
      (∀ k, j ≤ k → k < j + n → fileExists (upDirs k path) = false) →
      searchLoop fileExists size n (upDirs j path) = Except.ok (false, upDirs (j + n) path) := by
  intro n
  induction n with
  | zero => intro j _ _; rfl
  | succ n ih =>
    intro j hroom hnone
    have hj : fileExists (upDirs j path) = false := hnone j (le_refl j) (by omega)
    have hlen : ("../".toList ++ upDirs j path).length + 1 ≤ size := by
      have : (upDirs (j + 1) path).length + 1 ≤ size := by
        rw [upDirs_length] at hroom ⊢; omega
      exact this
    have hnext := ih (j + 1)
      (by rw [show j + 1 + n = j + (n + 1) by omega]; exact hroom)
      (fun k hk1 hk2 => hnone k (by omega) (by omega))
    simp only [searchLoop, hj, if_true, sprintf_s, strcpy_s, if_pos hlen]
    rw [show j + (n + 1) = j + 1 + n by omega]
    exact hnext

/-- A search for the media folder that fails leaves the candidate with twenty
copies of `../` in `mPathToMedia`; that candidate was never tested. -/
theorem requestResource_failed_search (env : ResourceEnv) (self : AppApexResourceCallback)
    (nameSpace name : CStr) (hsdk : self.mApexSDK ≠ none)
    (hmat : nameSpace ≠ env.names.APEX_MATERIALS_NAME_SPACE)
    (hasset : nameSpace = env.names.NX_APEX_EMITTER_AUTHORING_TYPE_NAME ∨
      nameSpace = env.names.NX_IOFX_AUTHORING_TYPE_NAME ∨
      nameSpace = env.names.NX_BASIC_IOS_AUTHORING_TYPE_NAME ∨
      nameSpace = env.names.NX_TURBULENCE_FS_AUTHORING_TYPE_NAME)
    (hcache : self.mPathToMedia = [])
    (hnone : ∀ k, k < 20 → env.fileExists (upDirs k "media".toList) = false) :
    ∃ out, requestResource env self nameSpace name =
      Except.ok (none, { self with mPathToMedia := upDirs 20 "media".toList }, out) := by
  have hsearch : searchForPath env.fileExists "media".toList MAX_PATH 20 =
      Except.ok (false, upDirs 20 "media".toList) := by
    have hpath : "media".toList.length + 1 ≤ MAX_PATH := by decide
    simp only [searchForPath, strcpy_s, if_pos hpath]
    have h := searchLoop_not_found env.fileExists MAX_PATH "media".toList 20 0 (by decide)
      (fun k _ hk => hnone k (by omega))
    exact h
  cases hs : self.mApexSDK with
  | none => exact absurd hs hsdk
  | some sdk =>
    simp only [requestResource, hs, strcmp_eq_zero_iff, hmat, hasset, hcache, if_true, if_false,
      hsearch]
    exact ⟨_, rfl⟩

theorem printActor_section (env : RenderEnv) (actor : Handle) (drawnParticles : Nat) :
    (printActor env actor drawnParticles).1 = actorSection env actor := by
  cases h : env.boundsIsEmpty actor <;> simp [printActor, actorSection, h]

theorem printActorLoop_sections (env : RenderEnv) :
    ∀ actors drawnParticles,
      (printActorLoop env actors drawnParticles).1 = (actors.map (actorSection env)).flatten := by
  intro actors
  induction actors with
  | nil => intro _; rfl
  | cons actor rest ih =>
    intro drawnParticles
    simp only [printActorLoop, printActor_section, ih, List.map_cons, List.flatten_cons]

theorem lockDiscipline_section (env : RenderEnv) (actor : Handle) (held : List Handle)
    (tail : List Event) :
    lockDiscipline held (actorSection env actor ++ tail) = lockDiscipline held tail := by
  cases h : env.boundsIsEmpty actor <;> simp [actorSection, h, lockDiscipline]

theorem lockDiscipline_sections (env : RenderEnv) (held : List Handle) (tail : List Event) :
    ∀ actors : List Handle,
      lockDiscipline held ((actors.map (actorSection env)).flatten ++ tail) =
      lockDiscipline held tail := by
  intro actors
  induction actors with
  | nil => rfl
  | cons actor rest ih =>
    simp only [List.map_cons, List.flatten_cons, List.append_assoc, lockDiscipline_section, ih]

theorem update_mem_sections (env : RenderEnv) (actor : Handle) (rewriteBuffers : Bool)
    (ctx : CStr) :
    ∀ actors : List Handle, Event.updateRenderResources actor rewriteBuffers ctx ∈
        (actors.map (actorSection env)).flatten →
      env.boundsIsEmpty actor = false ∧ actor ∈ actors := by
  intro actors
  induction actors with
  | nil => intro h; simp at h
  | cons a rest ih =>
    intro h
    simp only [List.map_cons, List.flatten_cons, List.mem_append] at h
    rcases h with h | h
    · cases hb : env.boundsIsEmpty a with
      | true => simp [actorSection, hb] at h
      | false =>
        simp [actorSection, hb] at h
        obtain ⟨h1, _, _⟩ := h
        subst h1
        exact ⟨hb, List.mem_cons_self _ _⟩
    · exact ⟨(ih h).1, List.mem_cons_of_mem _ (ih h).2⟩

theorem spriteBufferAt_isSome (m : AppRenderResourceManager) (b : Handle) :
    (m.spriteBufferAt b).isSome = true ↔ b ∈ m.spriteBufferAddresses := by
  simp [AppRenderResourceManager.spriteBufferAt, AppRenderResourceManager.spriteBufferAddresses,
    List.find?_isSome]

theorem createResource_eq (m : AppRenderResourceManager) (address b : Handle)
    (desc : NxUserRenderResourceDesc) (hdesc : desc.spriteBuffer = some b)
    (hlive : b ∈ m.spriteBufferAddresses) :
    createResource m address desc =
      Except.ok (address,
        { mRenderResourceList :=
            m.mRenderResourceList ++ [(address, { mSpriteBuffer := some b })]
          mSpriteBufferList := m.mSpriteBufferList.map (fun e =>
            if e.1 = b then (e.1, { e.2 with mContextData := desc.userRenderData }) else e) },
        [Event.printf "NxUserRenderResourceManager::createResource called\n" []]) := by
  have hsome := (spriteBufferAt_isSome m b).mpr hlive
  cases hat : m.spriteBufferAt b with
  | none => rw [hat] at hsome; cases hsome
  | some buf =>
    simp [createResource, hdesc, hat, AppRenderResource.new]

theorem createResource_ok_inv (m : AppRenderResourceManager) (address : Handle)
    (desc : NxUserRenderResourceDesc) (r : Handle × AppRenderResourceManager × List Event)
    (h : createResource m address desc = Except.ok r) :
    ∃ b, desc.spriteBuffer = some b ∧ b ∈ m.spriteBufferAddresses := by
  cases hdesc : desc.spriteBuffer with
  | none => simp [createResource, hdesc] at h
  | some b =>
    refine ⟨b, rfl, ?_⟩
    cases hat : m.spriteBufferAt b with
    | none => simp [createResource, hdesc, hat] at h
    | some buf =>
      exact (spriteBufferAt_isSome m b).mp (by rw [hat]; rfl)

theorem map_fst_setContext (l : List (Handle × AppSpriteBuffer)) (b : Handle)
    (ctx : Option CStr) :
    (l.map (fun e =>
      if e.1 = b then (e.1, { e.2 with mContextData := ctx }) else e)).map (fun e => e.1) =
      l.map (fun e => e.1) := by
  induction l with
  | nil => rfl
  | cons e rest ih =>
    simp only [List.map_cons, ih]
    by_cases h : e.1 = b <;> simp [h]

theorem callManager_createResource (m m1 : AppRenderResourceManager) (address : Handle)
    (desc : NxUserRenderResourceDesc)
    (h : callManager m (ManagerCall.createResource address desc) = Except.ok m1) :
    ∃ b, desc.spriteBuffer = some b ∧ b ∈ m.spriteBufferAddresses ∧
      m1 = { mRenderResourceList :=
              m.mRenderResourceList ++ [(address, { mSpriteBuffer := some b })]
             mSpriteBufferList := m.mSpriteBufferList.map (fun e =>
              if e.1 = b then (e.1, { e.2 with mContextData := desc.userRenderData })
              else e) } := by
  cases hr : createResource m address desc with
  | error e => simp [callManager, hr] at h
  | ok r =>
    obtain ⟨b, hb1, hb2⟩ := createResource_ok_inv m address desc r hr
    refine ⟨b, hb1, hb2, ?_⟩
    rw [createResource_eq m address b desc hb1 hb2] at hr
    simp only [callManager, createResource_eq m address b desc hb1 hb2] at h
    cases h
    rfl

theorem callManager_spriteAddresses (m m1 : AppRenderResourceManager) (c : ManagerCall)
    (h : callManager m c = Except.ok m1) :
    m1.spriteBufferAddresses =
      match c with
      | ManagerCall.createSpriteBuffer address _ => m.spriteBufferAddresses ++ [address]
      | ManagerCall.releaseSpriteBuffer buffer =>
        m.spriteBufferAddresses.filter (fun a => !(a == buffer))
      | _ => m.spriteBufferAddresses := by
  cases c with
  | createSpriteBuffer address uninit =>
    simp only [callManager, createSpriteBuffer] at h
    cases h
    simp [AppRenderResourceManager.spriteBufferAddresses]
  | releaseSpriteBuffer buffer =>
    simp only [callManager, releaseSpriteBuffer] at h
    cases h
    simp [AppRenderResourceManager.spriteBufferAddresses, AppMatchesRenderResource,
      List.filter_map, Function.comp_def]
  | createResource address desc =>
    obtain ⟨b, _, _, hm1⟩ := callManager_createResource m m1 address desc h
    subst hm1
    simp only [AppRenderResourceManager.spriteBufferAddresses]
    exact map_fst_setContext _ _ _
  | releaseResource resource =>
    simp only [callManager, AppRenderResourceManager.releaseResource] at h
    cases h
    rfl

theorem callManager_resourceAddresses (m m1 : AppRenderResourceManager) (c : ManagerCall)
    (h : callManager m c = Except.ok m1) :
    m1.renderResourceAddresses =
      match c with
      | ManagerCall.createResource address _ => m.renderResourceAddresses ++ [address]
      | ManagerCall.releaseResource resource =>
        m.renderResourceAddresses.filter (fun a => !(a == resource))
      | _ => m.renderResourceAddresses := by
  cases c with
  | createSpriteBuffer address uninit =>
    simp only [callManager, createSpriteBuffer] at h
    cases h
    rfl
  | releaseSpriteBuffer buffer =>
    simp only [callManager, releaseSpriteBuffer] at h
    cases h
    rfl
  | createResource address desc =>
    obtain ⟨b, _, _, hm1⟩ := callManager_createResource m m1 address desc h
    subst hm1
    simp [AppRenderResourceManager.renderResourceAddresses]
  | releaseResource resource =>
    simp only [callManager, AppRenderResourceManager.releaseResource] at h
    cases h
    simp [AppRenderResourceManager.renderResourceAddresses, AppMatchesRenderResource,
      List.filter_map, Function.comp_def]

theorem mem_after_run (addr : AppRenderResourceManager → List Handle)
    (creates releases : Handle → ManagerCall → Bool) (a : Handle)
    (step : ∀ m m1 c, callManager m c = Except.ok m1 →
      (a ∈ addr m1 ↔ (a ∈ addr m ∧ releases a c = false) ∨ creates a c = true)) :
    ∀ (calls : List ManagerCall) (m m2 : AppRenderResourceManager),
      runManager m calls = Except.ok m2 →
      (a ∈ addr m2 ↔ (a ∈ addr m ∧ calls.any (releases a) = false) ∨
        createdNotReleased creates releases a calls = true) := by
  intro calls
  induction calls with
  | nil =>
    intro m m2 h
    simp only [runManager] at h
    cases h
    simp [createdNotReleased]
  | cons c rest ih =>
    intro m m2 h
    cases hc : callManager m c with
    | error e => simp [runManager, hc] at h
    | ok m1 =>
      simp only [runManager, hc] at h
      rw [ih m1 m2 h, step m m1 c hc]
      simp only [List.any_cons, createdNotReleased, Bool.or_eq_false_iff, Bool.or_eq_true,
        Bool.and_eq_true, Bool.not_eq_true']
      constructor
      · rintro (⟨(⟨h1, h2⟩ | h1), h3⟩ | h1)
        · exact Or.inl ⟨h1, h2, h3⟩
        · exact Or.inr (Or.inl ⟨h1, h3⟩)
        · exact Or.inr (Or.inr h1)
      · rintro (⟨h1, h2, h3⟩ | (⟨h1, h3⟩ | h1))
        · exact Or.inl ⟨Or.inl ⟨h1, h2⟩, h3⟩
        · exact Or.inl ⟨Or.inr h1, h3⟩
        · exact Or.inr h1

theorem spriteAddress_step (a : Handle) (m m1 : AppRenderResourceManager) (c : ManagerCall)
    (h : callManager m c = Except.ok m1) :
    (a ∈ m1.spriteBufferAddresses ↔
      (a ∈ m.spriteBufferAddresses ∧ releasesSpriteBuffer a c = false) ∨
        createsSpriteBuffer a c = true) := by
  rw [callManager_spriteAddresses m m1 c h]
  cases c with
  | createSpriteBuffer address uninit =>
    simp [releasesSpriteBuffer, createsSpriteBuffer]
  | releaseSpriteBuffer buffer =>
    simp [releasesSpriteBuffer, createsSpriteBuffer, List.mem_filter]
  | createResource address desc => simp [releasesSpriteBuffer, createsSpriteBuffer]
  | releaseResource resource => simp [releasesSpriteBuffer, createsSpriteBuffer]

theorem resourceAddress_step (a : Handle) (m m1 : AppRenderResourceManager) (c : ManagerCall)
    (h : callManager m c = Except.ok m1) :
    (a ∈ m1.renderResourceAddresses ↔
      (a ∈ m.renderResourceAddresses ∧ releasesResource a c = false) ∨
        createsResource a c = true) := by
  rw [callManager_resourceAddresses m m1 c h]
  cases c with
  | createSpriteBuffer address uninit => simp [releasesResource, createsResource]
  | releaseSpriteBuffer buffer => simp [releasesResource, createsResource]
  | createResource address desc => simp [releasesResource, createsResource]
  | releaseResource resource =>
    simp [releasesResource, createsResource, List.mem_filter]

theorem run_invariant (P : AppRenderResourceManager → Prop)
    (step : ∀ m m1 c, allocatorFresh m c = true → callManager m c = Except.ok m1 →
      P m → P m1) :
    ∀ (calls : List ManagerCall) (m m2 : AppRenderResourceManager),
      allocatorFreshRun m calls = true → runManager m calls = Except.ok m2 → P m → P m2 := by
  intro calls
  induction calls with
  | nil =>
    intro m m2 _ h hP
    simp only [runManager] at h
    cases h
    exact hP
  | cons c rest ih =>
    intro m m2 hfresh h hP
    cases hc : callManager m c with
    | error e => simp [runManager, hc] at h
    | ok m1 =>
      simp only [runManager, hc] at h
      simp only [allocatorFreshRun, hc, Bool.and_eq_true] at hfresh
      exact ih m1 m2 hfresh.2 h (step m m1 c hfresh.1 hc hP)

theorem nodup_step (m m1 : AppRenderResourceManager) (c : ManagerCall)
    (hfresh : allocatorFresh m c = true) (h : callManager m c = Except.ok m1)
    (hP : m.spriteBufferAddresses.Nodup ∧ m.renderResourceAddresses.Nodup) :
    m1.spriteBufferAddresses.Nodup ∧ m1.renderResourceAddresses.Nodup := by
  rw [callManager_spriteAddresses m m1 c h, callManager_resourceAddresses m m1 c h]
  cases c with
  | createSpriteBuffer address uninit =>
    simp only [allocatorFresh, Bool.not_eq_true', List.contains_eq_any_beq, List.any_eq_false,
      beq_iff_eq] at hfresh
    refine ⟨?_, hP.2⟩
    rw [List.nodup_append]
    refine ⟨hP.1, List.nodup_singleton _, ?_⟩
    intro x hx
    simp only [List.mem_singleton]
    intro hxa
    exact hfresh x hx hxa.symm
  | releaseSpriteBuffer buffer => exact ⟨hP.1.filter _, hP.2⟩
  | createResource address desc =>
    simp only [allocatorFresh, Bool.not_eq_true', List.contains_eq_any_beq, List.any_eq_false,
      beq_iff_eq] at hfresh
    refine ⟨hP.1, ?_⟩
    rw [List.nodup_append]
    refine ⟨hP.2, List.nodup_singleton _, ?_⟩
    intro x hx
    simp only [List.mem_singleton]
    intro hxa
    exact hfresh x hx hxa.symm
  | releaseResource resource => exact ⟨hP.1, hP.2.filter _⟩

theorem run_returns (calls : List ManagerCall) :
    ∀ m : AppRenderResourceManager, descriptorsLive m calls = true →
      ∃ m2, runManager m calls = Except.ok m2 := by
  induction calls with
  | nil => intro m _; exact ⟨m, rfl⟩
  | cons c rest ih =>
    intro m hlive
    have hcall : ∃ m1, callManager m c = Except.ok m1 := by
      cases c with
      | createSpriteBuffer address uninit => exact ⟨_, rfl⟩
      | releaseSpriteBuffer buffer => exact ⟨_, rfl⟩
      | releaseResource resource => exact ⟨_, rfl⟩
      | createResource address desc =>
        simp only [descriptorsLive, Bool.and_eq_true] at hlive
        cases hdesc : desc.spriteBuffer with
        | none => rw [hdesc] at hlive; simp at hlive
        | some b =>
          rw [hdesc] at hlive
          have hb : b ∈ m.spriteBufferAddresses := by
            have := hlive.1
            simpa using this
          cases hcm : callManager m (ManagerCall.createResource address desc) with
          | ok m1 => exact ⟨m1, rfl⟩
          | error e => simp [callManager, createResource_eq m address b desc hdesc hb] at hcm
    obtain ⟨m1, hm1⟩ := hcall
    simp only [descriptorsLive, hm1, Bool.and_eq_true] at hlive
    obtain ⟨m2, hm2⟩ := ih m1 hlive.2
    exact ⟨m2, by simp only [runManager, hm1, hm2]⟩

theorem find_setContext (l : List (Handle × AppSpriteBuffer)) (b x : Handle)
    (ctx : Option CStr) :
    ((l.map (fun e =>
      if e.1 = b then (e.1, { e.2 with mContextData := ctx }) else e)).find?
        (fun e => e.1 == x)).map (fun e => e.2) =
      ((l.find? (fun e => e.1 == x)).map (fun e => e.2)).map (fun buf =>
        if x = b then { buf with mContextData := ctx } else buf) := by
  induction l with
  | nil => rfl
  | cons e rest ih =>
    by_cases hx : e.1 = x
    · by_cases hb : e.1 = b
      · have hxb : x = b := hx ▸ hb
        simp [List.find?_cons, hx, hb, hxb]
      · have hxb : ¬ x = b := fun h => hb (hx.trans h)
        simp [List.find?_cons, hx, hb, hxb]
    · by_cases hb : e.1 = b
      · simp only [List.map_cons, hb, if_true, List.find?_cons]
        have h1 : ((b, ({ e.2 with mContextData := ctx } : AppSpriteBuffer)).1 == x) = false := by
          simp only [beq_eq_false_iff_ne, ne_eq]; exact fun h => hx (hb.trans h)
        rw [h1]
        exact ih
      · simp only [List.map_cons, hb, if_false, List.find?_cons]
        have h2 : (e.1 == x) = false := by simp only [beq_eq_false_iff_ne, ne_eq]; exact hx
        rw [h2]
        exact ih

theorem spriteBufferAt_mem (m : AppRenderResourceManager) (x : Handle) (buf : AppSpriteBuffer)
    (h : m.spriteBufferAt x = some buf) : (x, buf) ∈ m.mSpriteBufferList := by
  simp only [AppRenderResourceManager.spriteBufferAt, Option.map_eq_some'] at h
  obtain ⟨e, he, hbuf⟩ := h
  have hmem := List.mem_of_find?_eq_some he
  have hp := List.find?_some he
  simp only [beq_iff_eq] at hp
  rw [← hp, ← hbuf]
  exact hmem

theorem contextNone_step (x : Handle) (m m1 : AppRenderResourceManager) (c : ManagerCall)
    (h : callManager m c = Except.ok m1) (hpass : passesToCreateResource x c = false)
    (hP : ∀ e ∈ m.mSpriteBufferList, e.1 = x → e.2.mContextData = none) :
    ∀ e ∈ m1.mSpriteBufferList, e.1 = x → e.2.mContextData = none := by
  cases c with
  | createSpriteBuffer address uninit =>
    simp only [callManager, createSpriteBuffer] at h
    cases h
    intro e he hx
    simp only [List.mem_append, List.mem_singleton] at he
    rcases he with he | he
    · exact hP e he hx
    · rw [he]; rfl
  | releaseSpriteBuffer buffer =>
    simp only [callManager, releaseSpriteBuffer] at h
    cases h
    intro e he hx
    exact hP e (List.mem_of_mem_filter he) hx
  | createResource address desc =>
    obtain ⟨b, hb1, _, hm1⟩ := callManager_createResource m m1 address desc h
    subst hm1
    have hbx : b ≠ x := by
      intro hbx
      simp [passesToCreateResource, hb1, hbx] at hpass
    intro e he hx
    simp only [List.mem_map] at he
    obtain ⟨e0, he0, heq⟩ := he
    by_cases h0 : e0.1 = b
    · rw [if_pos h0] at heq
      rw [← heq] at hx
      exact absurd (h0.symm.trans hx) hbx
    · rw [if_neg h0] at heq
      rw [← heq]
      rw [← heq] at hx
      exact hP e0 he0 hx
  | releaseResource resource =>
    simp only [callManager, AppRenderResourceManager.releaseResource] at h
    cases h
    exact hP

theorem contextNone_run (x : Handle) :
    ∀ (calls : List ManagerCall) (m m2 : AppRenderResourceManager),
      runManager m calls = Except.ok m2 → calls.any (passesToCreateResource x) = false →
      (∀ e ∈ m.mSpriteBufferList, e.1 = x → e.2.mContextData = none) →
      ∀ e ∈ m2.mSpriteBufferList, e.1 = x → e.2.mContextData = none := by
  intro calls
  induction calls with
  | nil =>
    intro m m2 h _ hP
    simp only [runManager] at h
    cases h
    exact hP
  | cons c rest ih =>
    intro m m2 h hpass hP
    simp only [List.any_cons, Bool.or_eq_false_iff] at hpass
    cases hc : callManager m c with
    | error e => simp [runManager, hc] at h
    | ok m1 =>
      simp only [runManager, hc] at h
      exact ih m1 m2 h hpass.2 (contextNone_step x m m1 c hc hpass.1 hP)

theorem writeBuffer_header_first (t : Target) (self : AppSpriteBuffer) (data : Nat → SpriteData)
    (firstSprite numSprites : Nat) (self2 : AppSpriteBuffer) (out : List Event)
    (h : writeBuffer t self data firstSprite numSprites = Except.ok (self2, out)) :
    ∃ rest, out = writeBufferHeader self firstSprite numSprites ++ rest := by
  by_cases hfirst : firstSprite < MAX_SPRITE_COUNT
  · rw [writeBuffer_memcpy t self data firstSprite numSprites hfirst] at h
    cases hcopy : memcpySprites self.mSpriteData firstSprite data
        (memcpyByteCount t firstSprite numSprites) with
    | error e => simp [hcopy] at h
    | ok arr =>
      cases hprint : printPositions arr firstSprite (numSpritesAtCopy firstSprite numSprites) 0 with
      | error e => simp [hcopy, hprint] at h
      | ok lines =>
        simp only [hcopy, hprint, Except.ok.injEq, Prod.mk.injEq] at h
        obtain ⟨_, hout⟩ := h
        rw [← hout]
        by_cases hwrap : (firstSprite + numSprites) % U32 > MAX_SPRITE_COUNT
        · rw [if_pos hwrap]
          exact ⟨[Event.printf "Warning, writeBuffer called with %d sprites\n"
            [PrintfArg.int (asInt32 numSprites)]] ++
              ([Event.printf "Position Data: \n" []] ++ lines),
            by simp only [List.append_assoc]⟩
        · rw [if_neg hwrap]
          exact ⟨[Event.printf "Position Data: \n" []] ++ lines,
            by simp only [List.append_assoc]⟩
  · have hge : firstSprite ≥ MAX_SPRITE_COUNT := Nat.not_lt.mp hfirst
    simp only [writeBuffer, if_pos hge, Except.ok.injEq, Prod.mk.injEq] at h
    exact ⟨_, h.2.symm⟩

theorem filter_address_length {α : Type} (b : Handle) :
    ∀ l : List (Handle × α), (l.map (fun e => e.1)).Nodup → b ∈ l.map (fun e => e.1) →
      (l.filter (fun e => !(AppMatchesRenderResource b e.1))).length + 1 = l.length := by
  intro l
  induction l with
  | nil => intro _ h; simp at h
  | cons e rest ih =>
    intro hnodup hmem
    simp only [List.map_cons, List.nodup_cons] at hnodup
    by_cases he : e.1 = b
    · have hrest : rest.filter (fun x => !(AppMatchesRenderResource b x.1)) = rest := by
        rw [List.filter_eq_self]
        intro x hx
        have hne : x.1 ≠ b := by
          intro hxb
          apply hnodup.1
          rw [he, ← hxb]
          exact List.mem_map_of_mem (fun e => e.1) hx
        simp [AppMatchesRenderResource, hne]
      simp [List.filter_cons, AppMatchesRenderResource, he, hrest]
      simpa [AppMatchesRenderResource] using congrArg List.length hrest
    · have hmem2 : b ∈ rest.map (fun e => e.1) := by
        simp only [List.map_cons, List.mem_cons] at hmem
        rcases hmem with h | h
        · exact absurd h.symm he
        · exact h
      have := ih hnodup.2 hmem2
      simp [List.filter_cons, AppMatchesRenderResource, he]
      simpa [AppMatchesRenderResource] using this

/-! ## The claims -/

/-- C1: after three initialisation steps that return true, the calls of `main`
are the four of the start, then frame calls only, then tear-down calls only,
and a run that returns has made exactly eight times `addParticle`,
`simulateFrame(1/60)`, `printParticleData`, in this order, between the two.
In the program itself such a run returns exactly when `createRenderVolume`
(line 732, not tested by `initAPEX`) answered an object; when it answered
`NULL`, the first `printParticleData` dereferences `NULL` (line 897) and the
run ends in the first frame, with no tear-down. -/
theorem main_eight_frames_or_fault (env : SdkAnswers) (material : Handle)
    (heap : Handle → NxApexEmitterActor) (argv : List CStr) (s1 s2 s3 : Program)
    (h1 : (AppContext.methods env material heap).initPhysX
      (AppContext.methods env material heap).construct = Except.ok (true, s1))
    (h2 : (AppContext.methods env material heap).initAPEX s1 = Except.ok (true, s2))
    (h3 : (AppContext.methods env material heap).initAssetsAndActors (useTurbulence argv) s2 =
      Except.ok (true, s3)) :
    (env.apex.createRenderVolume = none →
      (main (AppContext.methods env material heap) argv).ret = Except.error Fault.nullDeref ∧
      (main (AppContext.methods env material heap) argv).log =
        [Call.printf "APEX Particle Sample\n", Call.initPhysX, Call.initAPEX,
          Call.initAssetsAndActors (useTurbulence argv), Call.addParticle,
          Call.simulateFrame (1 / 60), Call.printParticleData]) ∧
    (env.apex.createRenderVolume ≠ none →
      (main (AppContext.methods env material heap) argv).ret = Except.ok 0 ∧
      (main (AppContext.methods env material heap) argv).log =
        [Call.printf "APEX Particle Sample\n", Call.initPhysX, Call.initAPEX,
          Call.initAssetsAndActors (useTurbulence argv)] ++
        (List.replicate 8
          [Call.addParticle, Call.simulateFrame (1 / 60), Call.printParticleData]).flatten ++
        [Call.destroyAssetsAndActors, Call.destroyAPEX, Call.destroyPhysX]) ∧
    (∀ (σ : Type) (m : AppMethods σ) (t1 t2 t3 : σ),
      m.initPhysX m.construct = Except.ok (true, t1) →
      m.initAPEX t1 = Except.ok (true, t2) →
      m.initAssetsAndActors (useTurbulence argv) t2 = Except.ok (true, t3) →
      ∃ frames down,
        (main m argv).log =
          [Call.printf "APEX Particle Sample\n", Call.initPhysX, Call.initAPEX,
            Call.initAssetsAndActors (useTurbulence argv)] ++ frames ++ down ∧
        (∀ c ∈ frames, c = Call.addParticle ∨ c = Call.simulateFrame (1 / 60) ∨
          c = Call.printParticleData) ∧
        (∀ c ∈ down, c = Call.destroyAssetsAndActors ∨ c = Call.destroyAPEX ∨
          c = Call.destroyPhysX) ∧
        (∀ k, (main m argv).ret = Except.ok k →
          k = 0 ∧
          frames = (List.replicate 8
            [Call.addParticle, Call.simulateFrame (1 / 60), Call.printParticleData]).flatten ∧
          down = [Call.destroyAssetsAndActors, Call.destroyAPEX, Call.destroyPhysX])) := by
  refine ⟨(methods_main env material heap argv s1 s2 s3 h1 h2 h3).1,
    (methods_main env material heap argv s1 s2 s3 h1 h2 h3).2, ?_⟩
  intro σ m t1 t2 t3 g1 g2 g3
  exact main_log_after_init m argv t1 t2 t3 g1 g2 g3

theorem main_eight_frames_or_fault_witness :
    noVolumeAnswers.apex.createRenderVolume = none ∧
    (main (AppContext.methods noVolumeAnswers 1 sampleHeap) ["MinimalTurbulence".toList]).ret =
      Except.error Fault.nullDeref ∧
    (main (AppContext.methods noVolumeAnswers 1 sampleHeap) ["MinimalTurbulence".toList]).log =
      [Call.printf "APEX Particle Sample\n", Call.initPhysX, Call.initAPEX,
        Call.initAssetsAndActors (useTurbulence ["MinimalTurbulence".toList]), Call.addParticle,
        Call.simulateFrame (1 / 60), Call.printParticleData] :=
  ⟨rfl, (main_eight_frames_or_fault noVolumeAnswers 1 sampleHeap ["MinimalTurbulence".toList]
    _ _ _ rfl rfl rfl).1 rfl⟩

/-- C2: `main` returns 1 exactly when `initPhysX`, or else `initAPEX`, or else
`initAssetsAndActors` returns false; it then has printed one message and
called nothing more: no later initialisation step and no frame step.  It
returns nothing but 0 or 1.  In the program itself it returns 0 exactly when
the three steps return true and `createRenderVolume` answered an object: when
the three steps return true and `createRenderVolume` answered `NULL`, the run
ends in a `NULL` dereference (line 897), and when `initPhysX` ends in a fault
(line 638), so does `main`, at its second call; in both runs no step returned
false and `main` returns neither 0 nor 1. -/
theorem main_return_code (env : SdkAnswers) (material : Handle)
    (heap : Handle → NxApexEmitterActor) (argv : List CStr) (m : AppMethods Program)
    (hm : m = AppContext.methods env material heap) :
    ((main m argv).ret = Except.ok 1 ↔
      ((∃ s1, m.initPhysX m.construct = Except.ok (false, s1)) ∨
       (∃ s1 s2, m.initPhysX m.construct = Except.ok (true, s1) ∧
         m.initAPEX s1 = Except.ok (false, s2)) ∨
       (∃ s1 s2 s3, m.initPhysX m.construct = Except.ok (true, s1) ∧
         m.initAPEX s1 = Except.ok (true, s2) ∧
         m.initAssetsAndActors (useTurbulence argv) s2 = Except.ok (false, s3)))) ∧
    (∀ s1, m.initPhysX m.construct = Except.ok (false, s1) →
      (main m argv).log = [Call.printf "APEX Particle Sample\n", Call.initPhysX,
        Call.printf "PhysX initialization failed, exiting\n"]) ∧
    (∀ s1 s2, m.initPhysX m.construct = Except.ok (true, s1) →
      m.initAPEX s1 = Except.ok (false, s2) →
      (main m argv).log = [Call.printf "APEX Particle Sample\n", Call.initPhysX, Call.initAPEX,
        Call.printf "APEX initialization failed, exiting\n"]) ∧
    (∀ s1 s2 s3, m.initPhysX m.construct = Except.ok (true, s1) →
      m.initAPEX s1 = Except.ok (true, s2) →
      m.initAssetsAndActors (useTurbulence argv) s2 = Except.ok (false, s3) →
      (main m argv).log = [Call.printf "APEX Particle Sample\n", Call.initPhysX, Call.initAPEX,
        Call.initAssetsAndActors (useTurbulence argv),
        Call.printf "Asset and Actor initialization failed, exiting\n"]) ∧
    (∀ k, (main m argv).ret = Except.ok k → k = 0 ∨ k = 1) ∧
    ((main m argv).ret = Except.ok 0 ↔
      ((∃ s1 s2 s3, m.initPhysX m.construct = Except.ok (true, s1) ∧
         m.initAPEX s1 = Except.ok (true, s2) ∧
         m.initAssetsAndActors (useTurbulence argv) s2 = Except.ok (true, s3)) ∧
       env.apex.createRenderVolume ≠ none)) ∧
    ((∃ s1 s2 s3, m.initPhysX m.construct = Except.ok (true, s1) ∧
        m.initAPEX s1 = Except.ok (true, s2) ∧
        m.initAssetsAndActors (useTurbulence argv) s2 = Except.ok (true, s3)) →
      env.apex.createRenderVolume = none →
      (main m argv).ret = Except.error Fault.nullDeref) ∧
    (∀ e, m.initPhysX m.construct = Except.error e →
      (main m argv).ret = Except.error e ∧
      (main m argv).log = [Call.printf "APEX Particle Sample\n", Call.initPhysX]) := by
  have hthree : ∀ s1 s2 s3, m.initPhysX m.construct = Except.ok (true, s1) →
      m.initAPEX s1 = Except.ok (true, s2) →
      m.initAssetsAndActors (useTurbulence argv) s2 = Except.ok (true, s3) →
      (env.apex.createRenderVolume = none → (main m argv).ret = Except.error Fault.nullDeref) ∧
      (env.apex.createRenderVolume ≠ none → (main m argv).ret = Except.ok 0) := by
    intro s1 s2 s3 h1 h2 h3
    subst hm
    exact ⟨fun h => ((methods_main env material heap argv s1 s2 s3 h1 h2 h3).1 h).1,
      fun h => ((methods_main env material heap argv s1 s2 s3 h1 h2 h3).2 h).1⟩
  have hret : ∀ s1 s2 s3, m.initPhysX m.construct = Except.ok (true, s1) →
      m.initAPEX s1 = Except.ok (true, s2) →
      m.initAssetsAndActors (useTurbulence argv) s2 = Except.ok (true, s3) →
      ∀ k, (main m argv).ret = Except.ok k → k = 0 := by
    intro s1 s2 s3 h1 h2 h3 k hk
    obtain ⟨_, _, _, _, _, hz⟩ := main_log_after_init m argv s1 s2 s3 h1 h2 h3
    exact (hz k hk).1
  refine ⟨⟨?_, ?_⟩, ?_, ?_, ?_, ?_, ⟨?_, ?_⟩, ?_, ?_⟩
  · intro h
    rcases main_cases m argv with ⟨e, _, cr, _⟩ | ⟨s1, c1, _, _⟩ | ⟨s1, e, _, _, cr, _⟩ |
      ⟨s1, s2, c1, c2, _, _⟩ | ⟨s1, s2, e, _, _, _, cr, _⟩ |
      ⟨s1, s2, s3, c1, c2, c3, _, _⟩ | ⟨s1, s2, s3, c1, c2, c3⟩
    · rw [cr] at h; cases h
    · exact Or.inl ⟨s1, c1⟩
    · rw [cr] at h; cases h
    · exact Or.inr (Or.inl ⟨s1, s2, c1, c2⟩)
    · rw [cr] at h; cases h
    · exact Or.inr (Or.inr ⟨s1, s2, s3, c1, c2, c3⟩)
    · have hk := hret s1 s2 s3 c1 c2 c3 1 h
      omega
  · rintro (⟨s1, c1⟩ | ⟨s1, s2, c1, c2⟩ | ⟨s1, s2, s3, c1, c2, c3⟩)
    · simp only [main, c1]
    · simp only [main, c1, c2]
    · simp only [main, c1, c2, c3]
  · intro s1 c1
    simp only [main, c1]
    rfl
  · intro s1 s2 c1 c2
    simp only [main, c1, c2]
    rfl
  · intro s1 s2 s3 c1 c2 c3
    simp only [main, c1, c2, c3]
    rfl
  · intro k hk
    rcases main_cases m argv with ⟨e, _, cr, _⟩ | ⟨s1, _, cr, _⟩ | ⟨s1, e, _, _, cr, _⟩ |
      ⟨s1, s2, _, _, cr, _⟩ | ⟨s1, s2, e, _, _, _, cr, _⟩ |
      ⟨s1, s2, s3, _, _, _, cr, _⟩ | ⟨s1, s2, s3, c1, c2, c3⟩
    · rw [cr] at hk; cases hk
    · rw [cr] at hk; cases hk; exact Or.inr rfl
    · rw [cr] at hk; cases hk
    · rw [cr] at hk; cases hk; exact Or.inr rfl
    · rw [cr] at hk; cases hk
    · rw [cr] at hk; cases hk; exact Or.inr rfl
    · exact Or.inl (hret s1 s2 s3 c1 c2 c3 k hk)
  · intro h
    rcases main_cases m argv with ⟨e, _, cr, _⟩ | ⟨s1, _, cr, _⟩ | ⟨s1, e, _, _, cr, _⟩ |
      ⟨s1, s2, _, _, cr, _⟩ | ⟨s1, s2, e, _, _, _, cr, _⟩ |
      ⟨s1, s2, s3, _, _, _, cr, _⟩ | ⟨s1, s2, s3, c1, c2, c3⟩
    · rw [cr] at h; cases h
    · rw [cr] at h; cases h
    · rw [cr] at h; cases h
    · rw [cr] at h; cases h
    · rw [cr] at h; cases h
    · rw [cr] at h; cases h
    · refine ⟨⟨s1, s2, s3, c1, c2, c3⟩, ?_⟩
      intro hnone
      rw [(hthree s1 s2 s3 c1 c2 c3).1 hnone] at h
      cases h
  · rintro ⟨⟨s1, s2, s3, c1, c2, c3⟩, hsome⟩
    exact (hthree s1 s2 s3 c1 c2 c3).2 hsome
  · rintro ⟨s1, s2, s3, c1, c2, c3⟩ hnone
    exact (hthree s1 s2 s3 c1 c2 c3).1 hnone
  · intro e c1
    refine ⟨?_, ?_⟩
    · simp only [main, c1]
    · simp only [main, c1]
      rfl

theorem main_return_code_witness :
    (main (AppContext.methods noCudaAnswers 1 sampleHeap) ["MinimalTurbulence".toList]).ret =
      Except.error Fault.nullDeref ∧
    (main (AppContext.methods noCudaAnswers 1 sampleHeap) ["MinimalTurbulence".toList]).log =
      [Call.printf "APEX Particle Sample\n", Call.initPhysX] ∧
    (main (AppContext.methods noVolumeAnswers 1 sampleHeap) ["MinimalTurbulence".toList]).ret =
      Except.error Fault.nullDeref :=
  ⟨((main_return_code noCudaAnswers 1 sampleHeap ["MinimalTurbulence".toList] _ rfl).2.2.2.2.2.2.2
      Fault.nullDeref rfl).1,
    ((main_return_code noCudaAnswers 1 sampleHeap ["MinimalTurbulence".toList] _ rfl).2.2.2.2.2.2.2
      Fault.nullDeref rfl).2,
    (main_return_code noVolumeAnswers 1 sampleHeap ["MinimalTurbulence".toList] _ rfl).2.2.2.2.2.2.1
      ⟨_, _, _, rfl, rfl, rfl⟩ rfl⟩

/-- C4: with no media path cached, `requestResource` returns a non-NULL
pointer exactly when an SDK is set and either the name space is the materials
name space, or it is one of the four asset type names and the media folder is
found (the first existing one of `media`, `../media`, ... with fewer than 20
copies of `../`), the asset file opens, deserialisation yields exactly one
object and `createAsset` returns non-NULL.  For the materials name space the
result is the address of the dummy material, for every name; with no SDK set,
and for every other name space, the result is NULL. -/
theorem requestResource_nonNull_iff (env : ResourceEnv) (self : AppApexResourceCallback)
    (nameSpace name : CStr) (hcache : self.mPathToMedia = []) :
    ((∃ r self2 out, requestResource env self nameSpace name = Except.ok (some r, self2, out)) ↔
      (self.mApexSDK ≠ none ∧
        (nameSpace = env.names.APEX_MATERIALS_NAME_SPACE ∨
          ((nameSpace = env.names.NX_APEX_EMITTER_AUTHORING_TYPE_NAME ∨
            nameSpace = env.names.NX_IOFX_AUTHORING_TYPE_NAME ∨
            nameSpace = env.names.NX_BASIC_IOS_AUTHORING_TYPE_NAME ∨
            nameSpace = env.names.NX_TURBULENCE_FS_AUTHORING_TYPE_NAME) ∧
           ∃ k : Nat, k < 20 ∧ env.fileExists (upDirs k "media".toList) = true ∧
             (∀ i, i < k → env.fileExists (upDirs i "media".toList) = false) ∧
             env.streamIsOpen (assetFileName env (upDirs k "media".toList) name) = true ∧
             ∃ params,
               env.deserialize (assetFileName env (upDirs k "media".toList) name) = [params] ∧
               env.createAsset params name ≠ none)))) ∧
    (self.mApexSDK ≠ none → nameSpace = env.names.APEX_MATERIALS_NAME_SPACE →
      ∃ out, requestResource env self nameSpace name = Except.ok (some self.material, self, out)) ∧
    (self.mApexSDK = none →
      requestResource env self nameSpace name = Except.ok (none, self, [])) ∧
    (nameSpace ≠ env.names.APEX_MATERIALS_NAME_SPACE →
      ¬ (nameSpace = env.names.NX_APEX_EMITTER_AUTHORING_TYPE_NAME ∨
        nameSpace = env.names.NX_IOFX_AUTHORING_TYPE_NAME ∨
        nameSpace = env.names.NX_BASIC_IOS_AUTHORING_TYPE_NAME ∨
        nameSpace = env.names.NX_TURBULENCE_FS_AUTHORING_TYPE_NAME) →
      ∃ out, requestResource env self nameSpace name = Except.ok (none, self, out)) := by
  refine ⟨?_, ?_, ?_, ?_⟩
  · cases hsdk : self.mApexSDK with
    | none => simp [requestResource, hsdk]
    | some sdk =>
      by_cases hmat : nameSpace = env.names.APEX_MATERIALS_NAME_SPACE
      · simp [requestResource, hsdk, strcmp_eq_zero_iff, hmat]
      · by_cases hasset : nameSpace = env.names.NX_APEX_EMITTER_AUTHORING_TYPE_NAME ∨
          nameSpace = env.names.NX_IOFX_AUTHORING_TYPE_NAME ∨
          nameSpace = env.names.NX_BASIC_IOS_AUTHORING_TYPE_NAME ∨
          nameSpace = env.names.NX_TURBULENCE_FS_AUTHORING_TYPE_NAME
        · constructor
          · rintro ⟨r, hr⟩
            obtain ⟨media, hfound, hopen, params, hdata, hcreate⟩ :=
              (requestResource_asset_branch env self nameSpace name sdk hsdk hmat hasset
                hcache r).mp hr
            obtain ⟨k, hk1, hk2, hk3, hk4⟩ :=
              (searchForPath_true_iff env.fileExists "media".toList MAX_PATH 20 media
                media_room (by decide)).mp hfound
            subst hk4
            refine ⟨by simp, Or.inr ⟨hasset, k, by exact_mod_cast hk1, hk2, hk3, hopen, params,
              hdata, ?_⟩⟩
            rw [hcreate]; simp
          · rintro ⟨_, hcase⟩
            rcases hcase with hm | ⟨_, k, hk1, hk2, hk3, hopen, params, hdata, hcreate⟩
            · exact absurd hm hmat
            · cases hc : env.createAsset params name with
              | none => exact absurd hc hcreate
              | some r =>
                refine ⟨r, (requestResource_asset_branch env self nameSpace name sdk hsdk hmat
                  hasset hcache r).mpr ⟨upDirs k "media".toList, ?_, hopen, params, hdata, hc⟩⟩
                exact (searchForPath_true_iff env.fileExists "media".toList MAX_PATH 20 _
                  media_room (by decide)).mpr ⟨k, by exact_mod_cast hk1, hk2, hk3, rfl⟩
        · simp [requestResource, hsdk, strcmp_eq_zero_iff, hmat, hasset]
  · intro hsdk hmat
    cases hs : self.mApexSDK with
    | none => exact absurd hs hsdk
    | some sdk => simp [requestResource, hs, strcmp_eq_zero_iff, hmat]
  · intro hsdk
    simp [requestResource, hsdk]
  · intro hmat hasset
    cases hs : self.mApexSDK with
    | none => exact ⟨[], by simp [requestResource, hs]⟩
    | some sdk => simp [requestResource, hs, strcmp_eq_zero_iff, hmat, hasset]

theorem requestResource_nonNull_iff_witness :
    sampleCallback.mPathToMedia = [] ∧
    ∃ out, requestResource sampleResourceEnv sampleCallback "ApexMaterials".toList
      "materials/simple_lit_color.xml".toList = Except.ok (some 1, sampleCallback, out) :=
  ⟨rfl, (requestResource_nonNull_iff sampleResourceEnv sampleCallback "ApexMaterials".toList
    "materials/simple_lit_color.xml".toList rfl).2.1 (by simp [sampleCallback,
      AppApexResourceCallback.setApexSDK]) rfl⟩

/-- C5: `releaseResource` calls `release` on the resource exactly once when an
SDK is set and the name space is one of the four asset type names, and makes
no `release` call otherwise: none when no SDK is set, none for any other name
space, in particular none for the materials name space (which is none of the
four).  Whenever `requestResource` created an asset for a name space,
`releaseResource` releases for that name space. -/
theorem releaseResource_releases (names : ApexNames) (self : AppApexResourceCallback)
    (nameSpace name : CStr) (resource : Handle) :
    (self.mApexSDK ≠ none →
      (nameSpace = names.NX_APEX_EMITTER_AUTHORING_TYPE_NAME ∨
        nameSpace = names.NX_IOFX_AUTHORING_TYPE_NAME ∨
        nameSpace = names.NX_BASIC_IOS_AUTHORING_TYPE_NAME ∨
        nameSpace = names.NX_TURBULENCE_FS_AUTHORING_TYPE_NAME) →
      releasedObjects (releaseResource names self nameSpace name resource) = [resource] ∧
      releaseCount resource (releaseResource names self nameSpace name resource) = 1) ∧
    (self.mApexSDK = none → releaseResource names self nameSpace name resource = []) ∧
    (¬ (nameSpace = names.NX_APEX_EMITTER_AUTHORING_TYPE_NAME ∨
        nameSpace = names.NX_IOFX_AUTHORING_TYPE_NAME ∨
        nameSpace = names.NX_BASIC_IOS_AUTHORING_TYPE_NAME ∨
        nameSpace = names.NX_TURBULENCE_FS_AUTHORING_TYPE_NAME) →
      releasedObjects (releaseResource names self nameSpace name resource) = []) ∧
    (nameSpace = names.APEX_MATERIALS_NAME_SPACE →
      names.APEX_MATERIALS_NAME_SPACE ≠ names.NX_APEX_EMITTER_AUTHORING_TYPE_NAME →
      names.APEX_MATERIALS_NAME_SPACE ≠ names.NX_IOFX_AUTHORING_TYPE_NAME →
      names.APEX_MATERIALS_NAME_SPACE ≠ names.NX_BASIC_IOS_AUTHORING_TYPE_NAME →
      names.APEX_MATERIALS_NAME_SPACE ≠ names.NX_TURBULENCE_FS_AUTHORING_TYPE_NAME →
      releasedObjects (releaseResource names self nameSpace name resource) = []) ∧
    (∀ (env : ResourceEnv) (cb : AppApexResourceCallback) r cb2 out params a,
      env.names = names → cb.mApexSDK = self.mApexSDK →
      requestResource env cb nameSpace name = Except.ok (r, cb2, out) →
      Event.createAsset params name a ∈ out →
      releasedObjects (releaseResource names self nameSpace name resource) = [resource]) ∧
    (∀ (env : ResourceEnv) (cb : AppApexResourceCallback) media params,
      env.names = names → cb.mApexSDK ≠ none → cb.mPathToMedia = [] →
      nameSpace ≠ names.APEX_MATERIALS_NAME_SPACE →
      (nameSpace = names.NX_APEX_EMITTER_AUTHORING_TYPE_NAME ∨
        nameSpace = names.NX_IOFX_AUTHORING_TYPE_NAME ∨
        nameSpace = names.NX_BASIC_IOS_AUTHORING_TYPE_NAME ∨
        nameSpace = names.NX_TURBULENCE_FS_AUTHORING_TYPE_NAME) →
      searchForPath env.fileExists "media".toList MAX_PATH 20 = Except.ok (true, media) →
      env.streamIsOpen (assetFileName env media name) = true →
      env.deserialize (assetFileName env media name) = [params] →
      ∃ cb2 out, requestResource env cb nameSpace name =
          Except.ok (env.createAsset params name, cb2, out) ∧
        Event.createAsset params name (env.createAsset params name) ∈ out) := by
  refine ⟨?_, ?_, ?_, ?_, ?_, ?_⟩
  · intro hsdk hasset
    cases hs : self.mApexSDK with
    | none => exact absurd hs hsdk
    | some sdk =>
      simp [releaseResource, hs, strcmp_eq_zero_iff, hasset, releasedObjects, releaseCount]
  · intro hsdk
    simp [releaseResource, hsdk]
  · intro hasset
    cases hs : self.mApexSDK with
    | none => simp [releaseResource, hs, releasedObjects]
    | some sdk => simp [releaseResource, hs, strcmp_eq_zero_iff, hasset, releasedObjects]
  · intro hmat h1 h2 h3 h4
    subst hmat
    cases hs : self.mApexSDK with
    | none => simp [releaseResource, hs, releasedObjects]
    | some sdk => simp [releaseResource, hs, strcmp_eq_zero_iff, h1, h2, h3, h4, releasedObjects]
  · intro env cb r cb2 out params a hnames hsame hreq hmem
    subst hnames
    cases hs : self.mApexSDK with
    | none =>
      rw [hs] at hsame
      simp [requestResource, hsame] at hreq
      obtain ⟨_, _, hout⟩ := hreq
      subst hout
      simp at hmem
    | some sdk =>
      by_cases hasset : nameSpace = env.names.NX_APEX_EMITTER_AUTHORING_TYPE_NAME ∨
          nameSpace = env.names.NX_IOFX_AUTHORING_TYPE_NAME ∨
          nameSpace = env.names.NX_BASIC_IOS_AUTHORING_TYPE_NAME ∨
          nameSpace = env.names.NX_TURBULENCE_FS_AUTHORING_TYPE_NAME
      · simp [releaseResource, hs, strcmp_eq_zero_iff, hasset, releasedObjects]
      · exfalso
        rw [hs] at hsame
        by_cases hmat : nameSpace = env.names.APEX_MATERIALS_NAME_SPACE
        · simp [requestResource, hsame, strcmp_eq_zero_iff, hmat] at hreq
          obtain ⟨_, _, hout⟩ := hreq
          subst hout
          simp at hmem
        · simp [requestResource, hsame, strcmp_eq_zero_iff, hmat, hasset] at hreq
          obtain ⟨_, _, hout⟩ := hreq
          subst hout
          simp at hmem
  · intro env cb media params hnames hsdk hcache hmat hasset hfound hopen hdata
    subst hnames
    cases hs : cb.mApexSDK with
    | none => exact absurd hs hsdk
    | some sdk =>
      simp only [requestResource, hs, strcmp_eq_zero_iff, hmat, hasset, hcache, if_true,
        if_false, hfound, hopen, Bool.true_eq_false, hdata]
      cases hcreate : env.createAsset params name with
      | none => exact ⟨_, _, rfl, by simp⟩
      | some a => exact ⟨_, _, rfl, by simp⟩

theorem releaseResource_releases_witness :
    sampleCallback.mApexSDK ≠ none ∧
    releasedObjects (releaseResource sampleNames sampleCallback "IOFX".toList
      "SpriteIofx".toList 8) = [8] ∧
    releaseCount 8 (releaseResource sampleNames sampleCallback "IOFX".toList
      "SpriteIofx".toList 8) = 1 :=
  ⟨by decide,
    (releaseResource_releases sampleNames sampleCallback "IOFX".toList "SpriteIofx".toList 8).1
      (by decide) (Or.inr (Or.inl rfl))⟩

/-- C6: `searchForPath` returns true exactly when `path` behind `k` copies of
`../` exists for some `k < maxRecursion`, and then `outBuffer` holds that
candidate for the least such `k` (the path itself when it exists).  The buffer
must have room for every candidate; with room for one more `../` the call
always returns. -/
theorem searchForPath_finds_first (fileExists : CStr → Bool) (path : CStr)
    (outBufferSize : Nat) (maxRecursion : Int)
    (hroom : ∀ k : Nat, (k : Int) < maxRecursion → path.length + 3 * k + 1 ≤ outBufferSize)
    (hpath : path.length + 1 ≤ outBufferSize) :
    ((∃ out, searchForPath fileExists path outBufferSize maxRecursion = Except.ok (true, out)) ↔
      ∃ k : Nat, (k : Int) < maxRecursion ∧ fileExists (upDirs k path) = true) ∧
    (∀ out, searchForPath fileExists path outBufferSize maxRecursion = Except.ok (true, out) ↔
      ∃ k : Nat, (k : Int) < maxRecursion ∧ fileExists (upDirs k path) = true ∧
        (∀ i, i < k → fileExists (upDirs i path) = false) ∧ out = upDirs k path) ∧
    (fileExists path = true → 0 < maxRecursion →
      searchForPath fileExists path outBufferSize maxRecursion = Except.ok (true, path)) ∧
    (path.length + 3 * maxRecursion.toNat + 1 ≤ outBufferSize →
      ∃ found out,
        searchForPath fileExists path outBufferSize maxRecursion = Except.ok (found, out) ∧
        (found = true ↔
          ∃ k : Nat, (k : Int) < maxRecursion ∧ fileExists (upDirs k path) = true)) := by
  have hiff := fun out =>
    searchForPath_true_iff fileExists path outBufferSize maxRecursion out hroom hpath
  have hex : (∃ out, searchForPath fileExists path outBufferSize maxRecursion =
      Except.ok (true, out)) ↔
      ∃ k : Nat, (k : Int) < maxRecursion ∧ fileExists (upDirs k path) = true := by
    constructor
    · rintro ⟨out, h⟩
      obtain ⟨k, hk1, hk2, _, _⟩ := (hiff out).mp h
      exact ⟨k, hk1, hk2⟩
    · rintro ⟨k, hk1, hk2⟩
      obtain ⟨k0, h1, h2, h3⟩ := exists_least_candidate (fun i => fileExists (upDirs i path))
        maxRecursion.toNat ⟨k, Int.lt_toNat.mpr hk1, hk2⟩
      exact ⟨upDirs k0 path, (hiff _).mpr ⟨k0, Int.lt_toNat.mp h1, h2, h3, rfl⟩⟩
  refine ⟨hex, hiff, ?_, ?_⟩
  · intro h0 hpos
    exact (hiff path).mpr ⟨0, by exact_mod_cast hpos, h0, fun i hi => by omega, rfl⟩
  · intro hbig
    obtain ⟨found, out, h⟩ :=
      searchForPath_returns fileExists path outBufferSize maxRecursion hbig
    refine ⟨found, out, h, ?_⟩
    rw [← hex, h]
    cases found <;> simp

theorem searchForPath_finds_first_witness :
    (∀ k : Nat, (k : Int) < 20 → "media".toList.length + 3 * k + 1 ≤ MAX_PATH) ∧
    "media".toList.length + 1 ≤ MAX_PATH ∧
    searchForPath sampleResourceEnv.fileExists "media".toList MAX_PATH 20 =
      Except.ok (true, "../../media".toList) :=
  ⟨media_room, by decide,
    ((searchForPath_finds_first sampleResourceEnv.fileExists "media".toList MAX_PATH 20
      media_room (by decide)).2.1 "../../media".toList).mpr
      ⟨2, by decide, by decide, by decide, by decide⟩⟩

/-- C7: `initAssetsAndActors` returns false and makes no SDK call when there is
no APEX scene.  With a scene (and the SDK that made it): with `useTurbulence =
false` it never requests the asset "turbulenceFSAsset", leaves
`mTurbulenceAsset` and `mTurbulenceActor` as they were (NULL since the
constructor), requests the emitter asset, creates the emitter actor from the
asset it got, and returns true exactly when the SDK answered both the request
and the creation with an object, which are then `mEmitterAsset` and
`mEmitterActor`; with `useTurbulence = true` it returns true exactly when the
SDK answered the two requests and the two creations with an object, which are
then the four members. -/
theorem initAssetsAndActors_result (env : AssetEnv) (self : AppContext) :
    (self.mApexScene = none →
      ∀ useTurb, initAssetsAndActors env self useTurb = Except.ok (false, self, [])) ∧
    (self.mApexScene ≠ none → self.mApexSDK ≠ none →
      ∃ ok self2 out, initAssetsAndActors env self false = Except.ok (ok, self2, out) ∧
        (∀ nameSpace r, Event.getResource nameSpace turbulenceAssetName r ∉ out) ∧
        self2.mTurbulenceAsset = self.mTurbulenceAsset ∧
        self2.mTurbulenceActor = self.mTurbulenceActor ∧
        self2.mEmitterAsset =
          env.getResource env.names.NX_APEX_EMITTER_AUTHORING_TYPE_NAME emitterAssetName ∧
        (ok = true ↔ (self2.mEmitterAsset ≠ none ∧ self2.mEmitterActor ≠ none)) ∧
        (ok = true ↔ ∃ asset actor,
          env.getResource env.names.NX_APEX_EMITTER_AUTHORING_TYPE_NAME emitterAssetName
            = some asset ∧
          env.createApexActor asset = some actor) ∧
        Event.getResource env.names.NX_APEX_EMITTER_AUTHORING_TYPE_NAME emitterAssetName
          (env.getResource env.names.NX_APEX_EMITTER_AUTHORING_TYPE_NAME emitterAssetName)
            ∈ out ∧
        (∀ asset,
          env.getResource env.names.NX_APEX_EMITTER_AUTHORING_TYPE_NAME emitterAssetName
            = some asset →
          self2.mEmitterActor = env.createApexActor asset ∧
          Event.create (SdkObject.apexActor asset) (env.createApexActor asset) ∈ out) ∧
        (env.getResource env.names.NX_APEX_EMITTER_AUTHORING_TYPE_NAME emitterAssetName = none →
          self2.mEmitterActor = self.mEmitterActor ∧
          ∀ asset r, Event.create (SdkObject.apexActor asset) r ∉ out)) ∧
    (self.mApexScene ≠ none → self.mApexSDK ≠ none →
      ∃ ok self2 out, initAssetsAndActors env self true = Except.ok (ok, self2, out) ∧
        (ok = true ↔ (self2.mEmitterAsset ≠ none ∧ self2.mEmitterActor ≠ none ∧
          self2.mTurbulenceAsset ≠ none ∧ self2.mTurbulenceActor ≠ none)) ∧
        (ok = true ↔ ∃ asset actor turbulenceAsset turbulenceActor,
          env.getResource env.names.NX_APEX_EMITTER_AUTHORING_TYPE_NAME emitterAssetName
            = some asset ∧
          env.createApexActor asset = some actor ∧
          env.getResource env.names.NX_TURBULENCE_FS_AUTHORING_TYPE_NAME turbulenceAssetName
            = some turbulenceAsset ∧
          env.createApexActor turbulenceAsset = some turbulenceActor) ∧
        self2.mEmitterAsset =
          env.getResource env.names.NX_APEX_EMITTER_AUTHORING_TYPE_NAME emitterAssetName ∧
        Event.getResource env.names.NX_APEX_EMITTER_AUTHORING_TYPE_NAME emitterAssetName
          (env.getResource env.names.NX_APEX_EMITTER_AUTHORING_TYPE_NAME emitterAssetName)
            ∈ out ∧
        (∀ asset,
          env.getResource env.names.NX_APEX_EMITTER_AUTHORING_TYPE_NAME emitterAssetName
            = some asset →
          self2.mEmitterActor = env.createApexActor asset ∧
          Event.create (SdkObject.apexActor asset) (env.createApexActor asset) ∈ out) ∧
        (∀ asset actor,
          env.getResource env.names.NX_APEX_EMITTER_AUTHORING_TYPE_NAME emitterAssetName
            = some asset →
          env.createApexActor asset = some actor →
          self2.mTurbulenceAsset =
            env.getResource env.names.NX_TURBULENCE_FS_AUTHORING_TYPE_NAME
              turbulenceAssetName ∧
          Event.getResource env.names.NX_TURBULENCE_FS_AUTHORING_TYPE_NAME turbulenceAssetName
            (env.getResource env.names.NX_TURBULENCE_FS_AUTHORING_TYPE_NAME turbulenceAssetName)
              ∈ out ∧
          ∀ turbulenceAsset,
            env.getResource env.names.NX_TURBULENCE_FS_AUTHORING_TYPE_NAME turbulenceAssetName
              = some turbulenceAsset →
            self2.mTurbulenceActor = env.createApexActor turbulenceAsset ∧
            Event.create (SdkObject.apexActor turbulenceAsset)
              (env.createApexActor turbulenceAsset) ∈ out) ∧
        ((env.getResource env.names.NX_APEX_EMITTER_AUTHORING_TYPE_NAME emitterAssetName = none ∨
          ∃ asset,
            env.getResource env.names.NX_APEX_EMITTER_AUTHORING_TYPE_NAME emitterAssetName
              = some asset ∧ env.createApexActor asset = none) →
          self2.mTurbulenceAsset = self.mTurbulenceAsset ∧
          self2.mTurbulenceActor = self.mTurbulenceActor ∧
          ∀ nameSpace r, Event.getResource nameSpace turbulenceAssetName r ∉ out)) ∧
    (∀ material, (AppContext.new material).mTurbulenceAsset = none ∧
      (AppContext.new material).mTurbulenceActor = none) := by
  refine ⟨?_, ?_, ?_, fun _ => ⟨rfl, rfl⟩⟩
  · intro hscene useTurb
    simp [initAssetsAndActors, hscene]
  · intro hscene hsdk
    cases hsc : self.mApexScene with
    | none => exact absurd hsc hscene
    | some scene =>
      cases hsd : self.mApexSDK with
      | none => exact absurd hsd hsdk
      | some sdk =>
        have hnames : emitterAssetName ≠ turbulenceAssetName := by decide
        cases hasset : env.getResource env.names.NX_APEX_EMITTER_AUTHORING_TYPE_NAME
            emitterAssetName with
        | none => simp [initAssetsAndActors, hsc, hsd, hasset, hnames, hnames.symm, and_assoc]
        | some asset =>
          cases hactor : env.createApexActor asset with
          | none => simp [initAssetsAndActors, hsc, hsd, hasset, hactor, hnames, hnames.symm, and_assoc]
          | some actor => simp [initAssetsAndActors, hsc, hsd, hasset, hactor, hnames, hnames.symm, and_assoc]
  · intro hscene hsdk
    cases hsc : self.mApexScene with
    | none => exact absurd hsc hscene
    | some scene =>
      cases hsd : self.mApexSDK with
      | none => exact absurd hsd hsdk
      | some sdk =>
        have hnames : emitterAssetName ≠ turbulenceAssetName := by decide
        cases hasset : env.getResource env.names.NX_APEX_EMITTER_AUTHORING_TYPE_NAME
            emitterAssetName with
        | none => simp [initAssetsAndActors, hsc, hsd, hasset, hnames, hnames.symm, and_assoc]
        | some asset =>
          cases hactor : env.createApexActor asset with
          | none =>
            simp [initAssetsAndActors, hsc, hsd, hasset, hactor, hnames, hnames.symm, and_assoc]
            intro a b hab
            subst hab
            simp [hactor]
          | some actor =>
            cases htasset : env.getResource env.names.NX_TURBULENCE_FS_AUTHORING_TYPE_NAME
                turbulenceAssetName with
            | none => simp [initAssetsAndActors, hsc, hsd, hasset, hactor, htasset, and_assoc]
            | some tasset =>
              cases htactor : env.createApexActor tasset with
              | none => simp [initAssetsAndActors, hsc, hsd, hasset, hactor, htasset, htactor, and_assoc]
              | some tactor =>
                simp [initAssetsAndActors, hsc, hsd, hasset, hactor, htasset, htactor, and_assoc]

theorem initAssetsAndActors_result_witness :
    sampleContext.mApexScene ≠ none ∧ sampleContext.mApexSDK ≠ none ∧
    ∃ ok self2 out,
      initAssetsAndActors sampleAssetEnv sampleContext true = Except.ok (ok, self2, out) ∧
      (ok = true ↔ (self2.mEmitterAsset ≠ none ∧ self2.mEmitterActor ≠ none ∧
        self2.mTurbulenceAsset ≠ none ∧ self2.mTurbulenceActor ≠ none)) ∧
      (ok = true ↔ ∃ asset actor turbulenceAsset turbulenceActor,
        sampleAssetEnv.getResource sampleAssetEnv.names.NX_APEX_EMITTER_AUTHORING_TYPE_NAME
          emitterAssetName = some asset ∧
        sampleAssetEnv.createApexActor asset = some actor ∧
        sampleAssetEnv.getResource sampleAssetEnv.names.NX_TURBULENCE_FS_AUTHORING_TYPE_NAME
          turbulenceAssetName = some turbulenceAsset ∧
        sampleAssetEnv.createApexActor turbulenceAsset = some turbulenceActor) := by
  obtain ⟨ok, self2, out, h1, h2, h3, _⟩ :=
    (initAssetsAndActors_result sampleAssetEnv sampleContext).2.2.1 (by decide) (by decide)
  exact ⟨by decide, by decide, ok, self2, out, h1, h2, h3⟩

/-- C8: when `firstSprite + numSprites <= MAX_SPRITE_COUNT`, `writeBuffer`
returns with input record `c` stored in slot `firstSprite + c` for every
`c < numSprites`, every other slot of `mSpriteData` unchanged, and the
positions printed are those of the `numSprites` input records in input order;
when `firstSprite >= MAX_SPRITE_COUNT` it prints no position and leaves the
object unchanged. -/
theorem writeBuffer_stores_and_prints (t : Target) (self : AppSpriteBuffer)
    (data : Nat → SpriteData) (firstSprite numSprites : Nat) :
    (firstSprite + numSprites ≤ MAX_SPRITE_COUNT →
      ∃ self2 out, writeBuffer t self data firstSprite numSprites = Except.ok (self2, out) ∧
        (∀ i : Fin MAX_SPRITE_COUNT, self2.mSpriteData i =
          if firstSprite ≤ i.val ∧ i.val < firstSprite + numSprites
          then data (i.val - firstSprite) else self.mSpriteData i) ∧
        self2.mContextData = self.mContextData ∧
        printedPositions out = (List.range numSprites).map (fun c => (data c).position)) ∧
    (firstSprite ≥ MAX_SPRITE_COUNT →
      ∃ out, writeBuffer t self data firstSprite numSprites = Except.ok (self, out) ∧
        printedPositions out = []) := by
  have hhigh : firstSprite ≥ MAX_SPRITE_COUNT →
      ∃ out, writeBuffer t self data firstSprite numSprites = Except.ok (self, out) ∧
        printedPositions out = [] := by
    intro h
    refine ⟨_, by simp only [writeBuffer, if_pos h]; rfl, ?_⟩
    rw [printedPositions_append, printedPositions_header]
    simp [printedPositions, positionOf]
  refine ⟨?_, hhigh⟩
  intro hsum
  by_cases hfirst : firstSprite < MAX_SPRITE_COUNT
  · refine ⟨_, _, writeBuffer_below_max t self data firstSprite numSprites hfirst hsum,
      fun i => rfl, rfl, ?_⟩
    rw [printedPositions_append, printedPositions_append, printedPositions_header]
    have hmap : (List.range numSprites).map (fun c => positionLine (data c).position) =
        ((List.range numSprites).map (fun c => (data c).position)).map positionLine := by
      simp
    rw [hmap, printedPositions_lines]
    simp [printedPositions, positionOf]
  · have hge : firstSprite ≥ MAX_SPRITE_COUNT := by omega
    have hzero : numSprites = 0 := by omega
    obtain ⟨out, h1, h2⟩ := hhigh hge
    refine ⟨self, out, h1, ?_, rfl, ?_⟩
    · intro i
      have hi : ¬ (firstSprite ≤ i.val ∧ i.val < firstSprite + numSprites) := by omega
      simp only [hi, if_false]
    · rw [h2, hzero]; rfl

theorem writeBuffer_stores_and_prints_witness :
    18 + 2 ≤ MAX_SPRITE_COUNT ∧
    ∃ self2 out,
      writeBuffer Target.x64 sampleSpriteBuffer sampleData 18 2 = Except.ok (self2, out) ∧
      (∀ i : Fin MAX_SPRITE_COUNT, self2.mSpriteData i =
        if 18 ≤ i.val ∧ i.val < 18 + 2 then sampleData (i.val - 18)
        else sampleSpriteBuffer.mSpriteData i) ∧
      self2.mContextData = sampleSpriteBuffer.mContextData ∧
      printedPositions out = (List.range 2).map (fun c => (sampleData c).position) :=
  ⟨by decide,
    (writeBuffer_stores_and_prints Target.x64 sampleSpriteBuffer sampleData 18 2).1 (by decide)⟩

/-- C9: after `addParticle` on a context whose emitter actor exists and has an
explicit geometry, the particle list of that geometry is exactly one particle
at (0,0,0) with velocity (0,60,0), whatever it held before, and no other
object changed; the same holds after any positive number of calls.  With no
emitter actor, or an emitter without explicit geometry, nothing changes. -/
theorem addParticle_one_particle (self : AppContext) (heap : Handle → NxApexEmitterActor) :
    (∀ actor geom, self.mEmitterActor = some actor →
      (heap actor).isExplicitGeom = some geom →
      ((addParticle self heap).1 actor).isExplicitGeom =
        some { particles := [(⟨0, 0, 0⟩, ⟨0, 60, 0⟩)] } ∧
      (∀ h, h ≠ actor → (addParticle self heap).1 h = heap h) ∧
      (∀ n, ((fun hp => (addParticle self hp).1)^[n + 1] heap actor).isExplicitGeom =
        some { particles := [(⟨0, 0, 0⟩, ⟨0, 60, 0⟩)] })) ∧
    (self.mEmitterActor = none → (addParticle self heap).1 = heap) ∧
    (∀ actor, self.mEmitterActor = some actor → (heap actor).isExplicitGeom = none →
      (addParticle self heap).1 = heap ∧
      (addParticle self heap).2 = [Event.method actor "isExplicitGeom"]) := by
  have hone : ∀ (hp : Handle → NxApexEmitterActor) actor geom,
      self.mEmitterActor = some actor → (hp actor).isExplicitGeom = some geom →
      ((addParticle self hp).1 actor).isExplicitGeom =
        some { particles := [(⟨0, 0, 0⟩, ⟨0, 60, 0⟩)] } := by
    intro hp actor geom ha hg
    simp [addParticle, ha, hg, NxEmitterExplicitGeom.resetParticleList,
      NxEmitterExplicitGeom.addParticleList]
  refine ⟨?_, ?_, ?_⟩
  · intro actor geom ha hg
    refine ⟨hone heap actor geom ha hg, ?_, ?_⟩
    · intro h hne
      simp [addParticle, ha, hg, hne]
    · intro n
      induction n with
      | zero => exact hone heap actor geom ha hg
      | succ n ih =>
        rw [Function.iterate_succ_apply']
        exact hone _ actor _ ha ih
  · intro ha
    simp [addParticle, ha]
  · intro actor ha hg
    simp [addParticle, ha, hg]

theorem addParticle_one_particle_witness :
    sampleEmitterContext.mEmitterActor = some 41 ∧
    (sampleHeap 41).isExplicitGeom =
      some { particles := [(⟨1, 1, 1⟩, ⟨2, 2, 2⟩), (⟨3, 3, 3⟩, ⟨4, 4, 4⟩)] } ∧
    ((addParticle sampleEmitterContext sampleHeap).1 41).isExplicitGeom =
      some { particles := [(⟨0, 0, 0⟩, ⟨0, 60, 0⟩)] } :=
  ⟨rfl, rfl, ((addParticle_one_particle sampleEmitterContext sampleHeap).1 41 _ rfl rfl).1⟩

/-- C10: `releaseAndClear` calls `release` once on a non-NULL pointer and not
at all on NULL, and leaves the pointer NULL.  `destroyPhysX` releases the
non-NULL ones of scene, CUDA context, thread pool, cooking, physics SDK,
foundation, in this order and nothing else; after an `initPhysX` that returned
true this is the reverse of the order of creation.  It leaves all six pointers
NULL, and a second `destroyPhysX` makes no call. -/
theorem destroyPhysX_reverse_order (self : AppContext) :
    (∀ h, releaseAndClear (some h) = (none, [Event.release h])) ∧
    releaseAndClear none = (none, []) ∧
    (∀ r, (releaseAndClear r).1 = none) ∧
    (destroyPhysX self).2 =
      ([self.mPhysxScene, self.mCudaContext, self.mThreadPool, self.mPhysxCooking,
        self.mPhysxSDK, self.mFoundationSDK].filterMap id).map Event.release ∧
    (∀ env self0 t, initPhysX env self0 = Except.ok (true, self, t) →
      releasedObjects (destroyPhysX self).2 = (createdObjects t).reverse ∧
      (createdObjects t).length ≥ 5) ∧
    ((destroyPhysX self).1.mPhysxScene = none ∧ (destroyPhysX self).1.mCudaContext = none ∧
      (destroyPhysX self).1.mThreadPool = none ∧ (destroyPhysX self).1.mPhysxCooking = none ∧
      (destroyPhysX self).1.mPhysxSDK = none ∧ (destroyPhysX self).1.mFoundationSDK = none) ∧
    (destroyPhysX (destroyPhysX self).1).2 = [] := by
  have hclear : ∀ r, (releaseAndClear r).1 = none := by
    intro r; cases r <;> rfl
  refine ⟨fun _ => rfl, rfl, hclear, ?_, ?_, ?_, ?_⟩
  · cases h1 : self.mPhysxScene <;> cases h2 : self.mCudaContext <;>
      cases h3 : self.mThreadPool <;> cases h4 : self.mPhysxCooking <;>
      cases h5 : self.mPhysxSDK <;> cases h6 : self.mFoundationSDK <;>
      simp [destroyPhysX, releaseAndClear, h1, h2, h3, h4, h5, h6]
  · intro env self0 t hinit
    unfold initPhysX at hinit
    cases h1 : env.PxCreateFoundation with
    | none => simp [h1] at hinit
    | some o1 =>
      cases h2 : env.PxCreatePhysics with
      | none => simp [h1, h2] at hinit
      | some o2 =>
        cases h3 : env.PxCreateCooking with
        | none => simp [h1, h2, h3] at hinit
        | some o3 =>
          cases h5 : env.PxCreateCudaContextManager with
          | none => simp [h1, h2, h3, h5] at hinit
          | some o5 =>
            cases h6 : env.contextIsValid with
            | false => simp [h1, h2, h3, h5, h6] at hinit
            | true =>
              cases h7 : env.sceneDescIsValid env.PxDefaultCpuDispatcherCreate
                  env.getGpuDispatcher with
              | false => simp [h1, h2, h3, h5, h6, h7] at hinit
              | true =>
                cases h8 : env.createScene with
                | none => simp [h1, h2, h3, h5, h6, h7, h8] at hinit
                | some o8 =>
                  simp only [h1, h2, h3, h5, h6, h7, h8] at hinit
                  simp at hinit
                  obtain ⟨hself, ht⟩ := hinit
                  subst hself ht
                  cases h4 : env.PxDefaultCpuDispatcherCreate <;>
                    simp [destroyPhysX, releaseAndClear, releasedObjects, createdObjects, h4]
  · simp [destroyPhysX, hclear]
  · simp only [destroyPhysX, hclear]
    simp [releaseAndClear]

theorem destroyPhysX_reverse_order_witness :
    ∃ self t, initPhysX samplePhysXEnv (AppContext.new 1) = Except.ok (true, self, t) ∧
      releasedObjects (destroyPhysX self).2 = (createdObjects t).reverse ∧
      (createdObjects t).length ≥ 5 :=
  ⟨_, _, rfl,
    (destroyPhysX_reverse_order _).2.2.2.2.1 samplePhysXEnv (AppContext.new 1) _ rfl⟩

/-- C11 (what the code does): as long as `firstSprite + numSprites` does not
wrap around in 32 bits, the records copied stay inside the array.  At
`firstSprite = 1`, `numSprites = 4294967295` the 32-bit sum is 0, the clamp of
line 330 is skipped, and `memcpy` is asked for more records than fit behind
slot 1: the call writes past `mSpriteData`. -/
theorem writeBuffer_sum_wraps (t : Target) :
    (∀ firstSprite numSprites, firstSprite < MAX_SPRITE_COUNT →
      firstSprite + numSprites < U32 →
      firstSprite + recordsCopied t firstSprite numSprites ≤ MAX_SPRITE_COUNT) ∧
    (1 < U32 ∧ 4294967295 < U32) ∧
    (1 + 4294967295) % U32 = 0 ∧
    numSpritesAtCopy 1 4294967295 = 4294967295 ∧
    1 + recordsCopied t 1 4294967295 > MAX_SPRITE_COUNT ∧
    writeBuffer t sampleSpriteBuffer sampleData 1 4294967295 =
      Except.error Fault.outOfBounds := by
  refine ⟨fun f n h1 h2 => recordsCopied_no_wrap t f n h1 h2, by decide, by decide, by decide,
    ?_, ?_⟩
  · cases t <;> decide
  · rw [writeBuffer_memcpy t _ _ 1 4294967295 (by decide)]
    cases t <;> rfl

/-- C12 (what the code does): when the foundation, the physics SDK and the
cooking library are created and `PxCreateCudaContextManager` returns NULL,
`initPhysX` skips the check of line 627 and then calls
`mCudaContext->getGpuDispatcher()` at line 638 on the NULL pointer; it does not
return. -/
theorem initPhysX_null_cuda (env : PhysXEnv) (self : AppContext)
    (hfoundation : env.PxCreateFoundation ≠ none) (hphysics : env.PxCreatePhysics ≠ none)
    (hcooking : env.PxCreateCooking ≠ none)
    (hcuda : env.PxCreateCudaContextManager = none) :
    initPhysX env self = Except.error Fault.nullDeref ∧
    ∀ self2 t, initPhysX env self ≠ Except.ok (true, self2, t) := by
  have hfault : initPhysX env self = Except.error Fault.nullDeref := by
    cases h1 : env.PxCreateFoundation with
    | none => exact absurd h1 hfoundation
    | some o1 =>
      cases h2 : env.PxCreatePhysics with
      | none => exact absurd h2 hphysics
      | some o2 =>
        cases h3 : env.PxCreateCooking with
        | none => exact absurd h3 hcooking
        | some o3 => simp [initPhysX, h1, h2, h3, hcuda]
  refine ⟨hfault, ?_⟩
  intro self2 t h
  rw [hfault] at h
  cases h

theorem initPhysX_null_cuda_witness :
    noCudaEnv.PxCreateCudaContextManager = none ∧
    noCudaEnv.sceneDescIsValid noCudaEnv.PxDefaultCpuDispatcherCreate none = true ∧
    noCudaEnv.createScene ≠ none ∧
    initPhysX noCudaEnv (AppContext.new 1) = Except.error Fault.nullDeref :=
  ⟨rfl, rfl, by decide,
    (initPhysX_null_cuda noCudaEnv (AppContext.new 1) (by decide) (by decide) (by decide)
      rfl).1⟩

/-- C15: with a render volume, the calls of `printParticleData` are: lock the
volume, fetch its actor list, then for each actor in list order lock it, look
at its bounds, call `updateRenderResources` (and count its objects) only when
the bounds are not empty, unlock it, and at the end unlock the volume.  So the
locks are balanced and nested, and every `updateRenderResources` is made on
the actor locked innermost, which has non-empty bounds. -/
theorem printParticleData_lock_order (env : RenderEnv) (self : AppContext) (volume : Handle)
    (hvolume : self.mRenderVolume = some volume) :
    ∃ events, printParticleData env self = Except.ok events ∧
      events =
        [Event.lockRenderResources volume, Event.method volume "getIofxActorList"] ++
        ((env.getIofxActorList volume).map (actorSection env)).flatten ++
        [Event.unlockRenderResources volume] ∧
      lockDiscipline [] events = true ∧
      (∀ actor rewriteBuffers ctx,
        Event.updateRenderResources actor rewriteBuffers ctx ∈ events →
        env.boundsIsEmpty actor = false ∧ actor ∈ env.getIofxActorList volume) := by
  refine ⟨_, by simp only [printParticleData, hvolume, printActorLoop_sections], rfl, ?_, ?_⟩
  · have hstart : lockDiscipline []
        ([Event.lockRenderResources volume, Event.method volume "getIofxActorList"] ++
          ((env.getIofxActorList volume).map (actorSection env)).flatten ++
          [Event.unlockRenderResources volume]) =
        lockDiscipline [volume]
          (((env.getIofxActorList volume).map (actorSection env)).flatten ++
            [Event.unlockRenderResources volume]) := by
      simp [lockDiscipline]
    rw [hstart, lockDiscipline_sections]
    simp [lockDiscipline]
  · intro actor rewriteBuffers ctx h
    simp only [List.mem_append, List.mem_cons, List.mem_singleton, List.not_mem_nil,
      or_false] at h
    rcases h with (h | h) | h
    · rcases h with h | h <;> cases h
    · exact update_mem_sections env actor rewriteBuffers ctx _ h
    · cases h

theorem printParticleData_lock_order_witness :
    sampleRenderContext.mRenderVolume = some 23 ∧
    ∃ events, printParticleData sampleRenderEnv sampleRenderContext = Except.ok events ∧
      events =
        [Event.lockRenderResources 23, Event.method 23 "getIofxActorList"] ++
        ((sampleRenderEnv.getIofxActorList 23).map (actorSection sampleRenderEnv)).flatten ++
        [Event.unlockRenderResources 23] ∧
      lockDiscipline [] events = true ∧
      (∀ actor rewriteBuffers ctx,
        Event.updateRenderResources actor rewriteBuffers ctx ∈ events →
        sampleRenderEnv.boundsIsEmpty actor = false ∧
          actor ∈ sampleRenderEnv.getIofxActorList 23) :=
  ⟨rfl, printParticleData_lock_order sampleRenderEnv sampleRenderContext 23 rfl⟩

/-- C16 (what the code does): on a file system without a media folder, the
first asset request fails and leaves `../` twenty times before `media` in
`mPathToMedia`: the cache is not empty and holds a path the search never
tested.  The next asset request does not search again: although `../../media`
exists by then, it opens the asset file under the cached path. -/
theorem requestResource_caches_failed_search :
    sampleCallback.mPathToMedia = [] ∧
    (∃ out, requestResource noMediaEnv sampleCallback "IOFX".toList "SpriteIofx".toList =
      Except.ok (none, { sampleCallback with mPathToMedia := upDirs 20 "media".toList }, out)) ∧
    upDirs 20 "media".toList ≠ [] ∧
    noMediaEnv.fileExists (upDirs 20 "media".toList) = false ∧
    searchForPath sampleResourceEnv.fileExists "media".toList MAX_PATH 20 =
      Except.ok (true, "../../media".toList) ∧
    (∃ out, requestResource sampleResourceEnv
        { sampleCallback with mPathToMedia := upDirs 20 "media".toList }
        "IOFX".toList "SpriteIofx".toList =
      Except.ok (some 8, { sampleCallback with mPathToMedia := upDirs 20 "media".toList }, out) ∧
      Event.createStream (assetFileName sampleResourceEnv (upDirs 20 "media".toList)
        "SpriteIofx".toList) ∈ out) := by
  refine ⟨rfl, ?_, by decide, rfl, rfl, ?_⟩
  · exact requestResource_failed_search noMediaEnv sampleCallback "IOFX".toList
      "SpriteIofx".toList (by decide) (by decide) (Or.inr (Or.inl rfl)) rfl (fun _ _ => rfl)
  · exact ⟨_, rfl, by decide⟩

/-- C13: `createSpriteBuffer` and `createResource` append one new element to
their list and return its address; `releaseSpriteBuffer` and `releaseResource`
remove the elements stored at the given address and no other (exactly one
element when the addresses in the list are distinct and the address is in it),
and no call changes which addresses the other list holds.  After every sequence
of calls on a newly constructed manager that returns, `mSpriteBufferList`
holds exactly the sprite buffers created and not yet released, and
`mRenderResourceList` exactly the render resources created and not yet
released; the addresses in each list are distinct when the allocator hands out
fresh addresses.  The sequence returns when every `createResource` names a
sprite buffer the manager holds at that moment. -/
theorem manager_lists_hold_live_objects (calls : List ManagerCall) :
    (∀ (m : AppRenderResourceManager) address uninit,
      (createSpriteBuffer m address uninit).1 = address ∧
      (createSpriteBuffer m address uninit).2.1.mSpriteBufferList =
        m.mSpriteBufferList ++ [(address, AppSpriteBuffer.new uninit)] ∧
      (createSpriteBuffer m address uninit).2.1.mRenderResourceList =
        m.mRenderResourceList) ∧
    (∀ (m : AppRenderResourceManager) address desc r m2 out,
      createResource m address desc = Except.ok (r, m2, out) →
      r = address ∧
      m2.mRenderResourceList =
        m.mRenderResourceList ++ [(address, { mSpriteBuffer := desc.spriteBuffer })] ∧
      m2.spriteBufferAddresses = m.spriteBufferAddresses) ∧
    (∀ (m : AppRenderResourceManager) buffer,
      (releaseSpriteBuffer m buffer).1.mSpriteBufferList =
        m.mSpriteBufferList.filter (fun e => !(e.1 == buffer)) ∧
      (releaseSpriteBuffer m buffer).1.mRenderResourceList = m.mRenderResourceList ∧
      (m.spriteBufferAddresses.Nodup → buffer ∈ m.spriteBufferAddresses →
        (releaseSpriteBuffer m buffer).1.mSpriteBufferList.length + 1 =
          m.mSpriteBufferList.length)) ∧
    (∀ (m : AppRenderResourceManager) resource,
      (m.releaseResource resource).1.mRenderResourceList =
        m.mRenderResourceList.filter (fun e => !(e.1 == resource)) ∧
      (m.releaseResource resource).1.mSpriteBufferList = m.mSpriteBufferList ∧
      (m.renderResourceAddresses.Nodup → resource ∈ m.renderResourceAddresses →
        (m.releaseResource resource).1.mRenderResourceList.length + 1 =
          m.mRenderResourceList.length)) ∧
    (∀ m2, runManager AppRenderResourceManager.new calls = Except.ok m2 →
      ∀ a,
        (a ∈ m2.spriteBufferAddresses ↔
          createdNotReleased createsSpriteBuffer releasesSpriteBuffer a calls = true) ∧
        (a ∈ m2.renderResourceAddresses ↔
          createdNotReleased createsResource releasesResource a calls = true)) ∧
    (allocatorFreshRun AppRenderResourceManager.new calls = true →
      ∀ m2, runManager AppRenderResourceManager.new calls = Except.ok m2 →
        m2.spriteBufferAddresses.Nodup ∧ m2.renderResourceAddresses.Nodup) ∧
    (descriptorsLive AppRenderResourceManager.new calls = true →
      ∃ m2, runManager AppRenderResourceManager.new calls = Except.ok m2) := by
  refine ⟨fun m address uninit => ⟨rfl, rfl, rfl⟩, ?_, ?_, ?_, ?_, ?_, ?_⟩
  · intro m address desc r m2 out h
    obtain ⟨b, hb1, hb2⟩ := createResource_ok_inv m address desc _ h
    rw [createResource_eq m address b desc hb1 hb2] at h
    simp only [Except.ok.injEq, Prod.mk.injEq] at h
    obtain ⟨hr, hm2, _⟩ := h
    subst hm2
    refine ⟨hr.symm, by rw [hb1], ?_⟩
    simp only [AppRenderResourceManager.spriteBufferAddresses]
    exact map_fst_setContext _ _ _
  · intro m buffer
    refine ⟨rfl, rfl, ?_⟩
    intro hnodup hmem
    exact filter_address_length buffer m.mSpriteBufferList hnodup hmem
  · intro m resource
    refine ⟨rfl, rfl, ?_⟩
    intro hnodup hmem
    exact filter_address_length resource m.mRenderResourceList hnodup hmem
  · intro m2 h a
    have hs := mem_after_run (fun m => m.spriteBufferAddresses) createsSpriteBuffer
      releasesSpriteBuffer a (fun m m1 c hc => spriteAddress_step a m m1 c hc) calls _ m2 h
    have hr := mem_after_run (fun m => m.renderResourceAddresses) createsResource
      releasesResource a (fun m m1 c hc => resourceAddress_step a m m1 c hc) calls _ m2 h
    constructor
    · rw [hs]
      simp [AppRenderResourceManager.new, AppRenderResourceManager.spriteBufferAddresses]
    · rw [hr]
      simp [AppRenderResourceManager.new, AppRenderResourceManager.renderResourceAddresses]
  · intro hfresh m2 h
    exact run_invariant
      (fun m => m.spriteBufferAddresses.Nodup ∧ m.renderResourceAddresses.Nodup)
      nodup_step calls _ m2 hfresh h ⟨List.nodup_nil, List.nodup_nil⟩
  · intro hlive
    exact run_returns calls _ hlive

theorem manager_lists_hold_live_objects_witness :
    allocatorFreshRun AppRenderResourceManager.new sampleCalls = true ∧
    descriptorsLive AppRenderResourceManager.new sampleCalls = true ∧
    ∃ m2, runManager AppRenderResourceManager.new sampleCalls = Except.ok m2 ∧
      (50 ∈ m2.spriteBufferAddresses ↔
        createdNotReleased createsSpriteBuffer releasesSpriteBuffer 50 sampleCalls = true) ∧
      (60 ∈ m2.renderResourceAddresses ↔
        createdNotReleased createsResource releasesResource 60 sampleCalls = true) ∧
      m2.spriteBufferAddresses.Nodup ∧ m2.renderResourceAddresses.Nodup :=
  ⟨by decide, by decide, _, rfl,
    ((manager_lists_hold_live_objects sampleCalls).2.2.2.2.1 _ rfl 50).1,
    ((manager_lists_hold_live_objects sampleCalls).2.2.2.2.1 _ rfl 60).2,
    (manager_lists_hold_live_objects sampleCalls).2.2.2.2.2.1 (by decide) _ rfl⟩

/-- C14, the passage that fails: a sprite buffer made by `createSpriteBuffer`
is passed to `createResource` in a descriptor whose `userRenderData` is NULL.
The context data of the buffer equals `userRenderData`, and a `writeBuffer` on
it prints "no context", not a context. -/
theorem createResource_null_userRenderData :
    sampleManager.spriteBufferAddresses = [50] ∧
    ∃ m2 out buf,
      createResource sampleManager 60 { spriteBuffer := some 50, userRenderData := none } =
        Except.ok (60, m2, out) ∧
      m2.spriteBufferAt 50 = some buf ∧
      buf.mContextData = none ∧
      (∀ firstSprite numSprites,
        Event.printf "no context\n" [] ∈ writeBufferHeader buf firstSprite numSprites ∧
        ∀ c, Event.printf "this context: (%s)\n" [PrintfArg.str c] ∉
          writeBufferHeader buf firstSprite numSprites) :=
  ⟨rfl, _, _, _, rfl, rfl, rfl, fun _ _ => ⟨by simp [writeBufferHeader], fun c => by
    simp [writeBufferHeader]⟩⟩

/-- C14, amended: for a descriptor whose sprite buffer the manager holds,
`createResource` returns the address of a new last element of
`mRenderResourceList` whose `getSpriteBuffer` is that sprite buffer, and sets
the context data of the sprite buffer to `userRenderData`.  Every `writeBuffer`
on it that returns then prints that context when `userRenderData` is not NULL,
and "no context" when it is NULL.  A sprite buffer that was not passed to
`createResource` since its creation has NULL context. -/
theorem createResource_sets_context (m : AppRenderResourceManager) (address b : Handle)
    (desc : NxUserRenderResourceDesc) (hdesc : desc.spriteBuffer = some b)
    (hlive : b ∈ m.spriteBufferAddresses) :
    (∃ m2 out r buf,
      createResource m address desc = Except.ok (address, m2, out) ∧
      m2.mRenderResourceList = m.mRenderResourceList ++ [(address, r)] ∧
      r.getSpriteBuffer = some b ∧
      m2.spriteBufferAt b = some buf ∧
      buf.mContextData = desc.userRenderData ∧
      (∀ firstSprite numSprites,
        writeBufferHeader buf firstSprite numSprites =
          [Event.printf "writeBuffer called for %i sprites with "
            [PrintfArg.int (asInt32 ((numSprites + U32 - firstSprite) % U32))],
           (match desc.userRenderData with
            | some c => Event.printf "this context: (%s)\n" [PrintfArg.str c]
            | none => Event.printf "no context\n" [])]) ∧
      (∀ t data firstSprite numSprites buf2 out2,
        writeBuffer t buf data firstSprite numSprites = Except.ok (buf2, out2) →
        ∃ rest, out2 = writeBufferHeader buf firstSprite numSprites ++ rest)) ∧
    (∀ uninit, (AppSpriteBuffer.new uninit).mContextData = none) ∧
    (∀ (m0 : AppRenderResourceManager) x uninit, x ∉ m0.spriteBufferAddresses →
      ∀ e ∈ (createSpriteBuffer m0 x uninit).2.1.mSpriteBufferList,
        e.1 = x → e.2.mContextData = none) ∧
    (∀ (calls : List ManagerCall) (m0 m3 : AppRenderResourceManager) x,
      (∀ e ∈ m0.mSpriteBufferList, e.1 = x → e.2.mContextData = none) →
      calls.any (passesToCreateResource x) = false →
      runManager m0 calls = Except.ok m3 →
      ∀ buf, m3.spriteBufferAt x = some buf → buf.mContextData = none) := by
  refine ⟨?_, fun _ => rfl, ?_, ?_⟩
  · have hsome := (spriteBufferAt_isSome m b).mpr hlive
    cases hat : m.spriteBufferAt b with
    | none => rw [hat] at hsome; cases hsome
    | some buf0 =>
      have hafter : ∀ m2 : AppRenderResourceManager,
          m2.mSpriteBufferList = m.mSpriteBufferList.map (fun e =>
            if e.1 = b then (e.1, { e.2 with mContextData := desc.userRenderData })
            else e) →
          m2.spriteBufferAt b = some { buf0 with mContextData := desc.userRenderData } := by
        intro m2 hm2
        have hfind := find_setContext m.mSpriteBufferList b b desc.userRenderData
        simp only [AppRenderResourceManager.spriteBufferAt] at hat ⊢
        rw [hm2, hfind, hat]
        simp
      refine ⟨_, _, { mSpriteBuffer := some b },
        { buf0 with mContextData := desc.userRenderData },
        createResource_eq m address b desc hdesc hlive, rfl, rfl, hafter _ rfl, rfl, ?_, ?_⟩
      · intro firstSprite numSprites
        cases hctx : desc.userRenderData <;> simp [writeBufferHeader, hctx]
      · intro t data firstSprite numSprites buf2 out2 h
        exact writeBuffer_header_first t _ data firstSprite numSprites buf2 out2 h
  · intro m0 x uninit hfresh e he hx
    simp only [createSpriteBuffer, List.mem_append, List.mem_singleton] at he
    rcases he with he | he
    · exfalso
      apply hfresh
      rw [← hx]
      exact List.mem_map_of_mem (fun e => e.1) he
    · rw [he]; rfl
  · intro calls m0 m3 x hP hpass hrun buf hbuf
    exact contextNone_run x calls m0 m3 hrun hpass hP (x, buf)
      (spriteBufferAt_mem m3 x buf hbuf) rfl

theorem createResource_sets_context_witness :
    (({ spriteBuffer := some 50, userRenderData := some emitterParticleContext } :
      NxUserRenderResourceDesc).spriteBuffer = some 50) ∧
    50 ∈ sampleManager.spriteBufferAddresses ∧
    ∃ m2 out r buf,
      createResource sampleManager 60
          { spriteBuffer := some 50, userRenderData := some emitterParticleContext } =
        Except.ok (60, m2, out) ∧
      m2.mRenderResourceList = sampleManager.mRenderResourceList ++ [(60, r)] ∧
      r.getSpriteBuffer = some 50 ∧
      m2.spriteBufferAt 50 = some buf ∧
      buf.mContextData = some emitterParticleContext :=
  ⟨rfl, by decide, by
    obtain ⟨m2, out, r, buf, h1, h2, h3, h4, h5, _⟩ :=
      (createResource_sets_context sampleManager 60 50
        { spriteBuffer := some 50, userRenderData := some emitterParticleContext } rfl
        (by decide)).1
    exact ⟨m2, out, r, buf, h1, h2, h3, h4, h5⟩⟩

end MinimalTurbulence
